import Mathlib

/-!
# Windows sync connection object (ldap/servers/plugins/replication/windows_connection.c)

A shallow embedding of the connection object of the Windows sync plugin: the
connection record, the dispatch of write operations with the classification of
their results, connect / bind, disconnect, and the capability probes run by
connect.

Conventions of the embedding

* C `int` fields are `Int`; pointers that may be `NULL` are `Option`.
* The connection is mutated in place in C; here every function takes the
  `World` (the connection and the log of the calls made so far to the
  collaborators: LDAP library, agreement object, password storage) and returns
  the new `World` with the returned value.
* Whatever a collaborator answers during a call is an explicit argument of the
  function (`OpReply`, `SearchReply`, `ConnectEnv`), so a theorem quantified
  over that argument holds for every behaviour of the peer.
* Constants that come from headers which are not part of the file are fields
  of `Headers`, a parameter of every function that uses one.
* Logging, memory release and the connection lock are not modelled: the
  embedding is sequential.
-/

namespace WindowsConnection

/-! ## Constants and types from outside the file -/

/-- Constants the file takes from headers that are not part of it: the result
codes of `ldap.h`, the transport flags and replication identifiers of
`repl5.h`, the init flags of `slapi-plugin.h`, and the capability identifiers
and the street-address alias of `windowsrepl.h`. -/
structure Headers where
  LDAP_SUCCESS : Int
  LDAP_SERVER_DOWN : Int
  LDAP_CONNECT_ERROR : Int
  LDAP_INVALID_CREDENTIALS : Int
  LDAP_INAPPROPRIATE_AUTH : Int
  LDAP_LOCAL_ERROR : Int
  LDAP_TIMEOUT : Int
  LDAP_UNWILLING_TO_PERFORM : Int
  LDAP_ALREADY_EXISTS : Int
  LDAP_NO_SUCH_OBJECT : Int
  LDAP_RES_SEARCH_ENTRY : Int
  LDAP_RES_SEARCH_RESULT : Int
  LDAP_RES_SEARCH_REFERENCE : Int
  TRANSPORT_FLAG_STARTTLS : Int
  TRANSPORT_FLAG_LDAPS : Int
  SLAPI_LDAP_INIT_FLAG_SSL : Int
  SLAPI_LDAP_INIT_FLAG_startTLS : Int
  REPL_DIRSYNC_CONTROL_OID : String
  REPL_WIN2K3_AD_OID : String
  REPL_NSDS50_UPDATE_INFO_CONTROL_OID : String
  REPL_START_NSDS50_REPLICATION_REQUEST_OID : String
  REPL_END_NSDS50_REPLICATION_REQUEST_OID : String
  REPL_NSDS50_REPLICATION_ENTRY_REQUEST_OID : String
  REPL_NSDS50_REPLICATION_RESPONSE_OID : String
  FAKE_STREET_ATTR_NAME : String
deriving DecidableEq

/-- The ten LDAP codes named by the file are pairwise different numbers, as
they are in every `ldap.h`. -/
def Headers.Distinct (K : Headers) : Prop :=
  List.Pairwise (fun a b => a ≠ b)
    [K.LDAP_SUCCESS, K.LDAP_SERVER_DOWN, K.LDAP_CONNECT_ERROR, K.LDAP_INVALID_CREDENTIALS,
     K.LDAP_INAPPROPRIATE_AUTH, K.LDAP_LOCAL_ERROR, K.LDAP_TIMEOUT,
     K.LDAP_UNWILLING_TO_PERFORM, K.LDAP_ALREADY_EXISTS, K.LDAP_NO_SUCH_OBJECT]

instance (K : Headers) : Decidable K.Distinct := by
  unfold Headers.Distinct; infer_instance

/-- One instance of the header constants: the numbers of the OpenLDAP `ldap.h`
(protocol codes as in RFC 4511) and of the 389 directory server headers. Used
to evaluate the embedding on concrete inputs. -/
def openldap : Headers where
  LDAP_SUCCESS := 0
  LDAP_SERVER_DOWN := -1
  LDAP_CONNECT_ERROR := -11
  LDAP_INVALID_CREDENTIALS := 49
  LDAP_INAPPROPRIATE_AUTH := 48
  LDAP_LOCAL_ERROR := -2
  LDAP_TIMEOUT := -5
  LDAP_UNWILLING_TO_PERFORM := 53
  LDAP_ALREADY_EXISTS := 68
  LDAP_NO_SUCH_OBJECT := 32
  LDAP_RES_SEARCH_ENTRY := 100
  LDAP_RES_SEARCH_RESULT := 101
  LDAP_RES_SEARCH_REFERENCE := 115
  TRANSPORT_FLAG_STARTTLS := 2
  TRANSPORT_FLAG_LDAPS := 1
  SLAPI_LDAP_INIT_FLAG_SSL := 1
  SLAPI_LDAP_INIT_FLAG_startTLS := 2
  REPL_DIRSYNC_CONTROL_OID := "1.2.840.113556.1.4.841"
  REPL_WIN2K3_AD_OID := "1.2.840.113556.1.4.1670"
  REPL_NSDS50_UPDATE_INFO_CONTROL_OID := "2.16.840.1.113730.3.4.13"
  REPL_START_NSDS50_REPLICATION_REQUEST_OID := "2.16.840.1.113730.3.5.3"
  REPL_END_NSDS50_REPLICATION_REQUEST_OID := "2.16.840.1.113730.3.5.5"
  REPL_NSDS50_REPLICATION_ENTRY_REQUEST_OID := "2.16.840.1.113730.3.5.6"
  REPL_NSDS50_REPLICATION_RESPONSE_OID := "2.16.840.1.113730.3.5.4"
  FAKE_STREET_ATTR_NAME := "in#place#of#streetaddress"

/-- Modelled from the spec: the operation-outcome enumeration `ConnResult`,
declared in repl5.h which is not part of the file. The spec lists success,
failed-with-protocol-error, not-connected, timed-out, local-error and the
capability-probe outcomes; the constructors carry the names the file uses. -/
inductive ConnResult where
  | CONN_OPERATION_SUCCESS
  | CONN_OPERATION_FAILED
  | CONN_NOT_CONNECTED
  | CONN_SUPPORTS_DS5_REPL
  | CONN_DOES_NOT_SUPPORT_DS5_REPL
  | CONN_LOCAL_ERROR
  | CONN_SSL_NOT_ENABLED
  | CONN_TIMEOUT
  | CONN_SUPPORTS_DIRSYNC
  | CONN_DOES_NOT_SUPPORT_DIRSYNC
  | CONN_IS_WIN2K3
  | CONN_NOT_WIN2K3
deriving DecidableEq

open ConnResult

/-- A transport handle (`LDAP *` when it is not `NULL`). -/
structure LDAP where
  id : Nat
deriving DecidableEq

/-- A handle on a queued timer event (`Slapi_Eq_Context`). -/
structure Slapi_Eq_Context where
  id : Nat
deriving DecidableEq

/-- A reference to the replication agreement that owns the connection. -/
structure Repl_Agmt where
  id : Nat
deriving DecidableEq

/-- The `struct timeval` of the request timeout. -/
structure timeval where
  tv_sec : Int
  tv_usec : Int
deriving DecidableEq

/-! ## The connection record (lines 30-60) -/

/-- The `repl_connection` record; the lock is left out. -/
structure Repl_Connection where
  hostname : Option String
  port : Int
  binddn : Option String
  bindmethod : Int
  state : Int
  last_operation : Int
  last_ldap_error : Int
  status : String
  last_ldap_errmsg : Option String
  transport_flags : Int
  ld : Option LDAP
  supports_ldapv3 : Int
  supports_ds50_repl : Int
  supports_ds40_repl : Int
  supports_ds71_repl : Int
  supports_ds90_repl : Int
  linger_time : Int
  supports_dirsync : Int
  linger_active : Bool
  linger_event : Option Slapi_Eq_Context
  delete_after_linger : Bool
  refcnt : Int
  agmt : Option Repl_Agmt
  timeout : timeval
  flag_agmt_changed : Int
  plain : Option String
  is_win2k3 : Int
deriving DecidableEq

def DEFAULT_LINGER_TIME : Int := 60

def STATE_CONNECTED : Int := 600
def STATE_DISCONNECTED : Int := 601

def STATUS_DISCONNECTED : String := "disconnected"
def STATUS_CONNECTED : String := "connected"
def STATUS_PROCESSING_ADD : String := "processing add operation"
def STATUS_PROCESSING_DELETE : String := "processing delete operation"
def STATUS_PROCESSING_MODIFY : String := "processing modify operation"
def STATUS_PROCESSING_RENAME : String := "processing rename operation"
def STATUS_PROCESSING_EXTENDED_OPERATION : String := "processing extended operation"
def STATUS_LINGERING : String := "lingering"
def STATUS_SHUTTING_DOWN : String := "shutting down"
def STATUS_BINDING : String := "connecting and binding"
def STATUS_SEARCHING : String := "processing search operation"

def CONN_NO_OPERATION : Int := 0
def CONN_ADD : Int := 1
def CONN_DELETE : Int := 2
def CONN_MODIFY : Int := 3
def CONN_RENAME : Int := 4
def CONN_EXTENDED_OPERATION : Int := 5
def CONN_BIND : Int := 6
def CONN_INIT : Int := 7
def CONN_SEARCH : Int := 8

/-- The macro `IS_DISCONNECT_ERROR` (line 105): the errors after which the
connection is closed and retried later. -/
def IS_DISCONNECT_ERROR (K : Headers) (rc : Int) : Bool :=
  rc == K.LDAP_SERVER_DOWN || rc == K.LDAP_CONNECT_ERROR || rc == K.LDAP_INVALID_CREDENTIALS ||
    rc == K.LDAP_INAPPROPRIATE_AUTH || rc == K.LDAP_LOCAL_ERROR

/-! ## Calls to the collaborators -/

/-- The arguments of a write request handed to `windows_perform_operation`. -/
structure Request where
  dn : Option String
  attrs : Option (List (String × List String))
  newrdn : Option String
  newparent : Option String
  deleteoldrdn : Int
  server_controls : Option (List String)
  extop_oid : Option String
  extop_payload : Option String
deriving DecidableEq

/-- A call made by the file to one of its collaborators, in the order made. -/
inductive ExtCall where
  | ldap_add_ext (ld : Option LDAP) (r : Request)
  | ldap_modify_ext (ld : Option LDAP) (r : Request)
  | ldap_delete_ext (ld : Option LDAP) (r : Request)
  | ldap_rename (ld : Option LDAP) (r : Request)
  | ldap_extended_operation (ld : Option LDAP) (r : Request)
  | ldap_result (ld : Option LDAP)
  | ldap_parse_result (ld : Option LDAP)
  | ldap_search_ext_s (ld : Option LDAP) (base : Option String) (attrs : Option (List String))
  | agmt_get_credentials
  | pw_rever_decode
  | NSS_IsInitialized
  | slapi_ldap_init_ext (hostname : Option String) (port : Int) (secure : Int)
  | slapi_ldap_bind (ld : Option LDAP) (binddn : Option String) (password : Option String)
  | slapi_ldap_unbind (ld : LDAP)
  | windows_private_set_isnt4 (isit : Int)
  | windows_private_set_iswin2k3 (isit : Int)
  | slapi_eq_once_rel (when : Int)
  | slapi_eq_cancel_rel (ev : Option Slapi_Eq_Context)
  | ldap_search_ext (ld : Option LDAP) (dirsync_control : Bool)
deriving DecidableEq

/-- The connection together with the log of the calls made to collaborators. -/
structure World where
  conn : Repl_Connection
  calls : List ExtCall
deriving DecidableEq

/-- Append one collaborator call to the log. -/
def World.call (w : World) (c : ExtCall) : World :=
  { w with calls := w.calls ++ [c] }

/-! ## Creation and the connected predicate (lines 114-174) -/

/-- What the getters of the agreement answer while a function runs. -/
structure AgmtView where
  hostname : Option String
  port : Int
  binddn : Option String
  bindmethod : Int
  transport_flags : Int
  timeout : Int
deriving DecidableEq

/-- The function `windows_conn_new`. The record comes from `slapi_ch_malloc`, so
the fields the function does not assign keep the content `raw` of the fresh
block; `lock_ok` tells whether `PR_NewLock` gave a lock (otherwise the function
returns `NULL`). -/
def windows_conn_new (K : Headers) (raw : Repl_Connection) (lock_ok : Bool)
    (agmt : Option Repl_Agmt) (cfg : AgmtView) : Option Repl_Connection :=
  if !lock_ok then none
  else some { raw with
    hostname := cfg.hostname
    port := cfg.port
    binddn := cfg.binddn
    bindmethod := cfg.bindmethod
    transport_flags := cfg.transport_flags
    ld := none
    state := STATE_DISCONNECTED
    last_operation := CONN_NO_OPERATION
    last_ldap_error := K.LDAP_SUCCESS
    last_ldap_errmsg := none
    supports_ldapv3 := -1
    supports_ds40_repl := -1
    supports_ds50_repl := -1
    supports_dirsync := -1
    is_win2k3 := -1
    linger_active := false
    delete_after_linger := false
    linger_event := none
    linger_time := DEFAULT_LINGER_TIME
    status := STATUS_DISCONNECTED
    agmt := agmt
    refcnt := 1
    timeout := { tv_sec := cfg.timeout, tv_usec := 0 }
    flag_agmt_changed := 0
    plain := none }

/-- The function `windows_conn_connected`: the state is `STATE_CONNECTED`. -/
def windows_conn_connected (conn : Repl_Connection) : Bool :=
  STATE_CONNECTED == conn.state

/-! ## Closing the connection (lines 1327-1356) -/

/-- The function `close_connection_internal`: unbind the transport if there is
one, then clear the handle, the state, the status and the ds5-repl flag. -/
def close_connection_internal (w : World) : World :=
  let w1 : World :=
    match w.conn.ld with
    | some ld => w.call (ExtCall.slapi_ldap_unbind ld)
    | none => w
  { w1 with conn := { w1.conn with
      ld := none
      state := STATE_DISCONNECTED
      status := STATUS_DISCONNECTED
      supports_ds50_repl := -1 } }

/-- The function `windows_conn_disconnect`: close under the lock. -/
def windows_conn_disconnect (w : World) : World :=
  close_connection_internal w

/-- The function `windows_conn_delete_internal` (lines 180-191): close, then
release the host name, the bind DN and the decoded credential
(`slapi_ch_free` leaves each pointer `NULL`). -/
def windows_conn_delete_internal (w : World) : World :=
  let w1 := close_connection_internal w
  { w1 with conn := { w1.conn with hostname := none, binddn := none, plain := none } }

/-- The timer callback `linger_timeout` (lines 1077-1101): if the linger is
still active, clear it and close the connection; then destroy the connection
if deletion was asked for while it lingered. -/
def linger_timeout (w : World) : World :=
  let w1 : World :=
    if w.conn.linger_active then
      close_connection_internal
        { w with conn := { w.conn with linger_active := false, linger_event := none } }
    else w
  let delete_now := w1.conn.delete_after_linger
  if delete_now then windows_conn_delete_internal w1 else w1

/-! ## Dispatch of a write operation (lines 266-451) -/

/-- What the LDAP library and the peer answer during one
`windows_perform_operation`: the value returned by the request call, the value
returned by `ldap_result`, the error number read by `slapi_ldap_get_lderrno`
after it, the value returned by `ldap_parse_result` and the result code `err`
it stores. -/
structure OpReply where
  send_rc : Int
  result_rc : Int
  lderrno : Int
  parse_rc : Int
  err : Int
deriving DecidableEq

/-- The `switch (optype)` of `windows_perform_operation`: set the status, issue
the request, and give its return value; `rc` keeps its initial `-1` for an
operation type that is none of the five cases. -/
def send_request (w : World) (optype : Int) (r : Request) (peer : OpReply) : World × Int :=
  if optype = CONN_ADD then
    (({ w with conn := { w.conn with status := STATUS_PROCESSING_ADD } } : World).call
      (ExtCall.ldap_add_ext w.conn.ld r), peer.send_rc)
  else if optype = CONN_MODIFY then
    (({ w with conn := { w.conn with status := STATUS_PROCESSING_MODIFY } } : World).call
      (ExtCall.ldap_modify_ext w.conn.ld r), peer.send_rc)
  else if optype = CONN_DELETE then
    (({ w with conn := { w.conn with status := STATUS_PROCESSING_DELETE } } : World).call
      (ExtCall.ldap_delete_ext w.conn.ld r), peer.send_rc)
  else if optype = CONN_RENAME then
    (({ w with conn := { w.conn with status := STATUS_PROCESSING_RENAME } } : World).call
      (ExtCall.ldap_rename w.conn.ld r), peer.send_rc)
  else if optype = CONN_EXTENDED_OPERATION then
    (({ w with conn := { w.conn with status := STATUS_PROCESSING_EXTENDED_OPERATION } } : World).call
      (ExtCall.ldap_extended_operation w.conn.ld r), peer.send_rc)
  else (w, -1)

/-- Set the last LDAP error of the connection. -/
def World.set_error (w : World) (e : Int) : World :=
  { w with conn := { w.conn with last_ldap_error := e } }

/-- Set the status label of the connection. -/
def World.set_status (w : World) (s : String) : World :=
  { w with conn := { w.conn with status := s } }

/-- The branch of `windows_perform_operation` taken when a result message was
obtained (lines 345-425): parse it, classify the pair of the parse return value
and the result code, and set the status to connected at the end. -/
def classify_result (K : Headers) (w : World) (optype : Int) (peer : OpReply) :
    World × ConnResult :=
  let w1 := w.call (ExtCall.ldap_parse_result w.conn.ld)
  let rc := peer.parse_rc
  let err := peer.err
  let out : World × ConnResult :=
    if IS_DISCONNECT_ERROR K rc then
      (windows_conn_disconnect (w1.set_error rc), CONN_NOT_CONNECTED)
    else if IS_DISCONNECT_ERROR K err then
      (windows_conn_disconnect (w1.set_error err), CONN_NOT_CONNECTED)
    else if err = K.LDAP_UNWILLING_TO_PERFORM ∧ optype = CONN_MODIFY then
      (w1.set_error K.LDAP_SUCCESS, CONN_OPERATION_SUCCESS)
    else if err = K.LDAP_ALREADY_EXISTS ∧ optype = CONN_ADD then
      (w1.set_error err, CONN_OPERATION_SUCCESS)
    else if err = K.LDAP_NO_SUCH_OBJECT ∧ optype = CONN_DELETE then
      (w1.set_error K.LDAP_SUCCESS, CONN_OPERATION_SUCCESS)
    else
      let w2 := if K.LDAP_SUCCESS ≠ rc then w1.set_error rc else w1.set_error err
      (w2, if K.LDAP_SUCCESS = w2.conn.last_ldap_error then CONN_OPERATION_SUCCESS
           else CONN_OPERATION_FAILED)
  (out.1.set_status STATUS_CONNECTED, out.2)

/-- The function `windows_perform_operation`: send one add, modify, delete,
rename or extended operation and collect its result. -/
def windows_perform_operation (K : Headers) (w : World) (optype : Int) (r : Request)
    (peer : OpReply) : World × ConnResult :=
  if windows_conn_connected w.conn then
    let w0 : World := { w with conn := { w.conn with last_operation := optype } }
    let sent := send_request w0 optype r peer
    let w1 := sent.1
    let rc := sent.2
    if K.LDAP_SUCCESS = rc then
      let w2 := w1.call (ExtCall.ldap_result w1.conn.ld)
      let rc := peer.result_rc
      if 0 = rc then
        (w2.set_error K.LDAP_TIMEOUT, CONN_TIMEOUT)
      else if -1 = rc then
        let rc := peer.lderrno
        let w3 := w2.set_error rc
        if IS_DISCONNECT_ERROR K rc then
          (windows_conn_disconnect w3, CONN_NOT_CONNECTED)
        else
          (w3.set_status STATUS_CONNECTED, CONN_OPERATION_FAILED)
      else
        classify_result K w2 optype peer
    else
      let w2 := w1.set_error rc
      if IS_DISCONNECT_ERROR K rc then
        (windows_conn_disconnect w2, CONN_NOT_CONNECTED)
      else
        (w2.set_status STATUS_CONNECTED, CONN_OPERATION_FAILED)
  else
    (w, CONN_NOT_CONNECTED)

/-- The five senders (lines 830-970) call `windows_perform_operation` with the
operation type and leave the arguments that do not apply `NULL`. -/
def windows_conn_send_add (K : Headers) (w : World) (dn : Option String)
    (attrs : Option (List (String × List String))) (server_controls : Option (List String))
    (peer : OpReply) : World × ConnResult :=
  windows_perform_operation K w CONN_ADD
    { dn := dn, attrs := attrs, newrdn := none, newparent := none, deleteoldrdn := 0,
      server_controls := server_controls, extop_oid := none, extop_payload := none } peer

def windows_conn_send_delete (K : Headers) (w : World) (dn : Option String)
    (server_controls : Option (List String)) (peer : OpReply) : World × ConnResult :=
  windows_perform_operation K w CONN_DELETE
    { dn := dn, attrs := none, newrdn := none, newparent := none, deleteoldrdn := 0,
      server_controls := server_controls, extop_oid := none, extop_payload := none } peer

def windows_conn_send_modify (K : Headers) (w : World) (dn : Option String)
    (mods : Option (List (String × List String))) (server_controls : Option (List String))
    (peer : OpReply) : World × ConnResult :=
  windows_perform_operation K w CONN_MODIFY
    { dn := dn, attrs := mods, newrdn := none, newparent := none, deleteoldrdn := 0,
      server_controls := server_controls, extop_oid := none, extop_payload := none } peer

def windows_conn_send_rename (K : Headers) (w : World) (dn newrdn newparent : Option String)
    (deleteoldrdn : Int) (server_controls : Option (List String)) (peer : OpReply) :
    World × ConnResult :=
  windows_perform_operation K w CONN_RENAME
    { dn := dn, attrs := none, newrdn := newrdn, newparent := newparent,
      deleteoldrdn := deleteoldrdn, server_controls := server_controls, extop_oid := none,
      extop_payload := none } peer

def windows_conn_send_extended_operation (K : Headers) (w : World)
    (extop_oid payload : Option String) (server_controls : Option (List String))
    (peer : OpReply) : World × ConnResult :=
  windows_perform_operation K w CONN_EXTENDED_OPERATION
    { dn := none, attrs := none, newrdn := none, newparent := none, deleteoldrdn := 0,
      server_controls := server_controls, extop_oid := extop_oid, extop_payload := payload } peer

/-! ## Capability probes run by connect (lines 1428-1582) -/

/-- One attribute of a returned entry: its type and what `ldap_get_values_len`
gives for it (`NULL` or the values). -/
structure LDAPAttribute where
  atype : String
  vals : Option (List String)
deriving DecidableEq

/-- What `ldap_search_ext_s` answers to a probe: its return value and the first
entry of the result (`NULL` when there is none). -/
structure SearchReply where
  rc : Int
  entry : Option (List LDAPAttribute)
deriving DecidableEq

/-- The test `strcasecmp(a, b) == 0`: equal up to the case of ASCII letters
(both strings are compared character by character after lowering each). -/
def strcasecmp_eq (a b : String) : Bool :=
  a.data.map Char.toLower == b.data.map Char.toLower

/-- The function `attribute_string_value_present`: 1 if `value` is a value of
an attribute of type `type` in the entry, else 0. The two loops stop at the
first hit, so they are existence tests. -/
def attribute_string_value_present (entry : Option (List LDAPAttribute)) (type value : String) :
    Int :=
  match entry with
  | none => 0
  | some attrs =>
    if attrs.any (fun a => strcasecmp_eq a.atype type &&
        (match a.vals with
         | none => false
         | some vals => vals.any (fun v => v == value))) then 1 else 0

/-- The function `windows_conn_replica_supports_dirsync`; `use_ds` tells
whether the environment variable WINSYNC_USE_DS is set. -/
def windows_conn_replica_supports_dirsync (K : Headers) (w : World) (use_ds : Bool)
    (reply : SearchReply) : World × ConnResult :=
  if use_ds then
    ({ w with conn := { w.conn with supports_dirsync := 1 } }, CONN_SUPPORTS_DIRSYNC)
  else if windows_conn_connected w.conn then
    if w.conn.supports_dirsync = -1 then
      let w1 := (w.set_status STATUS_SEARCHING).call
        (ExtCall.ldap_search_ext_s w.conn.ld (some "") (some ["supportedcontrol"]))
      let ldap_rc := reply.rc
      if K.LDAP_SUCCESS = ldap_rc then
        let w2 : World := { w1 with conn := { w1.conn with supports_dirsync := 0 } }
        if attribute_string_value_present reply.entry "supportedcontrol"
            K.REPL_DIRSYNC_CONTROL_OID = 0 then
          (w2, CONN_DOES_NOT_SUPPORT_DIRSYNC)
        else
          ({ w2 with conn := { w2.conn with supports_dirsync := 1 } }, CONN_SUPPORTS_DIRSYNC)
      else if IS_DISCONNECT_ERROR K ldap_rc then
        (windows_conn_disconnect (w1.set_error ldap_rc), CONN_NOT_CONNECTED)
      else
        (w1, CONN_OPERATION_FAILED)
    else
      (w, if w.conn.supports_dirsync ≠ 0 then CONN_SUPPORTS_DIRSYNC
          else CONN_DOES_NOT_SUPPORT_DIRSYNC)
  else
    (w, CONN_NOT_CONNECTED)

/-- The function `windows_conn_replica_is_win2k3`. -/
def windows_conn_replica_is_win2k3 (K : Headers) (w : World) (reply : SearchReply) :
    World × ConnResult :=
  if windows_conn_connected w.conn then
    if w.conn.is_win2k3 = -1 then
      let w1 := (w.set_status STATUS_SEARCHING).call
        (ExtCall.ldap_search_ext_s w.conn.ld (some "") (some ["supportedCapabilities"]))
      let ldap_rc := reply.rc
      if K.LDAP_SUCCESS = ldap_rc then
        let w2 : World := { w1 with conn := { w1.conn with is_win2k3 := 0 } }
        if attribute_string_value_present reply.entry "supportedCapabilities"
            K.REPL_WIN2K3_AD_OID = 0 then
          (w2, CONN_NOT_WIN2K3)
        else
          ({ w2 with conn := { w2.conn with is_win2k3 := 1 } }, CONN_IS_WIN2K3)
      else if IS_DISCONNECT_ERROR K ldap_rc then
        (windows_conn_disconnect (w1.set_error ldap_rc), CONN_NOT_CONNECTED)
      else
        (w1, CONN_OPERATION_FAILED)
    else
      (w, if w.conn.is_win2k3 ≠ 0 then CONN_IS_WIN2K3 else CONN_NOT_WIN2K3)
  else
    (w, CONN_NOT_CONNECTED)

/-- The function `windows_conn_replica_supports_ds5_repl` (lines 1369-1425):
the peer supports the DS 5 replication protocol when its root entry lists the
update-info control and the four replication extensions. -/
def windows_conn_replica_supports_ds5_repl (K : Headers) (w : World) (reply : SearchReply) :
    World × ConnResult :=
  if windows_conn_connected w.conn then
    if w.conn.supports_ds50_repl = -1 then
      let w1 := (w.set_status STATUS_SEARCHING).call
        (ExtCall.ldap_search_ext_s w.conn.ld (some "")
          (some ["supportedcontrol", "supportedextension"]))
      let ldap_rc := reply.rc
      if K.LDAP_SUCCESS = ldap_rc then
        let w2 : World := { w1 with conn := { w1.conn with supports_ds50_repl := 0 } }
        if attribute_string_value_present reply.entry "supportedcontrol"
            K.REPL_NSDS50_UPDATE_INFO_CONTROL_OID = 0 then
          (w2, CONN_DOES_NOT_SUPPORT_DS5_REPL)
        else if attribute_string_value_present reply.entry "supportedextension"
            K.REPL_START_NSDS50_REPLICATION_REQUEST_OID = 0 then
          (w2, CONN_DOES_NOT_SUPPORT_DS5_REPL)
        else if attribute_string_value_present reply.entry "supportedextension"
            K.REPL_END_NSDS50_REPLICATION_REQUEST_OID = 0 then
          (w2, CONN_DOES_NOT_SUPPORT_DS5_REPL)
        else if attribute_string_value_present reply.entry "supportedextension"
            K.REPL_NSDS50_REPLICATION_ENTRY_REQUEST_OID = 0 then
          (w2, CONN_DOES_NOT_SUPPORT_DS5_REPL)
        else if attribute_string_value_present reply.entry "supportedextension"
            K.REPL_NSDS50_REPLICATION_RESPONSE_OID = 0 then
          (w2, CONN_DOES_NOT_SUPPORT_DS5_REPL)
        else
          ({ w2 with conn := { w2.conn with supports_ds50_repl := 1 } }, CONN_SUPPORTS_DS5_REPL)
      else if IS_DISCONNECT_ERROR K ldap_rc then
        (windows_conn_disconnect (w1.set_error ldap_rc), CONN_NOT_CONNECTED)
      else
        (w1, CONN_OPERATION_FAILED)
    else
      (w, if w.conn.supports_ds50_repl ≠ 0 then CONN_SUPPORTS_DS5_REPL
          else CONN_DOES_NOT_SUPPORT_DS5_REPL)
  else
    (w, CONN_NOT_CONNECTED)

/-- The entry advertises `value` under the attribute `type`: it has an
attribute of that type, compared without regard to case, one of whose values is
`value`. -/
def entry_advertises (entry : Option (List LDAPAttribute)) (type value : String) : Prop :=
  ∃ attrs, entry = some attrs ∧
    ∃ a ∈ attrs, strcasecmp_eq a.atype type = true ∧ ∃ vals, a.vals = some vals ∧ value ∈ vals

/-- The log entries that are protocol searches. -/
def ExtCall.is_search : ExtCall → Bool
  | ExtCall.ldap_search_ext_s _ _ _ => true
  | _ => false

/-- The number of protocol searches in the log. -/
def World.searches (w : World) : Nat :=
  w.calls.countP ExtCall.is_search

/-! ## Connect and bind (lines 1149-1324, 1649-1729) -/

/-- The function `bind_and_check_pwp`: bind, record the return value `rc` of
`slapi_ldap_bind` as the last error when it differs from the one recorded, and
report success exactly when `rc` is `LDAP_SUCCESS`. -/
def bind_and_check_pwp (K : Headers) (w : World) (binddn password : Option String) (rc : Int) :
    World × ConnResult :=
  let w1 := w.call (ExtCall.slapi_ldap_bind w.conn.ld binddn password)
  if rc = K.LDAP_SUCCESS then
    (if w1.conn.last_ldap_error ≠ rc then w1.set_error rc else w1, CONN_OPERATION_SUCCESS)
  else
    (if w1.conn.last_ldap_error ≠ rc then w1.set_error rc else w1, CONN_OPERATION_FAILED)

/-- What the collaborators answer during one `windows_conn_connect`: the
getters of the agreement, `pw_rever_decode` (return value and decoded
password), `NSS_IsInitialized`, `slapi_ldap_init_ext`, `slapi_ldap_bind`,
`slapi_ldap_get_lderrno` after the bind, the presence of WINSYNC_USE_DS in the
environment, and the answers to the two probe searches. -/
structure ConnectEnv where
  agmt : AgmtView
  pw_ret : Int
  plain : Option String
  nss_initialized : Bool
  new_ld : Option LDAP
  bind_rc : Int
  lderrno : Int
  use_ds : Bool
  dirsync_reply : SearchReply
  win2k3_reply : SearchReply
deriving DecidableEq

/-- The block of `windows_conn_connect` under the lock (lines 1166-1180): when
the agreement changed, read again bind DN, bind method, transport flags and
timeout, clear the flag and drop the decoded credential. -/
def connect_refresh (w : World) (env : ConnectEnv) : World :=
  if w.conn.flag_agmt_changed ≠ 0 then
    { w with conn := { w.conn with
        binddn := env.agmt.binddn
        bindmethod := env.agmt.bindmethod
        transport_flags := env.agmt.transport_flags
        timeout := { w.conn.timeout with tv_sec := env.agmt.timeout }
        flag_agmt_changed := 0
        plain := none } }
  else w

/-- The value of `secure` computed from the transport flags (lines 1213-1217). -/
def connect_secure (K : Headers) (transport_flags : Int) : Int :=
  if transport_flags = K.TRANSPORT_FLAG_STARTTLS then K.SLAPI_LDAP_INIT_FLAG_startTLS
  else if transport_flags = K.TRANSPORT_FLAG_LDAPS then K.SLAPI_LDAP_INIT_FLAG_SSL
  else 0

/-- The end of `windows_conn_connect` once the transport is open (lines
1277-1314): bind, run the two probes and report them to the agreement, then
close the transport if the bind failed, else set the state to connected. -/
def connect_bind (K : Headers) (w : World) (binddn : Option String) (env : ConnectEnv) :
    World × ConnResult :=
  let b := bind_and_check_pwp K w binddn w.conn.plain env.bind_rc
  let bound : World × ConnResult :=
    if b.2 = CONN_OPERATION_FAILED then
      ({ b.1 with conn := { b.1.conn with
          last_ldap_error := env.lderrno, state := STATE_DISCONNECTED } },
        CONN_OPERATION_FAILED)
    else
      ({ b.1 with conn := { b.1.conn with
          last_ldap_error := K.LDAP_SUCCESS, state := STATE_CONNECTED } },
        CONN_OPERATION_SUCCESS)
  let return_value := bound.2
  let d := windows_conn_replica_supports_dirsync K bound.1 env.use_ds env.dirsync_reply
  let w1 := d.1.call (ExtCall.windows_private_set_isnt4
    (if d.2 = CONN_DOES_NOT_SUPPORT_DIRSYNC then 1 else 0))
  let k := windows_conn_replica_is_win2k3 K w1 env.win2k3_reply
  let w2 := k.1.call (ExtCall.windows_private_set_iswin2k3
    (if k.2 = CONN_IS_WIN2K3 then 1 else 0))
  if return_value = CONN_OPERATION_FAILED then
    (close_connection_internal w2, return_value)
  else
    ({ w2 with conn := { w2.conn with
        last_ldap_error := K.LDAP_SUCCESS, state := STATE_CONNECTED } }, return_value)

/-- The function `windows_conn_connect`. Each `goto done` of the source is a
branch that returns at once; `return_value` still holds its initial
`CONN_OPERATION_SUCCESS` at the test of line 1231, whose block is inlined. The
`ldap_set_option` calls on the fresh handle are not logged. -/
def windows_conn_connect (K : Headers) (w : World) (env : ConnectEnv) : World × ConnResult :=
  if w.conn.state = STATE_CONNECTED then
    (w, CONN_OPERATION_SUCCESS)
  else
    let w1 := (connect_refresh w env).call ExtCall.agmt_get_credentials
    let decoded : World × Bool :=
      if w1.conn.plain = none then
        let w2 := w1.call ExtCall.pw_rever_decode
        if env.pw_ret = -1 then
          ({ w2 with conn := { w2.conn with
              last_ldap_error := K.LDAP_INVALID_CREDENTIALS, state := STATE_DISCONNECTED } },
            false)
        else
          ({ w2 with conn := { w2.conn with plain := env.plain } }, true)
      else (w1, true)
    if !decoded.2 then
      (decoded.1, CONN_OPERATION_FAILED)
    else
      let w3 := decoded.1
      let secure := connect_secure K w3.conn.transport_flags
      if secure > 0 ∧ env.nss_initialized = false then
        ({ (w3.call ExtCall.NSS_IsInitialized) with conn := { w3.conn with
            last_ldap_error := K.LDAP_INAPPROPRIATE_AUTH, last_operation := CONN_INIT } },
          CONN_SSL_NOT_ENABLED)
      else
        let w4 := if secure > 0 then w3.call ExtCall.NSS_IsInitialized else w3
        let w5 : World := { (w4.call
          (ExtCall.slapi_ldap_init_ext w4.conn.hostname w4.conn.port secure)) with
            conn := { w4.conn with ld := env.new_ld } }
        if w5.conn.ld = none then
          ({ w5 with conn := { w5.conn with
              state := STATE_DISCONNECTED, last_operation := CONN_INIT,
              last_ldap_error := K.LDAP_LOCAL_ERROR } }, CONN_OPERATION_FAILED)
        else
          let binddn := w5.conn.binddn
          let w6 : World := { w5 with conn := { w5.conn with last_operation := CONN_BIND } }
          connect_bind K w6 binddn env

/-! ## Materialised entries

The entry type and its operations belong to the server core (slapd), which is
not part of the file. They are modelled from the data model of the spec: an
entry is a DN, a mapping from attribute name to an ordered sequence of values,
and a side set of names of attributes deleted on the peer. Attribute names are
compared without regard to case, as `strcasecmp` does. -/

/-- Modelled from the spec: one attribute of a materialised entry (`Slapi_Attr`
of slapd), a name with its ordered values. -/
structure Slapi_Attr where
  a_type : String
  a_vals : List String
deriving DecidableEq

/-- Modelled from the spec: a materialised entry (`Slapi_Entry` of slapd): the
DN, the attributes, and the names of the attributes recorded as deleted. -/
structure Slapi_Entry where
  dn : Option String
  e_attrs : List Slapi_Attr
  e_deleted_attrs : List String
deriving DecidableEq

/-- Modelled from the spec: `slapi_entry_attr_find` (slapd), the attribute the
entry holds under the name, if any. -/
def slapi_entry_attr_find (e : Slapi_Entry) (type : String) : Option Slapi_Attr :=
  e.e_attrs.find? (fun a => strcasecmp_eq a.a_type type)

/-- Merge values into a list of attributes: append them to the attribute of
that name, or add the attribute at the end when there is none. -/
def attrlist_merge (type : String) (vals : List String) : List Slapi_Attr → List Slapi_Attr
  | [] => [{ a_type := type, a_vals := vals }]
  | a :: rest =>
    if strcasecmp_eq a.a_type type then { a with a_vals := a.a_vals ++ vals } :: rest
    else a :: attrlist_merge type vals rest

/-- Modelled from the spec: `slapi_entry_add_values` (slapd), which merges the
values into the entry under the name; nothing is added when there is no value
(`NULL` or an empty array). -/
def slapi_entry_add_values (e : Slapi_Entry) (type : String) (vals : Option (List String)) :
    Slapi_Entry :=
  match vals with
  | none => e
  | some [] => e
  | some (v :: vs) => { e with e_attrs := attrlist_merge type (v :: vs) e.e_attrs }

/-- Modelled from the spec: `slapi_entry_add_value` (slapd) called with a
`NULL` value, which makes the entry hold the attribute without adding a
value. -/
def slapi_entry_add_value_null (e : Slapi_Entry) (type : String) : Slapi_Entry :=
  { e with e_attrs := attrlist_merge type [] e.e_attrs }

/-- Modelled from the spec: `entry_add_deleted_attribute_wsi` (slapd), which
records the name among the deleted attributes of the entry. -/
def entry_add_deleted_attribute_wsi (e : Slapi_Entry) (type : String) : Slapi_Entry :=
  { e with e_deleted_attrs := e.e_deleted_attrs ++ [type] }

/-- Modelled from the spec: `charray_inlist` (slapd), whether the name is in
the array, compared without regard to case. -/
def charray_inlist (a : List String) (s : String) : Bool :=
  a.any (fun x => strcasecmp_eq x s)

/-! ## Attribute names with subtypes (lines 514-558)

A C string is modelled by the list of its characters, each standing for one
byte. -/

def SUBTYPERANGE : String := "range="

/-- The tokens that successive calls of `ldap_utf8strtok_r` with the delimiter
`;` cut out of a string, each with the offset of its first character: `off` is
the offset of the head of the string that is left, `cur` the token being read
(its offset and its characters so far, last one first). -/
def strtok_scan : List Char → Nat → Option (Nat × List Char) → List (Nat × List Char)
  | [], _, none => []
  | [], _, some (o, t) => [(o, t.reverse)]
  | c :: cs, off, none =>
    if c = ';' then strtok_scan cs (off + 1) none
    else strtok_scan cs (off + 1) (some (off, [c]))
  | c :: cs, off, some (o, t) =>
    if c = ';' then (o, t.reverse) :: strtok_scan cs (off + 1) none
    else strtok_scan cs (off + 1) (some (o, c :: t))

/-- The test `strncasecmp(p, SUBTYPERANGE, sizeof(SUBTYPERANGE) - 1) == 0`. -/
def is_range_subtype (p : List Char) : Bool :=
  (p.take 6).map Char.toLower == SUBTYPERANGE.data.map Char.toLower

/-- The call `strchr(p, c)`: the rest of the string from the first `c` on, or
`NULL`. -/
def strchr (c : Char) : List Char → Option (List Char)
  | [] => none
  | x :: xs => if x = c then some (x :: xs) else strchr c xs

/-- The value of a run of decimal digits read from the left, starting from
`acc`. -/
def digits_value (acc : Nat) : List Char → Nat
  | [] => acc
  | c :: cs => if c.isDigit then digits_value (acc * 10 + (c.toNat - 48)) cs else acc

/-- The test `isspace(c)` of the C locale: space, tab, line feed, vertical tab,
form feed, carriage return. -/
def isspace (c : Char) : Bool :=
  c = ' ' || c = '\t' || c = '\n' || c = '\x0b' || c = '\x0c' || c = '\r'

/-- The call `strtol(s, &end, 10)` on a platform with 64-bit `long`: skip white
space, read an optional sign and the decimal digits that follow, and clamp the
value to the range of `long`. -/
def strtol (s : List Char) : Int :=
  let s1 := s.dropWhile isspace
  let v : Int :=
    match s1 with
    | '-' :: r => - (digits_value 0 r : Int)
    | '+' :: r => (digits_value 0 r : Int)
    | _ => (digits_value 0 s1 : Int)
  if v > 9223372036854775807 then 9223372036854775807
  else if v < -9223372036854775808 then -9223372036854775808
  else v

/-- The conversion of a `long` to a 32-bit `int`: the value modulo 2^32, taken
in the range from -2^31 to 2^31 - 1. -/
def to_int (x : Int) : Int :=
  (x + 2147483648) % 4294967296 - 2147483648

/-- What `PR_snprintf` leaves in a buffer of `size` bytes when asked to print
`s`: at most `size - 1` characters. -/
def PR_snprintf (size : Nat) (s : List Char) : List Char :=
  s.take (size - 1)

/-- The work variables of the subtype loop: `newa`, the copy of the name
without its range subtypes (`NULL` until a range subtype is met), and `high`. -/
structure SubtypeScan where
  newa : Option (List Char)
  high : Int
deriving DecidableEq

/-- One turn of the loop `while (p)` (lines 525-558) for the subtype `p` found
at offset `tok.1` of the name `a`. A range subtype cuts `newa` right before the
separator of the subtype the first time, then reads the upper bound after the
first `-`: `*` gives 0, a number greater than 0 gives that number plus one (as
a 32-bit `int`). Any other subtype is appended to `newa` once `newa` exists.
The result is `none` when the range subtype has no `-`: the source then
dereferences `NULL + 1`. -/
def scan_subtype (a : List Char) (st : SubtypeScan) (tok : Nat × List Char) :
    Option SubtypeScan :=
  let sizea := a.length + 2
  let p := tok.2
  if is_range_subtype p then
    let newa : List Char :=
      match st.newa with
      | none => (PR_snprintf sizea a).take (tok.1 - 1)
      | some n => n
    match strchr '-' p with
    | none => none
    | some pp =>
      let pp1 := pp.drop 1
      if pp1.head? = some '*' then
        some { newa := some newa, high := 0 }
      else
        let high := to_int (strtol pp1)
        some { newa := some newa, high := if high > 0 then to_int (high + 1) else high }
  else
    match st.newa with
    | some n => some { st with newa := some (n ++ PR_snprintf (sizea - n.length) (';' :: p)) }
    | none => some st

/-- The whole subtype loop on the name `a`: the first token is the primary
type, the others are the subtypes. -/
def scan_subtypes (a : List Char) : Option SubtypeScan :=
  ((strtok_scan a 0 none).drop 1).foldlM (scan_subtype a) { newa := none, high := 0 }

/-- The name `type_to_use` under which the values are merged (lines 561-568). -/
def type_to_use (K : Headers) (a : String) (newa : Option (List Char)) : String :=
  if strcasecmp_eq a "streetaddress" then K.FAKE_STREET_ATTR_NAME
  else
    match newa with
    | some n => String.mk n
    | none => a

/-- The next-range name printed at line 601: `newa` followed by
`;range=<high>-*`, cut to what fits in the buffer of `strlen(a) + 2` bytes. -/
def next_range_name (a : List Char) (newa : List Char) (high : Int) : String :=
  String.mk (newa ++ PR_snprintf (a.length + 2 - newa.length)
    (';' :: (SUBTYPERANGE.data ++ (toString high).data ++ ['-', '*'])))

/-! ## From a response to an entry (lines 462-632) -/

/-- A response message that carries one entry: the DN `ldap_get_dn` gives and
the attributes in the order `ldap_first_attribute` / `ldap_next_attribute` give
them. -/
structure LDAPMessage where
  dn : Option String
  attrs : List LDAPAttribute
deriving DecidableEq

/-- The variables of `windows_LDAPMessage2Entry` that change in the loop over
the attributes. The out-parameter `exattrs` is `none` when the caller passed
`NULL`, `some none` when it points to a `NULL` array, `some (some l)` when it
points to an array holding the names `l`. -/
structure M2EState where
  e : Slapi_Entry
  rawentry : Slapi_Entry
  deletedattrs : List String
  exattrs : Option (Option (List String))
  exattrlen : Nat
  exattridx : Nat
deriving DecidableEq

/-- The attributes skipped at lines 501-509. -/
def m2e_skipped (a : String) : Bool :=
  strcasecmp_eq a "dnsRecord" || strcasecmp_eq a "dnsproperty" ||
    strcasecmp_eq a "dscorepropagationdata"

/-- Lines 589-607: when the caller gave an out-parameter and a next range is
needed, and only when `exattrlen == exattridx`, make room in the array, print
the next-range name and store it. The result is `none` where the source runs
into undefined behaviour: `newa` is `NULL`, or the array given by the caller is
reallocated to zero bytes and then written. -/
def m2e_next_range (st : M2EState) (a : List Char) (scan : SubtypeScan) : Option M2EState :=
  match st.exattrs with
  | none => some st
  | some arr =>
    if scan.high > 0 then
      if st.exattrlen = st.exattridx then
        match scan.newa with
        | none => none
        | some newa =>
          match arr with
          | none =>
            some { st with exattrlen := 4, exattridx := 1,
                           exattrs := some (some [next_range_name a newa scan.high]) }
          | some l =>
            if st.exattrlen = 0 then none
            else
              some { st with exattrlen := st.exattrlen * 2, exattridx := st.exattridx + 1,
                             exattrs := some (some (l.take st.exattridx ++
                               [next_range_name a newa scan.high])) }
      else some st
    else some st

/-- Lines 570-587: an attribute that came without values has its name added to
the list of deleted attributes unless the list has it; the values of any other
attribute are merged into the entry under the name. -/
def m2e_merge (st : M2EState) (type : String) (vals : Option (List String)) : M2EState :=
  match vals with
  | none =>
    if !charray_inlist st.deletedattrs type then
      { st with deletedattrs := st.deletedattrs ++ [type] }
    else st
  | some vals => { st with e := slapi_entry_add_values st.e type (some vals) }

/-- The body of the loop over the attributes (lines 497-612) for one attribute. -/
def m2e_attribute (K : Headers) (attrsonly : Int) (st : M2EState) (x : LDAPAttribute) :
    Option M2EState :=
  let a := x.atype
  let st1 : M2EState := { st with rawentry := slapi_entry_add_values st.rawentry a x.vals }
  if m2e_skipped a then some st1
  else if attrsonly ≠ 0 then
    some { st1 with e := slapi_entry_add_value_null st1.e a }
  else
    match scan_subtypes a.data with
    | none => none
    | some scan =>
      m2e_next_range (m2e_merge st1 (type_to_use K a scan.newa) x.vals) a.data scan

/-- Lines 616-627: record as deleted every accumulated name under which the
entry holds no attribute. -/
def m2e_tombstones (e : Slapi_Entry) (deletedattrs : List String) : Slapi_Entry :=
  deletedattrs.foldl
    (fun e dap =>
      if (slapi_entry_attr_find e dap).isNone then entry_add_deleted_attribute_wsi e dap else e)
    e

/-- What `windows_LDAPMessage2Entry` gives back: the entry it returns, the raw
entry it last handed to the agreement with `windows_private_set_raw_entry`
(`NULL` after the clearing at the start), and the content of the
out-parameter. -/
structure Materialized where
  entry : Option Slapi_Entry
  rawentry : Option Slapi_Entry
  exattrs : Option (Option (List String))
deriving DecidableEq

/-- The variables of `windows_LDAPMessage2Entry` before the loop (lines
466-495): the entry given by the caller, or a fresh one with the DN `dn` of the
message; an empty raw entry with the same DN; no deleted attribute; the
counters of the out-parameter at 0. -/
def m2e_init (e : Option Slapi_Entry) (dn : Option String)
    (exattrs : Option (Option (List String))) : M2EState :=
  let e0 : Slapi_Entry :=
    match e with
    | some e => e
    | none => { dn := dn, e_attrs := [], e_deleted_attrs := [] }
  { e := e0, rawentry := { dn := e0.dn, e_attrs := [], e_deleted_attrs := [] },
    deletedattrs := [], exattrs := exattrs, exattrlen := 0, exattridx := 0 }

/-- The function `windows_LDAPMessage2Entry`. The result is `none` where the
source runs into undefined behaviour (see `scan_subtype`, `m2e_next_range`). -/
def windows_LDAPMessage2Entry (K : Headers) (e : Option Slapi_Entry) (msg : Option LDAPMessage)
    (attrsonly : Int) (exattrs : Option (Option (List String))) : Option Materialized :=
  match msg with
  | none => some { entry := none, rawentry := none, exattrs := exattrs }
  | some m =>
    match m.attrs.foldlM (m2e_attribute K attrsonly) (m2e_init e m.dn exattrs) with
    | none => none
    | some st =>
      some { entry := some (m2e_tombstones st.e st.deletedattrs),
             rawentry := some st.rawentry,
             exattrs := st.exattrs }

/-! ## Searching one entry (lines 642-743) -/

/-- What `ldap_search_ext_s` answers to one search of `windows_search_entry_ext`:
its return value and the first entry of the result (`ldap_first_entry`, `NULL`
when there is none). -/
structure EntrySearchReply where
  rc : Int
  message : Option LDAPMessage
deriving DecidableEq

/-- The search base and the attribute list with which the first search is
made: the arguments of the caller as the pre-search callback of the winsync
plugin leaves them (the attribute list is `NULL` unless the callback sets
one). -/
structure AdSearch where
  searchbase : Option String
  attrs : Option (List String)
deriving DecidableEq

/-- The part of `windows_search_entry_ext` from the label `next` on (lines
672-736). Each search takes the next answer of the peer from `replies`; the
result is `none` when the answers run out before the function returns, or when
the materialiser has no result. `attrs` is the attribute list of the search to
make, `entry` the content of `*entry`. -/
def search_entry_next (K : Headers) (searchbase : Option String) :
    List EntrySearchReply → World → Option (List String) → Option Slapi_Entry →
      Option (World × Option Slapi_Entry × ConnResult)
  | [], _, _, _ => none
  | reply :: rest, w, attrs, entry =>
    let w1 := w.call (ExtCall.ldap_search_ext_s w.conn.ld searchbase attrs)
    let ldap_rc := reply.rc
    if K.LDAP_SUCCESS = ldap_rc then
      match windows_LDAPMessage2Entry K entry reply.message 0 (some none) with
      | none => none
      | some m =>
        match m.exattrs with
        | some (some exattrs) => search_entry_next K searchbase rest w1 (some exattrs) m.entry
        | _ => some (w1.set_error ldap_rc, m.entry, CONN_OPERATION_SUCCESS)
    else if IS_DISCONNECT_ERROR K ldap_rc then
      some ((windows_conn_disconnect w1).set_error ldap_rc, entry, CONN_NOT_CONNECTED)
    else
      some (w1.set_error ldap_rc, entry, CONN_OPERATION_FAILED)

/-- The function `windows_search_entry_ext`; `entry_given` tells whether the
caller passed a place for the entry. The function gives back the connection,
the content of `*entry` and its return value. -/
def windows_search_entry_ext (K : Headers) (w : World) (entry_given : Bool) (search : AdSearch)
    (replies : List EntrySearchReply) : Option (World × Option Slapi_Entry × ConnResult) :=
  if !entry_given then some (w, none, CONN_LOCAL_ERROR)
  else if windows_conn_connected w.conn then
    search_entry_next K search.searchbase replies w search.attrs none
  else some (w, none, CONN_NOT_CONNECTED)

/-! ## Lingering and deletion (lines 193-225, 1041-1138) -/

/-- The function `windows_conn_delete`; `cancel_rc` is what
`slapi_eq_cancel_rel` returns (1 when the event was found in the queue and
cancelled). `destroy_it` is set only inside the test of `linger_active`. -/
def windows_conn_delete (w : World) (cancel_rc : Int) : World :=
  if w.conn.linger_active then
    let w1 := w.call (ExtCall.slapi_eq_cancel_rel w.conn.linger_event)
    if cancel_rc = 1 then windows_conn_delete_internal w1
    else { w1 with conn := { w1.conn with delete_after_linger := true } }
  else w

/-- The function `windows_conn_cancel_linger`; `cancel_rc` is what
`slapi_eq_cancel_rel` returns. The decrement `conn->refcnt--` is that of an
`int`, taken modulo 2^32 like the other `int` arithmetic of the embedding. -/
def windows_conn_cancel_linger (w : World) (cancel_rc : Int) : World :=
  if w.conn.linger_active then
    let w1 := w.call (ExtCall.slapi_eq_cancel_rel w.conn.linger_event)
    { w1 with conn := { w1.conn with
        linger_active := false
        refcnt := if cancel_rc = 1 then to_int (w1.conn.refcnt - 1) else w1.conn.refcnt
        linger_event := none
        status := STATUS_CONNECTED } }
  else w

/-- The function `windows_conn_start_linger`; `now` is what
`slapi_current_rel_time_t` returns and `ev` the handle `slapi_eq_once_rel`
gives back. Reading the clock is not logged. -/
def windows_conn_start_linger (w : World) (now : Int) (ev : Option Slapi_Eq_Context) : World :=
  if !windows_conn_connected w.conn then w
  else if w.conn.linger_active then w
  else
    let w1 := w.call (ExtCall.slapi_eq_once_rel (now + w.conn.linger_time))
    { w1 with conn := { w1.conn with
        linger_active := true, linger_event := ev, status := STATUS_LINGERING } }

/-! ## Small accessors (lines 228-250, 1029-1038, 1598-1621) -/

/-- The function `windows_conn_get_error`: the last operation and the last
LDAP error. -/
def windows_conn_get_error (conn : Repl_Connection) : Int × Int :=
  (conn.last_operation, conn.last_ldap_error)

/-- The function `windows_conn_set_error`. -/
def windows_conn_set_error (w : World) (error : Int) : World :=
  w.set_error error

/-- The function `windows_conn_get_status`. -/
def windows_conn_get_status (conn : Repl_Connection) : String :=
  conn.status

/-- The function `windows_conn_set_timeout`. -/
def windows_conn_set_timeout (w : World) (timeout : Int) : World :=
  { w with conn := { w.conn with timeout := { w.conn.timeout with tv_sec := timeout } } }

/-- The function `windows_conn_set_agmt_changed`: raise the flag when the
connection has an agreement. -/
def windows_conn_set_agmt_changed (w : World) : World :=
  if w.conn.agmt ≠ none then { w with conn := { w.conn with flag_agmt_changed := 1 } }
  else w

/-! ## The incremental search and the reads (lines 745-827, 891-955, 982-1027) -/

/-- The function `send_dirsync_search`; `rc` is what `ldap_search_ext` returns.
The search is logged with whether the function added the dirsync control to
the server controls (the winsync callback that may adjust the search
parameters is taken to leave the controls as they are). The value 0 assigned
to `return_value` on success is the first enumerator,
`CONN_OPERATION_SUCCESS`. -/
def send_dirsync_search (K : Headers) (w : World) (rc : Int) : World × ConnResult :=
  if windows_conn_connected w.conn then
    let dirsync_control : Bool := if w.conn.supports_dirsync = 0 then false else true
    let w1 : World := { w with conn := { w.conn with
        last_operation := CONN_SEARCH, status := STATUS_SEARCHING } }
    let w2 := w1.call (ExtCall.ldap_search_ext w1.conn.ld dirsync_control)
    if K.LDAP_SUCCESS = rc then (w2, CONN_OPERATION_SUCCESS)
    else
      let w3 := w2.set_error rc
      if IS_DISCONNECT_ERROR K rc then (windows_conn_disconnect w3, CONN_NOT_CONNECTED)
      else (w3.set_status STATUS_CONNECTED, CONN_OPERATION_FAILED)
  else (w, CONN_NOT_CONNECTED)

/-- The function `windows_conn_get_search_result`; `result_rc` is what
`ldap_result` returns, `dn_given` tells whether `ldap_get_dn` gave a DN, and
`msg` is the first entry of the result. The result is `none` where the
materialiser has none. The connection record is only read. -/
def windows_conn_get_search_result (K : Headers) (w : World) (result_rc : Int) (dn_given : Bool)
    (msg : Option LDAPMessage) : Option (World × Option Slapi_Entry) :=
  if windows_conn_connected w.conn then
    let w1 := w.call (ExtCall.ldap_result w.conn.ld)
    if result_rc = 0 ∨ result_rc = -1 ∨ result_rc = K.LDAP_RES_SEARCH_REFERENCE then
      some (w1, none)
    else if result_rc = K.LDAP_RES_SEARCH_RESULT then
      some (w1.call (ExtCall.ldap_parse_result w1.conn.ld), none)
    else if result_rc = K.LDAP_RES_SEARCH_ENTRY then
      if dn_given then
        match windows_LDAPMessage2Entry K none msg 0 none with
        | none => none
        | some m => some (w1, m.entry)
      else some (w1, none)
    else some (w1, none)
  else some (w, none)

/-- The function `windows_conn_read_entry_attribute`; the values it hands back
through `returned_bvals` are left out. -/
def windows_conn_read_entry_attribute (K : Headers) (w : World) (dn : Option String)
    (type : String) (reply : SearchReply) : World × ConnResult :=
  if windows_conn_connected w.conn then
    let w1 := w.call (ExtCall.ldap_search_ext_s w.conn.ld dn (some [type]))
    let ldap_rc := reply.rc
    if K.LDAP_SUCCESS = ldap_rc then (w1.set_error ldap_rc, CONN_OPERATION_SUCCESS)
    else if IS_DISCONNECT_ERROR K ldap_rc then
      ((windows_conn_disconnect w1).set_error ldap_rc, CONN_NOT_CONNECTED)
    else (w1.set_error ldap_rc, CONN_OPERATION_FAILED)
  else (w, CONN_NOT_CONNECTED)

/-! ## Checking a user password (lines 1734-1817) -/

/-- What the collaborators answer during one `windows_check_user_password`:
the answers for the connect, the return value of the bind of the user and the
error number read after it, the return value of `ldap_result` and the error
number read after it, the return value of `ldap_parse_result` and the result
code it stores, and the return value of the bind that restores the identity of
the agreement. -/
structure PasswordCheckEnv where
  connect : ConnectEnv
  try_rc : Int
  try_lderrno : Int
  result_rc : Int
  result_lderrno : Int
  parse_rc : Int
  bind_result : Int
  rebind_rc : Int
deriving DecidableEq

/-- The function `do_simple_bind`: bind, and record an error number that
differs from the recorded one, or success after a recorded error. -/
def do_simple_bind (K : Headers) (w : World) (binddn password : Option String)
    (rc ldaperr : Int) : World :=
  let w1 := w.call (ExtCall.slapi_ldap_bind w.conn.ld binddn password)
  if K.LDAP_SUCCESS ≠ rc then
    if w1.conn.last_ldap_error ≠ ldaperr then w1.set_error ldaperr else w1
  else if w1.conn.last_ldap_error ≠ K.LDAP_SUCCESS then w1.set_error K.LDAP_SUCCESS
  else w1

/-- The function `windows_check_user_password`: connect if need be, bind as
the user, read the result of the bind, and bind again as the agreement. -/
def windows_check_user_password (K : Headers) (w : World) (binddn password : Option String)
    (env : PasswordCheckEnv) : World × Int :=
  let w1 := (windows_conn_connect K w env.connect).1
  let w2 := do_simple_bind K w1 binddn password env.try_rc env.try_lderrno
  let w3 := w2.call (ExtCall.ldap_result w2.conn.ld)
  let read : World × Int :=
    if 0 > env.result_rc then (w3, env.result_lderrno)
    else if env.result_rc = 0 then (w3, -1)
    else
      (w3.call (ExtCall.ldap_parse_result w3.conn.ld),
        if env.parse_rc ≠ K.LDAP_SUCCESS then -1 else env.bind_result)
  ((bind_and_check_pwp K read.1 read.1.conn.binddn read.1.conn.plain env.rebind_rc).1, read.2)

/-! ## Public calls and timer callbacks as steps -/

/-- One public call of the file, or one run of the timer callback, takes the
connection from the first world to the second. -/
inductive PublicStep (K : Headers) : World → World → Prop where
  | connect (w : World) (env : ConnectEnv) : PublicStep K w (windows_conn_connect K w env).1
  | disconnect (w : World) : PublicStep K w (windows_conn_disconnect w)
  | delete (w : World) (cancel_rc : Int) : PublicStep K w (windows_conn_delete w cancel_rc)
  | send (w : World) (optype : Int) (r : Request) (peer : OpReply) :
      PublicStep K w (windows_perform_operation K w optype r peer).1
  | search_entry (w : World) (entry_given : Bool) (search : AdSearch)
      (replies : List EntrySearchReply) (w2 : World) (e : Option Slapi_Entry) (r : ConnResult)
      (h : windows_search_entry_ext K w entry_given search replies = some (w2, e, r)) :
      PublicStep K w w2
  | dirsync_search (w : World) (rc : Int) : PublicStep K w (send_dirsync_search K w rc).1
  | get_search_result (w : World) (result_rc : Int) (dn_given : Bool) (msg : Option LDAPMessage)
      (w2 : World) (e : Option Slapi_Entry)
      (h : windows_conn_get_search_result K w result_rc dn_given msg = some (w2, e)) :
      PublicStep K w w2
  | read_entry_attribute (w : World) (dn : Option String) (type : String)
      (reply : SearchReply) :
      PublicStep K w (windows_conn_read_entry_attribute K w dn type reply).1
  | supports_ds5_repl (w : World) (reply : SearchReply) :
      PublicStep K w (windows_conn_replica_supports_ds5_repl K w reply).1
  | supports_dirsync (w : World) (use_ds : Bool) (reply : SearchReply) :
      PublicStep K w (windows_conn_replica_supports_dirsync K w use_ds reply).1
  | is_win2k3 (w : World) (reply : SearchReply) :
      PublicStep K w (windows_conn_replica_is_win2k3 K w reply).1
  | start_linger (w : World) (now : Int) (ev : Option Slapi_Eq_Context) :
      PublicStep K w (windows_conn_start_linger w now ev)
  | cancel_linger (w : World) (cancel_rc : Int) :
      PublicStep K w (windows_conn_cancel_linger w cancel_rc)
  | timer (w : World) : PublicStep K w (linger_timeout w)
  | set_error (w : World) (error : Int) : PublicStep K w (windows_conn_set_error w error)
  | set_timeout (w : World) (timeout : Int) : PublicStep K w (windows_conn_set_timeout w timeout)
  | set_agmt_changed (w : World) : PublicStep K w (windows_conn_set_agmt_changed w)
  | check_user_password (w : World) (binddn password : Option String)
      (env : PasswordCheckEnv) :
      PublicStep K w (windows_check_user_password K w binddn password env).1

/-- The worlds reached from a connection that `windows_conn_new` made, with an
empty call log, by public calls and timer callbacks. -/
inductive Reachable (K : Headers) : World → Prop where
  | created (raw : Repl_Connection) (agmt : Option Repl_Agmt) (cfg : AgmtView)
      (c : Repl_Connection) (h : windows_conn_new K raw true agmt cfg = some c) :
      Reachable K { conn := c, calls := [] }
  | step (w w2 : World) (hw : Reachable K w) (hs : PublicStep K w w2) : Reachable K w2

/-- The linger bookkeeping of a connection: whether it lingers, the timer
handle, the deferred deletion, the reference count and the linger time. -/
def linger_fields (c : Repl_Connection) :
    Bool × Option Slapi_Eq_Context × Bool × Int × Int :=
  (c.linger_active, c.linger_event, c.delete_after_linger, c.refcnt, c.linger_time)

/-- The configuration of a connection: host, port, bind DN, bind method,
transport flags, timeout, the agreement-changed flag and the decoded
credential. -/
def config_fields (c : Repl_Connection) :
    Option String × Int × Option String × Int × Int × timeval × Int × Option String :=
  (c.hostname, c.port, c.binddn, c.bindmethod, c.transport_flags, c.timeout,
    c.flag_agmt_changed, c.plain)

/-- The connection after `n` rounds of start linger and cancel linger in which
each cancel finds the timer in the queue; each round has its own clock reading
and timer handle. -/
def linger_cycles (w : World) : List (Int × Option Slapi_Eq_Context) → World
  | [] => w
  | (now, ev) :: rest =>
    linger_cycles (windows_conn_cancel_linger (windows_conn_start_linger w now ev) 1) rest

/-! ## Attribute names built from their parts -/

/-- The attribute name made of a base name and subtypes, each subtype after a
`;`. -/
def attr_name (base : List Char) (subs : List (List Char)) : List Char :=
  base ++ (subs.map (fun s => ';' :: s)).flatten

/-- The name `base;range=low-high`. -/
def ranged_name (base low high : List Char) : String :=
  String.mk (attr_name base [SUBTYPERANGE.data ++ low ++ '-' :: high])

/-- Every range subtype of the name can be read: each subtype that starts with
`range=` has a `-`, as in `range=low-high` and `range=low-*`. -/
def ranges_readable (a : List Char) : Prop :=
  ∀ tok ∈ (strtok_scan a 0 none).drop 1, is_range_subtype tok.2 = true → '-' ∈ tok.2

/-- The name the specification gives for the values of the attribute called
`base` with the subtypes `subs`: the canonical alias for the legacy name
`streetaddress`, otherwise the base name followed by the subtypes that are no
range in their order, otherwise (no range subtype) the name unchanged. -/
def spec_merge_name (K : Headers) (base : List Char) (subs : List (List Char)) : String :=
  if strcasecmp_eq (String.mk (attr_name base subs)) "streetaddress" then
    K.FAKE_STREET_ATTR_NAME
  else if subs.any is_range_subtype then
    String.mk (attr_name base (subs.filter (fun s => !is_range_subtype s)))
  else String.mk (attr_name base subs)

/-- The out-parameter as the callers in the file hand it over, and as the loop
keeps it: no out-parameter, or one that holds `NULL`, or an array with room
left (`exattrlen` differs from `exattridx`). -/
def out_param_fresh (st : M2EState) : Prop :=
  st.exattrs = none ∨ st.exattrs = some none ∨ st.exattrlen ≠ st.exattridx

instance (a : List Char) : Decidable (ranges_readable a) :=
  inferInstanceAs (Decidable (∀ tok ∈ (strtok_scan a 0 none).drop 1,
    is_range_subtype tok.2 = true → '-' ∈ tok.2))

/-- The attribute `x` of a response is not skipped and `n` is the name under
which it is merged (`type_to_use`, the name without its range subtypes). -/
def merged_under (K : Headers) (x : LDAPAttribute) (n : String) : Prop :=
  m2e_skipped x.atype = false ∧
    ∃ scan, scan_subtypes x.atype.data = some scan ∧ type_to_use K x.atype scan.newa = n

/-- The values the entry holds under the name, none when it does not hold the
attribute. -/
def attr_values (e : Slapi_Entry) (n : String) : List String :=
  match slapi_entry_attr_find e n with
  | some a => a.a_vals
  | none => []

/-- One round of the retrieval of a ranged attribute: the DN of the entry in
the response, the attributes that come before and after the ranged one, the
bounds `low` and `high` of the range as written, and the values of the
fragment. -/
structure RangeRound where
  dn : Option String
  before : List LDAPAttribute
  low : List Char
  high : List Char
  vals : List String
  after : List LDAPAttribute
deriving DecidableEq

/-- The response of a round, in which the fragment comes under `name`. -/
def RangeRound.message (r : RangeRound) (name : String) : LDAPMessage :=
  { dn := r.dn, attrs := r.before ++ [⟨name, some r.vals⟩] ++ r.after }

/-- The answer of the peer in a round: success and the response of the round. -/
def RangeRound.reply (K : Headers) (r : RangeRound) (name : String) : EntrySearchReply :=
  { rc := K.LDAP_SUCCESS, message := some (r.message name) }

/-- The other attributes of a round have no subtype, and none of them is merged
under the name `base`. -/
def RangeRound.others_apart (K : Headers) (base : List Char) (r : RangeRound) : Prop :=
  ∀ y ∈ r.before ++ r.after, ';' ∉ y.atype.data ∧
    (m2e_skipped y.atype = true ∨
      strcasecmp_eq (type_to_use K y.atype none) (String.mk base) = false)

instance (K : Headers) (base : List Char) (r : RangeRound) :
    Decidable (r.others_apart K base) :=
  inferInstanceAs (Decidable (∀ y ∈ r.before ++ r.after, ';' ∉ y.atype.data ∧
    (m2e_skipped y.atype = true ∨
      strcasecmp_eq (type_to_use K y.atype none) (String.mk base) = false)))

/-- A round with a bounded range: `low` and `high` are non-empty runs of decimal
digits and the value of `high` is from 1 to 2^31 - 2. -/
def RangeRound.bounded (K : Headers) (base : List Char) (r : RangeRound) : Prop :=
  r.others_apart K base ∧ (r.low ≠ [] ∧ ∀ c ∈ r.low, c.isDigit = true) ∧
    (r.high ≠ [] ∧ ∀ c ∈ r.high, c.isDigit = true) ∧
    0 < digits_value 0 r.high ∧ digits_value 0 r.high < 2147483647

instance (K : Headers) (base : List Char) (r : RangeRound) : Decidable (r.bounded K base) :=
  inferInstanceAs (Decidable (r.others_apart K base ∧
    (r.low ≠ [] ∧ ∀ c ∈ r.low, c.isDigit = true) ∧
    (r.high ≠ [] ∧ ∀ c ∈ r.high, c.isDigit = true) ∧
    0 < digits_value 0 r.high ∧ digits_value 0 r.high < 2147483647))

/-- A last round: the fragment comes under `base;range=low-*` with `low` a run
of decimal digits, or under `base` itself when `base` is neither the aliased
legacy name nor a skipped name. -/
def RangeRound.terminal (K : Headers) (base : List Char) (r : RangeRound) (name : String) :
    Prop :=
  r.others_apart K base ∧
    ((name = ranged_name base r.low ['*'] ∧ ∀ c ∈ r.low, c.isDigit = true) ∨
     (name = String.mk base ∧ strcasecmp_eq name "streetaddress" = false ∧
       m2e_skipped name = false))

instance (K : Headers) (base : List Char) (r : RangeRound) (name : String) :
    Decidable (r.terminal K base name) :=
  inferInstanceAs (Decidable (r.others_apart K base ∧
    ((name = ranged_name base r.low ['*'] ∧ ∀ c ∈ r.low, c.isDigit = true) ∨
     (name = String.mk base ∧ strcasecmp_eq name "streetaddress" = false ∧
       m2e_skipped name = false))))

/-- The values an entry that may be absent holds under the name. -/
def held_values (ent : Option Slapi_Entry) (n : String) : List String :=
  match ent with
  | some e => attr_values e n
  | none => []

/-- The continuation name `base;range=(high+1)-*` that follows a bounded
round. -/
def RangeRound.continuation (base : List Char) (r : RangeRound) : String :=
  ranged_name base (toString (digits_value 0 r.high + 1)).data ['*']

/-- The searches the specification asks for when the rounds `rounds` are
followed by a last one: the first search with the attribute list of the
caller, then one search after each bounded round with the continuation name of
that round as its attribute list. -/
def drain_calls (ld : Option LDAP) (searchbase : Option String) (base : List Char) :
    Option (List String) → List RangeRound → List ExtCall
  | attrs, [] => [ExtCall.ldap_search_ext_s ld searchbase attrs]
  | attrs, r :: rs =>
    ExtCall.ldap_search_ext_s ld searchbase attrs ::
      drain_calls ld searchbase base (some [r.continuation base]) rs

/-- The subtypes `subs` as tokens with their offsets, the first one at offset
`off`. -/
def sub_tokens : Nat → List (List Char) → List (Nat × List Char)
  | _, [] => []
  | off, s :: ss => (off, s) :: sub_tokens (off + s.length + 1) ss

/-- A response in which `member` comes once without values and once as a
range with two values, and `description` comes without values. -/
def sample_zero_valued : LDAPMessage :=
  { dn := some "cn=group,dc=example,dc=com",
    attrs := [⟨"member", none⟩, ⟨"member;range=0-1", some ["cn=a", "cn=b"]⟩,
              ⟨"description", none⟩] }

/-- A first round with the values 0 and 1 of `member`, among other attributes. -/
def sample_round_first : RangeRound :=
  { dn := some "cn=group,dc=example,dc=com",
    before := [⟨"objectClass", some ["top", "group"]⟩, ⟨"cn", some ["group"]⟩],
    low := "0".data, high := "1".data, vals := ["cn=a", "cn=b"],
    after := [⟨"description", none⟩] }

/-- A second round with the values 2 and 3 of `member`. -/
def sample_round_second : RangeRound :=
  { dn := some "cn=group,dc=example,dc=com", before := [],
    low := "2".data, high := "3".data, vals := ["cn=c", "cn=d"], after := [] }

/-- A last round with the value 4 of `member`. -/
def sample_round_last : RangeRound :=
  { dn := some "cn=group,dc=example,dc=com", before := [],
    low := "4".data, high := "*".data, vals := ["cn=e"], after := [] }

/-- A round whose upper index 4294967296 does not fit a 32-bit `int`. -/
def sample_round_wide : RangeRound :=
  { dn := some "cn=group,dc=example,dc=com", before := [],
    low := "0".data, high := "4294967296".data, vals := ["cn=a", "cn=b"], after := [] }

/-- The search of one group entry, with the attribute list left `NULL`. -/
def sample_search : AdSearch :=
  { searchbase := some "cn=group,dc=example,dc=com", attrs := none }

/-- The operation types `windows_perform_operation` has a case for. -/
def write_optypes : List Int :=
  [CONN_ADD, CONN_MODIFY, CONN_DELETE, CONN_RENAME, CONN_EXTENDED_OPERATION]

/-! ## Concrete inputs used to evaluate the embedding -/

/-- Content of a fresh block before `windows_conn_new` fills it. -/
def sample_raw : Repl_Connection :=
  { hostname := none, port := 0, binddn := none, bindmethod := 0, state := 0,
    last_operation := 0, last_ldap_error := 0, status := "", last_ldap_errmsg := none,
    transport_flags := 0, ld := none, supports_ldapv3 := 0, supports_ds50_repl := 0,
    supports_ds40_repl := 0, supports_ds71_repl := 0, supports_ds90_repl := 0,
    linger_time := 0, supports_dirsync := 0, linger_active := false, linger_event := none,
    delete_after_linger := false, refcnt := 0, agmt := none,
    timeout := { tv_sec := 0, tv_usec := 0 }, flag_agmt_changed := 0, plain := none,
    is_win2k3 := 0 }

/-- An agreement for a plain LDAP connection with simple bind. -/
def sample_cfg : AgmtView :=
  { hostname := some "ad.example.com", port := 389, binddn := some "cn=sync,dc=example,dc=com",
    bindmethod := 0, transport_flags := 0, timeout := 120 }

/-- The connection `windows_conn_new` creates for `sample_cfg`, with an empty call log. -/
def sample_world : World :=
  { conn := (windows_conn_new openldap sample_raw true (some ⟨1⟩) sample_cfg).getD sample_raw
    calls := [] }

/-- A root entry that advertises the dirsync control and the Win2k3 capability. -/
def sample_rootdse : List LDAPAttribute :=
  [ { atype := "supportedControl", vals := some ["1.2.840.113556.1.4.319", "1.2.840.113556.1.4.841"] },
    { atype := "supportedCapabilities", vals := some ["1.2.840.113556.1.4.800", "1.2.840.113556.1.4.1670"] } ]

/-- A peer that accepts the bind and answers both probes. -/
def sample_env : ConnectEnv :=
  { agmt := sample_cfg, pw_ret := 0, plain := some "secret", nss_initialized := true,
    new_ld := some ⟨7⟩, bind_rc := 0, lderrno := 0, use_ds := false,
    dirsync_reply := { rc := 0, entry := some sample_rootdse },
    win2k3_reply := { rc := 0, entry := some sample_rootdse } }

/-- A peer that accepts the bind and then goes away: the first probe search
returns `LDAP_SERVER_DOWN`. -/
def probe_down_env : ConnectEnv :=
  { sample_env with
    dirsync_reply := { rc := openldap.LDAP_SERVER_DOWN, entry := none },
    win2k3_reply := { rc := openldap.LDAP_SERVER_DOWN, entry := none } }

/-- A peer that rejects the bind with invalid credentials. -/
def bind_refused_env : ConnectEnv :=
  { sample_env with bind_rc := 49, lderrno := 49 }

/-- The sample connection after a successful connect. -/
def sample_connected : World :=
  (windows_conn_connect openldap sample_world sample_env).1

/-- The connected sample connection while it lingers. -/
def sample_lingering : World :=
  { sample_connected with conn := { sample_connected.conn with
      linger_active := true, linger_event := some ⟨3⟩, status := STATUS_LINGERING } }

/-- A modify request. -/
def sample_request : Request :=
  { dn := some "cn=user,dc=example,dc=com", attrs := some [("unicodePwd", ["x"])],
    newrdn := none, newparent := none, deleteoldrdn := 0, server_controls := none,
    extop_oid := none, extop_payload := none }

/-- A reply whose request was sent, whose result arrived (a modify response)
and was parsed, with result code `err`. -/
def reply_with (err : Int) : OpReply :=
  { send_rc := 0, result_rc := 103, lderrno := 0, parse_rc := 0, err := err }

/-- A request that could not be sent: the request call returns `rc`. -/
def reply_unsent (rc : Int) : OpReply :=
  { send_rc := rc, result_rc := 0, lderrno := 0, parse_rc := 0, err := 0 }

/-- A request that was sent and whose result never came within the timeout. -/
def reply_timeout : OpReply :=
  { send_rc := 0, result_rc := 0, lderrno := -5, parse_rc := 0, err := 0 }

/-- A peer that accepts the bind and answers both probe searches with result
code 51 (busy), which is not disconnect-worthy. -/
def busy_env : ConnectEnv :=
  { sample_env with
    dirsync_reply := { rc := 51, entry := none },
    win2k3_reply := { rc := 51, entry := none } }

/-- The sample connection connected to the busy peer: connected, with every
capability flag still unknown. -/
def sample_unprobed : World :=
  (windows_conn_connect openldap sample_world busy_env).1

/-- A root entry that advertises the update-info control and the four DS 5
replication extensions. -/
def sample_ds5_rootdse : List LDAPAttribute :=
  [ { atype := "supportedControl", vals := some ["2.16.840.1.113730.3.4.13"] },
    { atype := "supportedExtension",
      vals := some ["2.16.840.1.113730.3.5.3", "2.16.840.1.113730.3.5.4",
                    "2.16.840.1.113730.3.5.5", "2.16.840.1.113730.3.5.6"] } ]

/-- The connected sample connection after an add that could not be sent
because the server was down: the send disconnected it. -/
def sample_dropped : World :=
  (windows_perform_operation openldap sample_connected CONN_ADD sample_request
    (reply_unsent openldap.LDAP_SERVER_DOWN)).1

/-- The sample peer seen through an agreement whose bind DN and timeout were
changed. -/
def sample_changed_env : ConnectEnv :=
  { sample_env with agmt := { sample_cfg with
      binddn := some "cn=winsync,dc=example,dc=com", timeout := 30 } }

/-! ## Facts about the header constants -/

/-- With pairwise distinct codes, LDAP_SUCCESS, the three tolerated codes and
LDAP_TIMEOUT are not disconnect-worthy. -/
theorem not_disconnect_of_distinct (K : Headers) (hK : K.Distinct) :
    IS_DISCONNECT_ERROR K K.LDAP_SUCCESS = false ∧
    IS_DISCONNECT_ERROR K K.LDAP_UNWILLING_TO_PERFORM = false ∧
    IS_DISCONNECT_ERROR K K.LDAP_ALREADY_EXISTS = false ∧
    IS_DISCONNECT_ERROR K K.LDAP_NO_SUCH_OBJECT = false ∧
    IS_DISCONNECT_ERROR K K.LDAP_TIMEOUT = false := by
  unfold Headers.Distinct at hK
  simp only [List.pairwise_cons, List.mem_cons, List.mem_singleton, forall_eq_or_imp, forall_eq,
    List.not_mem_nil, List.Pairwise.nil, and_true, IsEmpty.forall_iff, implies_true] at hK
  simp only [IS_DISCONNECT_ERROR, Bool.or_eq_false_iff, beq_eq_false_iff_ne, ne_eq]
  refine ⟨⟨⟨⟨⟨?_, ?_⟩, ?_⟩, ?_⟩, ?_⟩, ⟨⟨⟨⟨?_, ?_⟩, ?_⟩, ?_⟩, ?_⟩, ⟨⟨⟨⟨?_, ?_⟩, ?_⟩, ?_⟩, ?_⟩,
    ⟨⟨⟨⟨?_, ?_⟩, ?_⟩, ?_⟩, ?_⟩, ⟨⟨⟨⟨?_, ?_⟩, ?_⟩, ?_⟩, ?_⟩⟩ <;>
  (intro h; simp_all)

/-- With pairwise distinct codes, LDAP_SUCCESS and the tolerated codes differ. -/
theorem success_ne_of_distinct (K : Headers) (hK : K.Distinct) :
    K.LDAP_SUCCESS ≠ K.LDAP_UNWILLING_TO_PERFORM ∧ K.LDAP_SUCCESS ≠ K.LDAP_ALREADY_EXISTS ∧
    K.LDAP_SUCCESS ≠ K.LDAP_NO_SUCH_OBJECT ∧
    K.LDAP_UNWILLING_TO_PERFORM ≠ K.LDAP_ALREADY_EXISTS ∧
    K.LDAP_UNWILLING_TO_PERFORM ≠ K.LDAP_NO_SUCH_OBJECT := by
  unfold Headers.Distinct at hK
  simp only [List.pairwise_cons, List.mem_cons, List.mem_singleton, forall_eq_or_imp, forall_eq,
    List.not_mem_nil, List.Pairwise.nil, and_true, IsEmpty.forall_iff, implies_true] at hK
  tauto

/-! ## Closing keeps nothing of the transport -/

/-- The connection left by close_connection_internal. -/
theorem close_connection_internal_conn (w : World) :
    (close_connection_internal w).conn =
      { w.conn with ld := none, state := STATE_DISCONNECTED, status := STATUS_DISCONNECTED,
                    supports_ds50_repl := -1 } := by
  unfold close_connection_internal
  cases h : w.conn.ld <;> simp [World.call]

/-! ## C1 -/

/-- C1, evaluated where the code breaks it: a connection made by
windows_conn_new is connected to a peer that accepts the bind and then fails
the first probe search with LDAP_SERVER_DOWN. The probe closes the transport,
and windows_conn_connect then sets the state to connected all the same: it
returns success with state = STATE_CONNECTED and no transport handle. -/
theorem connect_probe_down_connected_without_handle :
    sample_world.conn.state = STATE_DISCONNECTED ∧ sample_world.conn.ld = none ∧
    (windows_conn_connect openldap sample_world probe_down_env).2 = CONN_OPERATION_SUCCESS ∧
    (windows_conn_connect openldap sample_world probe_down_env).1.conn.state = STATE_CONNECTED ∧
    (windows_conn_connect openldap sample_world probe_down_env).1.conn.ld = none := by
  decide

/-! ## C2 -/

/-- C2: on a connected connection whose request was sent and whose result was
obtained and parsed, a modify answered unwilling-to-perform and a delete
answered no-such-object return success with the last error reset to
LDAP_SUCCESS, an add answered already-exists returns success and keeps
already-exists as the last error; the connection stays connected with its
transport handle in all three cases. -/
theorem perform_operation_tolerances (K : Headers) (hK : K.Distinct) (w : World) (r : Request)
    (peer : OpReply)
    (hconn : w.conn.state = STATE_CONNECTED)
    (hsent : peer.send_rc = K.LDAP_SUCCESS)
    (hres : peer.result_rc ≠ 0 ∧ peer.result_rc ≠ -1)
    (hparse : peer.parse_rc = K.LDAP_SUCCESS) :
    (peer.err = K.LDAP_UNWILLING_TO_PERFORM →
      (windows_perform_operation K w CONN_MODIFY r peer).2 = CONN_OPERATION_SUCCESS ∧
      (windows_perform_operation K w CONN_MODIFY r peer).1.conn.last_ldap_error = K.LDAP_SUCCESS ∧
      (windows_perform_operation K w CONN_MODIFY r peer).1.conn.state = STATE_CONNECTED ∧
      (windows_perform_operation K w CONN_MODIFY r peer).1.conn.ld = w.conn.ld) ∧
    (peer.err = K.LDAP_NO_SUCH_OBJECT →
      (windows_perform_operation K w CONN_DELETE r peer).2 = CONN_OPERATION_SUCCESS ∧
      (windows_perform_operation K w CONN_DELETE r peer).1.conn.last_ldap_error = K.LDAP_SUCCESS ∧
      (windows_perform_operation K w CONN_DELETE r peer).1.conn.state = STATE_CONNECTED ∧
      (windows_perform_operation K w CONN_DELETE r peer).1.conn.ld = w.conn.ld) ∧
    (peer.err = K.LDAP_ALREADY_EXISTS →
      (windows_perform_operation K w CONN_ADD r peer).2 = CONN_OPERATION_SUCCESS ∧
      (windows_perform_operation K w CONN_ADD r peer).1.conn.last_ldap_error =
        K.LDAP_ALREADY_EXISTS ∧
      (windows_perform_operation K w CONN_ADD r peer).1.conn.state = STATE_CONNECTED ∧
      (windows_perform_operation K w CONN_ADD r peer).1.conn.ld = w.conn.ld) := by
  obtain ⟨h0, h1, h2, h3, _⟩ := not_disconnect_of_distinct K hK
  obtain ⟨_, _, _, n1, n2⟩ := success_ne_of_distinct K hK
  obtain ⟨hr0, hr1⟩ := hres
  refine ⟨?_, ?_, ?_⟩ <;> intro he <;>
  simp [windows_perform_operation, windows_conn_connected, hconn, send_request, CONN_MODIFY,
    CONN_ADD, CONN_DELETE, hsent, World.call, World.set_error, World.set_status, classify_result,
    Ne.symm hr0, Ne.symm hr1, hparse, he, h0, h1, h2, h3, n1, n2, Ne.symm n1, Ne.symm n2]

/-- The connected sample connection, a modify answered 53 (unwilling to perform). -/
theorem perform_operation_tolerances_witness :
    (windows_perform_operation openldap sample_connected CONN_MODIFY sample_request
        (reply_with 53)).2 = CONN_OPERATION_SUCCESS ∧
    (windows_perform_operation openldap sample_connected CONN_MODIFY sample_request
        (reply_with 53)).1.conn.last_ldap_error = openldap.LDAP_SUCCESS ∧
    (windows_perform_operation openldap sample_connected CONN_MODIFY sample_request
        (reply_with 53)).1.conn.state = STATE_CONNECTED ∧
    (windows_perform_operation openldap sample_connected CONN_MODIFY sample_request
        (reply_with 53)).1.conn.ld = sample_connected.conn.ld :=
  (perform_operation_tolerances openldap (by decide) sample_connected sample_request
    (reply_with 53) (by decide) (by decide) (by decide) (by decide)).1 (by decide)

/-! ## C3 -/

/-- C3: on a connected connection and for each of the five operation types, if
the request call fails with code rc, or the request is sent and the wait for
its result fails with error number rc, then rc is recorded as the last error;
when rc is disconnect-worthy the connection is disconnected (state
disconnected, no handle) and the outcome is not-connected; for every other rc
the outcome is failed and the connection stays connected with the status
label connected. -/
theorem perform_operation_local_failure (K : Headers) (w : World) (optype : Int) (r : Request)
    (peer : OpReply) (rc : Int)
    (hconn : w.conn.state = STATE_CONNECTED)
    (hop : optype ∈ write_optypes)
    (hfail : (peer.send_rc = rc ∧ rc ≠ K.LDAP_SUCCESS) ∨
      (peer.send_rc = K.LDAP_SUCCESS ∧ peer.result_rc = -1 ∧ peer.lderrno = rc)) :
    (windows_perform_operation K w optype r peer).1.conn.last_ldap_error = rc ∧
    (IS_DISCONNECT_ERROR K rc = true →
      (windows_perform_operation K w optype r peer).1.conn.state = STATE_DISCONNECTED ∧
      (windows_perform_operation K w optype r peer).1.conn.ld = none ∧
      (windows_perform_operation K w optype r peer).2 = CONN_NOT_CONNECTED) ∧
    (IS_DISCONNECT_ERROR K rc = false →
      (windows_perform_operation K w optype r peer).2 = CONN_OPERATION_FAILED ∧
      (windows_perform_operation K w optype r peer).1.conn.state = STATE_CONNECTED ∧
      (windows_perform_operation K w optype r peer).1.conn.ld = w.conn.ld ∧
      (windows_perform_operation K w optype r peer).1.conn.status = STATUS_CONNECTED) := by
  simp only [write_optypes, List.mem_cons, List.mem_singleton, List.not_mem_nil, or_false] at hop
  rcases hfail with ⟨hs, hne⟩ | ⟨hs, hr, hl⟩
  · cases hd : IS_DISCONNECT_ERROR K rc <;>
    rcases hop with h | h | h | h | h <;>
    simp [windows_perform_operation, windows_conn_connected, hconn, send_request, h, hs, hd,
      Ne.symm hne, windows_conn_disconnect, close_connection_internal_conn, World.set_error,
      World.set_status, World.call, CONN_ADD, CONN_MODIFY, CONN_DELETE, CONN_RENAME,
      CONN_EXTENDED_OPERATION]
  · cases hd : IS_DISCONNECT_ERROR K rc <;>
    rcases hop with h | h | h | h | h <;>
    simp [windows_perform_operation, windows_conn_connected, hconn, send_request, h, hs, hd, hr,
      hl, windows_conn_disconnect, close_connection_internal_conn, World.set_error,
      World.set_status, World.call, CONN_ADD, CONN_MODIFY, CONN_DELETE, CONN_RENAME,
      CONN_EXTENDED_OPERATION]

/-- The connected sample connection, an add whose request call returns -1
(server down). -/
theorem perform_operation_local_failure_witness :
    (windows_perform_operation openldap sample_connected CONN_ADD sample_request
        (reply_unsent (-1))).1.conn.last_ldap_error = -1 ∧
    (windows_perform_operation openldap sample_connected CONN_ADD sample_request
        (reply_unsent (-1))).1.conn.state = STATE_DISCONNECTED ∧
    (windows_perform_operation openldap sample_connected CONN_ADD sample_request
        (reply_unsent (-1))).1.conn.ld = none ∧
    (windows_perform_operation openldap sample_connected CONN_ADD sample_request
        (reply_unsent (-1))).2 = CONN_NOT_CONNECTED :=
  have h := perform_operation_local_failure openldap sample_connected CONN_ADD sample_request
    (reply_unsent (-1)) (-1) (by decide) (by decide) (Or.inl (by decide))
  ⟨h.1, h.2.1 (by decide)⟩

/-! ## C4 -/

/-- C4: on a connected connection and for each of the five operation types,
when the request was sent, a result was obtained and its result code err is
disconnect-worthy, the outcome is not-connected and the connection is
disconnected: state disconnected, handle cleared and the transport it held
unbound. This holds whatever the operation type and the code, so the check
comes before the three tolerances. The code err is recorded as the last error
whenever the return value of ldap_parse_result is not itself disconnect-worthy
(as when the result was parsed successfully). -/
theorem perform_operation_disconnect_result (K : Headers) (w : World) (optype : Int)
    (r : Request) (peer : OpReply)
    (hconn : w.conn.state = STATE_CONNECTED)
    (hop : optype ∈ write_optypes)
    (hsent : peer.send_rc = K.LDAP_SUCCESS)
    (hres : peer.result_rc ≠ 0 ∧ peer.result_rc ≠ -1)
    (herr : IS_DISCONNECT_ERROR K peer.err = true) :
    (windows_perform_operation K w optype r peer).2 = CONN_NOT_CONNECTED ∧
    (windows_perform_operation K w optype r peer).1.conn.state = STATE_DISCONNECTED ∧
    (windows_perform_operation K w optype r peer).1.conn.ld = none ∧
    (∀ ld, w.conn.ld = some ld →
      ExtCall.slapi_ldap_unbind ld ∈ (windows_perform_operation K w optype r peer).1.calls) ∧
    (IS_DISCONNECT_ERROR K peer.parse_rc = false →
      (windows_perform_operation K w optype r peer).1.conn.last_ldap_error = peer.err) := by
  simp only [write_optypes, List.mem_cons, List.mem_singleton, List.not_mem_nil, or_false] at hop
  obtain ⟨hr0, hr1⟩ := hres
  cases hp : IS_DISCONNECT_ERROR K peer.parse_rc <;>
  cases hld : w.conn.ld <;>
  rcases hop with h | h | h | h | h <;>
  simp [windows_perform_operation, windows_conn_connected, hconn, send_request, h, hsent, herr,
    hp, hld, Ne.symm hr0, Ne.symm hr1, classify_result, windows_conn_disconnect,
    close_connection_internal, World.set_error, World.set_status, World.call, CONN_ADD,
    CONN_MODIFY, CONN_DELETE, CONN_RENAME, CONN_EXTENDED_OPERATION]

/-- The connected sample connection, a modify whose parsed result code is -1
(server down). -/
theorem perform_operation_disconnect_result_witness :
    (windows_perform_operation openldap sample_connected CONN_MODIFY sample_request
        (reply_with (-1))).2 = CONN_NOT_CONNECTED ∧
    (windows_perform_operation openldap sample_connected CONN_MODIFY sample_request
        (reply_with (-1))).1.conn.state = STATE_DISCONNECTED ∧
    (windows_perform_operation openldap sample_connected CONN_MODIFY sample_request
        (reply_with (-1))).1.conn.ld = none ∧
    (windows_perform_operation openldap sample_connected CONN_MODIFY sample_request
        (reply_with (-1))).1.conn.last_ldap_error = -1 :=
  have h := perform_operation_disconnect_result openldap sample_connected CONN_MODIFY
    sample_request (reply_with (-1)) (by decide) (by decide) (by decide) (by decide) (by decide)
  ⟨h.1, h.2.1, h.2.2.1, h.2.2.2.2 (by decide)⟩

/-! ## C5 -/

/-- C5: on a connected connection whose request was sent and whose result was
obtained and parsed successfully with result code err: for each of the five
operation types, if err is not disconnect-worthy and the pair of operation and
code is none of (modify, unwilling-to-perform), (add, already-exists),
(delete, no-such-object), then the outcome is success if and only if err is
LDAP_SUCCESS, it is failed otherwise, and err is recorded as the last error.
The tolerances do not carry over: an add answered unwilling-to-perform and a
modify answered no-such-object are failed. -/
theorem perform_operation_regular_result (K : Headers) (hK : K.Distinct) (w : World)
    (r : Request) (peer : OpReply)
    (hconn : w.conn.state = STATE_CONNECTED)
    (hsent : peer.send_rc = K.LDAP_SUCCESS)
    (hres : peer.result_rc ≠ 0 ∧ peer.result_rc ≠ -1)
    (hparse : peer.parse_rc = K.LDAP_SUCCESS) :
    (∀ optype ∈ write_optypes,
      IS_DISCONNECT_ERROR K peer.err = false →
      ¬ (optype = CONN_MODIFY ∧ peer.err = K.LDAP_UNWILLING_TO_PERFORM) →
      ¬ (optype = CONN_ADD ∧ peer.err = K.LDAP_ALREADY_EXISTS) →
      ¬ (optype = CONN_DELETE ∧ peer.err = K.LDAP_NO_SUCH_OBJECT) →
      ((windows_perform_operation K w optype r peer).2 = CONN_OPERATION_SUCCESS ↔
        peer.err = K.LDAP_SUCCESS) ∧
      (peer.err ≠ K.LDAP_SUCCESS →
        (windows_perform_operation K w optype r peer).2 = CONN_OPERATION_FAILED) ∧
      (windows_perform_operation K w optype r peer).1.conn.last_ldap_error = peer.err) ∧
    (peer.err = K.LDAP_UNWILLING_TO_PERFORM →
      (windows_perform_operation K w CONN_ADD r peer).2 = CONN_OPERATION_FAILED) ∧
    (peer.err = K.LDAP_NO_SUCH_OBJECT →
      (windows_perform_operation K w CONN_MODIFY r peer).2 = CONN_OPERATION_FAILED) := by
  obtain ⟨h0, h1, h2, h3, _⟩ := not_disconnect_of_distinct K hK
  obtain ⟨m1, m2, m3, n1, n2⟩ := success_ne_of_distinct K hK
  obtain ⟨hr0, hr1⟩ := hres
  refine ⟨?_, ?_, ?_⟩
  · intro optype hop hnd p1 p2 p3
    simp only [write_optypes, List.mem_cons, List.mem_singleton, List.not_mem_nil,
      or_false] at hop
    have hr0s : ¬ (0 : Int) = peer.result_rc := fun h => hr0 h.symm
    have hr1s : ¬ (-1 : Int) = peer.result_rc := fun h => hr1 h.symm
    by_cases he : peer.err = K.LDAP_SUCCESS
    · rcases hop with h | h | h | h | h <;>
      simp_all [windows_perform_operation, windows_conn_connected, send_request,
        classify_result, World.set_error, World.set_status, World.call, CONN_ADD, CONN_MODIFY,
        CONN_DELETE, CONN_RENAME, CONN_EXTENDED_OPERATION]
    · have he2 : ¬ K.LDAP_SUCCESS = peer.err := fun h => he h.symm
      rcases hop with h | h | h | h | h <;>
      simp_all [windows_perform_operation, windows_conn_connected, send_request,
        classify_result, World.set_error, World.set_status, World.call, CONN_ADD, CONN_MODIFY,
        CONN_DELETE, CONN_RENAME, CONN_EXTENDED_OPERATION]
  · intro he
    simp [windows_perform_operation, windows_conn_connected, hconn, send_request, hsent,
      Ne.symm hr0, Ne.symm hr1, classify_result, hparse, he, h0, h1, n1, n2, m1, Ne.symm m1,
      World.set_error, World.set_status, World.call, CONN_ADD, CONN_MODIFY, CONN_DELETE]
  · intro he
    simp [windows_perform_operation, windows_conn_connected, hconn, send_request, hsent,
      Ne.symm hr0, Ne.symm hr1, classify_result, hparse, he, h0, h3, n2, Ne.symm n2, m3,
      Ne.symm m3, World.set_error, World.set_status, World.call, CONN_ADD, CONN_MODIFY,
      CONN_DELETE]

/-- The connected sample connection, an add and a rename answered 53
(unwilling to perform). -/
theorem perform_operation_regular_result_witness :
    (windows_perform_operation openldap sample_connected CONN_ADD sample_request
        (reply_with 53)).2 = CONN_OPERATION_FAILED ∧
    (windows_perform_operation openldap sample_connected CONN_RENAME sample_request
        (reply_with 53)).1.conn.last_ldap_error = 53 :=
  have h := perform_operation_regular_result openldap (by decide) sample_connected
    sample_request (reply_with 53) (by decide) (by decide) (by decide) (by decide)
  ⟨h.2.1 (by decide),
   (h.1 CONN_RENAME (by decide) (by decide) (by decide) (by decide) (by decide)).2.2⟩

/-! ## C6 -/

/-- C6: on a connected connection and for each of the five operation types,
when the request was sent and the wait for its result returns 0, the outcome is
CONN_TIMEOUT, which differs from failed, not-connected and success; LDAP_TIMEOUT
is recorded as the last error and the connection stays connected with its
transport handle, which is not unbound. -/
theorem perform_operation_timeout (K : Headers) (w : World) (optype : Int) (r : Request)
    (peer : OpReply)
    (hconn : w.conn.state = STATE_CONNECTED)
    (hop : optype ∈ write_optypes)
    (hsent : peer.send_rc = K.LDAP_SUCCESS)
    (hwait : peer.result_rc = 0) :
    (windows_perform_operation K w optype r peer).2 = CONN_TIMEOUT ∧
    CONN_TIMEOUT ≠ CONN_OPERATION_FAILED ∧ CONN_TIMEOUT ≠ CONN_NOT_CONNECTED ∧
    CONN_TIMEOUT ≠ CONN_OPERATION_SUCCESS ∧
    (windows_perform_operation K w optype r peer).1.conn.last_ldap_error = K.LDAP_TIMEOUT ∧
    (windows_perform_operation K w optype r peer).1.conn.state = STATE_CONNECTED ∧
    (windows_perform_operation K w optype r peer).1.conn.ld = w.conn.ld ∧
    (∀ ld, ExtCall.slapi_ldap_unbind ld ∈ (windows_perform_operation K w optype r peer).1.calls →
      ExtCall.slapi_ldap_unbind ld ∈ w.calls) := by
  simp only [write_optypes, List.mem_cons, List.mem_singleton, List.not_mem_nil, or_false] at hop
  rcases hop with h | h | h | h | h <;>
  simp [windows_perform_operation, windows_conn_connected, hconn, send_request, h, hsent, hwait,
    World.set_error, World.call, CONN_ADD, CONN_MODIFY, CONN_DELETE, CONN_RENAME,
    CONN_EXTENDED_OPERATION]

/-- The connected sample connection, a delete whose result does not come. -/
theorem perform_operation_timeout_witness :
    (windows_perform_operation openldap sample_connected CONN_DELETE sample_request
        reply_timeout).2 = CONN_TIMEOUT ∧
    (windows_perform_operation openldap sample_connected CONN_DELETE sample_request
        reply_timeout).1.conn.last_ldap_error = openldap.LDAP_TIMEOUT ∧
    (windows_perform_operation openldap sample_connected CONN_DELETE sample_request
        reply_timeout).1.conn.state = STATE_CONNECTED :=
  have h := perform_operation_timeout openldap sample_connected CONN_DELETE sample_request
    reply_timeout (by decide) (by decide) (by decide) (by decide)
  ⟨h.1, h.2.2.2.2.1, h.2.2.2.2.2.1⟩

/-! ## C7 -/

/-- C7: if the connection is not in state connected, windows_perform_operation
returns not-connected for every operation type, request and peer, and so do
the five senders; the connection and the log of calls are returned unchanged,
so no request is sent and no field (last operation, last error and status
included) is written. -/
theorem perform_operation_not_connected (K : Headers) (w : World) (peer : OpReply)
    (hdisc : w.conn.state ≠ STATE_CONNECTED) :
    (∀ optype r, windows_perform_operation K w optype r peer = (w, CONN_NOT_CONNECTED)) ∧
    (∀ dn attrs ctrls, windows_conn_send_add K w dn attrs ctrls peer = (w, CONN_NOT_CONNECTED)) ∧
    (∀ dn mods ctrls,
      windows_conn_send_modify K w dn mods ctrls peer = (w, CONN_NOT_CONNECTED)) ∧
    (∀ dn ctrls, windows_conn_send_delete K w dn ctrls peer = (w, CONN_NOT_CONNECTED)) ∧
    (∀ dn newrdn newparent deleteoldrdn ctrls,
      windows_conn_send_rename K w dn newrdn newparent deleteoldrdn ctrls peer =
        (w, CONN_NOT_CONNECTED)) ∧
    (∀ oid payload ctrls,
      windows_conn_send_extended_operation K w oid payload ctrls peer =
        (w, CONN_NOT_CONNECTED)) := by
  have key : ∀ optype r, windows_perform_operation K w optype r peer = (w, CONN_NOT_CONNECTED) := by
    intro optype r
    have hne : ¬ STATE_CONNECTED = w.conn.state := fun h => hdisc h.symm
    simp [windows_perform_operation, windows_conn_connected, hne]
  refine ⟨key, ?_, ?_, ?_, ?_, ?_⟩ <;> intros <;>
  simp [windows_conn_send_add, windows_conn_send_modify, windows_conn_send_delete,
    windows_conn_send_rename, windows_conn_send_extended_operation, key]

/-- The sample connection before any connect, an add. -/
theorem perform_operation_not_connected_witness :
    windows_perform_operation openldap sample_world CONN_ADD sample_request (reply_with 0) =
      (sample_world, CONN_NOT_CONNECTED) :=
  (perform_operation_not_connected openldap sample_world (reply_with 0) (by decide)).1
    CONN_ADD sample_request

/-! ## C9 -/

/-- C9: if the connection is already in state connected, lingering or not,
windows_conn_connect returns success and gives back the connection and the log
of calls unchanged: no credential is decoded, no transport opened, no bind or
probe made, and no field written. -/
theorem connect_when_connected (K : Headers) (w : World) (env : ConnectEnv)
    (hconn : w.conn.state = STATE_CONNECTED) :
    windows_conn_connect K w env = (w, CONN_OPERATION_SUCCESS) := by
  simp [windows_conn_connect, hconn]

/-- The lingering sample connection and a peer that would refuse the bind. -/
theorem connect_when_connected_witness :
    sample_lingering.conn.linger_active = true ∧
    windows_conn_connect openldap sample_lingering bind_refused_env =
      (sample_lingering, CONN_OPERATION_SUCCESS) :=
  ⟨by decide, connect_when_connected openldap sample_lingering bind_refused_env (by decide)⟩

/-! ## C10 -/

/-- C10: windows_conn_disconnect is idempotent, on the connection and on the
calls made (the transport is unbound once); after one call the transport handle
is absent, the state is disconnected, the ds5-repl flag is unknown (-1) and the
status label is disconnected. -/
theorem disconnect_idempotent (w : World) :
    windows_conn_disconnect (windows_conn_disconnect w) = windows_conn_disconnect w ∧
    (windows_conn_disconnect w).conn.ld = none ∧
    (windows_conn_disconnect w).conn.state = STATE_DISCONNECTED ∧
    (windows_conn_disconnect w).conn.supports_ds50_repl = -1 ∧
    (windows_conn_disconnect w).conn.status = STATUS_DISCONNECTED := by
  cases h : w.conn.ld <;>
  simp [windows_conn_disconnect, close_connection_internal, h, World.call]

/-! ## C8 -/

/-- Closing a connection that holds a transport unbinds that transport. -/
theorem close_connection_internal_unbinds (w : World) (ld : LDAP) (h : w.conn.ld = some ld) :
    ExtCall.slapi_ldap_unbind ld ∈ (close_connection_internal w).calls := by
  simp [close_connection_internal, h, World.call]

/-- On a disconnected connection the dirsync probe touches neither the handle
nor the state. -/
theorem supports_dirsync_disconnected (K : Headers) (w : World) (use_ds : Bool)
    (reply : SearchReply) (h : w.conn.state = STATE_DISCONNECTED) :
    (windows_conn_replica_supports_dirsync K w use_ds reply).1.conn.ld = w.conn.ld ∧
    (windows_conn_replica_supports_dirsync K w use_ds reply).1.conn.state =
      STATE_DISCONNECTED := by
  cases use_ds <;>
  simp [windows_conn_replica_supports_dirsync, windows_conn_connected, h, STATE_CONNECTED,
    STATE_DISCONNECTED]

/-- On a disconnected connection the Win2k3 probe does nothing. -/
theorem is_win2k3_disconnected (K : Headers) (w : World) (reply : SearchReply)
    (h : w.conn.state = STATE_DISCONNECTED) :
    windows_conn_replica_is_win2k3 K w reply = (w, CONN_NOT_CONNECTED) := by
  simp [windows_conn_replica_is_win2k3, windows_conn_connected, h, STATE_CONNECTED,
    STATE_DISCONNECTED]

/-- The end of connect when the bind is accepted: success, state connected and
last error LDAP_SUCCESS, whatever the probes answer. -/
theorem connect_bind_accepted (K : Headers) (w : World) (binddn : Option String)
    (env : ConnectEnv) (hbind : env.bind_rc = K.LDAP_SUCCESS) :
    (connect_bind K w binddn env).2 = CONN_OPERATION_SUCCESS ∧
    (connect_bind K w binddn env).1.conn.state = STATE_CONNECTED ∧
    (connect_bind K w binddn env).1.conn.last_ldap_error = K.LDAP_SUCCESS := by
  simp [connect_bind, bind_and_check_pwp, hbind]

/-- The end of connect when the bind is refused: failed, state disconnected,
and the transport that was opened is unbound and its handle cleared. -/
theorem connect_bind_refused (K : Headers) (w : World) (binddn : Option String)
    (env : ConnectEnv) (ld : LDAP) (hld : w.conn.ld = some ld)
    (hbind : env.bind_rc ≠ K.LDAP_SUCCESS) :
    (connect_bind K w binddn env).2 = CONN_OPERATION_FAILED ∧
    (connect_bind K w binddn env).1.conn.state = STATE_DISCONNECTED ∧
    (connect_bind K w binddn env).1.conn.ld = none ∧
    ExtCall.slapi_ldap_unbind ld ∈ (connect_bind K w binddn env).1.calls := by
  have hb : (bind_and_check_pwp K w binddn w.conn.plain env.bind_rc).2 =
      CONN_OPERATION_FAILED := by
    simp [bind_and_check_pwp, hbind]
  have hbld : (bind_and_check_pwp K w binddn w.conn.plain env.bind_rc).1.conn.ld = some ld := by
    unfold bind_and_check_pwp
    simp only [hbind, if_false]
    split <;> simp [World.call, World.set_error, hld]
  simp only [connect_bind, hb, if_true]
  generalize hw0 : ({ (bind_and_check_pwp K w binddn w.conn.plain env.bind_rc).1 with
      conn := { (bind_and_check_pwp K w binddn w.conn.plain env.bind_rc).1.conn with
        last_ldap_error := env.lderrno, state := STATE_DISCONNECTED } } : World) = w0
  have h0s : w0.conn.state = STATE_DISCONNECTED := by rw [← hw0]
  have h0l : w0.conn.ld = some ld := by rw [← hw0]; exact hbld
  obtain ⟨d1, d2⟩ := supports_dirsync_disconnected K w0 env.use_ds env.dirsync_reply h0s
  generalize hw1 : (windows_conn_replica_supports_dirsync K w0 env.use_ds env.dirsync_reply) = d
    at d1 d2 ⊢
  have hk := is_win2k3_disconnected K (d.1.call (ExtCall.windows_private_set_isnt4
    (if d.2 = CONN_DOES_NOT_SUPPORT_DIRSYNC then 1 else 0))) env.win2k3_reply
    (by simpa [World.call] using d2)
  rw [hk]
  refine ⟨trivial, ?_, ?_, ?_⟩
  · simp [close_connection_internal_conn]
  · simp [close_connection_internal_conn]
  · apply close_connection_internal_unbinds
    simp [World.call, d1, h0l]

/-- C8: starting from a disconnected connection whose credential decodes (or
is already cached) and whose transport opens (the secure-transport subsystem is
initialised and slapi_ldap_init_ext gives a handle): if the bind is accepted,
windows_conn_connect returns success with state connected and last error
LDAP_SUCCESS; if the bind is refused, it returns failed, the state is
disconnected, and the transport just opened is unbound and its handle
cleared. Both hold whatever the two probes answer. -/
theorem connect_from_disconnected (K : Headers) (w : World) (env : ConnectEnv) (ld : LDAP)
    (hdisc : w.conn.state = STATE_DISCONNECTED)
    (hcred : env.pw_ret ≠ -1)
    (hnss : env.nss_initialized = true)
    (hopen : env.new_ld = some ld) :
    (env.bind_rc = K.LDAP_SUCCESS →
      (windows_conn_connect K w env).2 = CONN_OPERATION_SUCCESS ∧
      (windows_conn_connect K w env).1.conn.state = STATE_CONNECTED ∧
      (windows_conn_connect K w env).1.conn.last_ldap_error = K.LDAP_SUCCESS) ∧
    (env.bind_rc ≠ K.LDAP_SUCCESS →
      (windows_conn_connect K w env).2 = CONN_OPERATION_FAILED ∧
      (windows_conn_connect K w env).1.conn.state = STATE_DISCONNECTED ∧
      (windows_conn_connect K w env).1.conn.ld = none ∧
      ExtCall.slapi_ldap_unbind ld ∈ (windows_conn_connect K w env).1.calls) := by
  have hne : w.conn.state ≠ STATE_CONNECTED := by rw [hdisc]; decide
  constructor
  · intro hbind
    unfold windows_conn_connect
    simp only [hne, if_false, hcred, hnss, hopen]
    split_ifs <;> simp_all [connect_bind_accepted]
  · intro hbind
    unfold windows_conn_connect
    simp only [hne, if_false, hcred, hnss, hopen]
    split_ifs <;> simp_all [connect_bind_refused]

/-- The sample connection dropped by a send that met LDAP_SERVER_DOWN, then
connected again to a peer that accepts the bind. -/
theorem connect_from_disconnected_witness :
    sample_dropped.conn.state = STATE_DISCONNECTED ∧
    (windows_conn_connect openldap sample_dropped sample_env).2 = CONN_OPERATION_SUCCESS ∧
    (windows_conn_connect openldap sample_dropped sample_env).1.conn.state = STATE_CONNECTED ∧
    (windows_conn_connect openldap sample_dropped sample_env).1.conn.last_ldap_error =
      openldap.LDAP_SUCCESS :=
  ⟨by decide,
   (connect_from_disconnected openldap sample_dropped sample_env ⟨7⟩ (by decide) (by decide)
      (by decide) (by decide)).1 (by decide)⟩

/-! ## Counting protocol searches -/

/-- Logging a call adds one to the number of searches exactly when the call is
a search. -/
theorem searches_call (w : World) (c : ExtCall) :
    (w.call c).searches = w.searches + (if c.is_search then 1 else 0) := by
  cases h : c.is_search <;> simp [World.call, World.searches, List.countP_append, h]

/-- Closing the connection issues no search. -/
theorem searches_close (w : World) :
    (close_connection_internal w).searches = w.searches := by
  unfold close_connection_internal
  cases h : w.conn.ld <;>
  simp [World.call, World.searches, List.countP_append, ExtCall.is_search]

/-! ## C16 -/

/-- C16 fails as stated, twice over. After an ordinary connect the dirsync flag
is already resolved by the probe that connect runs itself, and two calls of the
probe issue no search at all. And on a connected connection whose flag is
unknown, when the peer answers the search with result code 51 (busy, not
disconnect-worthy), nothing is cached and the two calls issue two searches
while the connection stays connected. -/
theorem probe_twice_not_one_search :
    (sample_connected.conn.state = STATE_CONNECTED ∧
      (windows_conn_replica_supports_dirsync openldap
        (windows_conn_replica_supports_dirsync openldap sample_connected false
          { rc := 0, entry := some sample_rootdse }).1 false
          { rc := 0, entry := some sample_rootdse }).1.searches
        = sample_connected.searches) ∧
    (sample_unprobed.conn.state = STATE_CONNECTED ∧
      (windows_conn_replica_supports_dirsync openldap sample_unprobed false
          { rc := 51, entry := none }).1.conn.state = STATE_CONNECTED ∧
      (windows_conn_replica_supports_dirsync openldap
        (windows_conn_replica_supports_dirsync openldap sample_unprobed false
          { rc := 51, entry := none }).1 false { rc := 51, entry := none }).1.searches
        = sample_unprobed.searches + 2) := by
  decide

/-- C16 as amended: for each of the three probes, on a connected connection
whose flag for the capability is unknown (and with WINSYNC_USE_DS unset for the
dirsync probe), if the search of the first call returns LDAP_SUCCESS then two
calls in a row issue exactly one search in total, whatever the peer would
answer to a second search, and the second call returns what the first
returned. -/
theorem probe_twice_one_search (K : Headers) (w : World) (r1 r2 : SearchReply)
    (hconn : w.conn.state = STATE_CONNECTED)
    (hok : r1.rc = K.LDAP_SUCCESS) :
    (w.conn.supports_dirsync = -1 →
      (windows_conn_replica_supports_dirsync K
        (windows_conn_replica_supports_dirsync K w false r1).1 false r2).1.searches
        = w.searches + 1 ∧
      (windows_conn_replica_supports_dirsync K
        (windows_conn_replica_supports_dirsync K w false r1).1 false r2).2
        = (windows_conn_replica_supports_dirsync K w false r1).2) ∧
    (w.conn.is_win2k3 = -1 →
      (windows_conn_replica_is_win2k3 K (windows_conn_replica_is_win2k3 K w r1).1 r2).1.searches
        = w.searches + 1 ∧
      (windows_conn_replica_is_win2k3 K (windows_conn_replica_is_win2k3 K w r1).1 r2).2
        = (windows_conn_replica_is_win2k3 K w r1).2) ∧
    (w.conn.supports_ds50_repl = -1 →
      (windows_conn_replica_supports_ds5_repl K
        (windows_conn_replica_supports_ds5_repl K w r1).1 r2).1.searches = w.searches + 1 ∧
      (windows_conn_replica_supports_ds5_repl K
        (windows_conn_replica_supports_ds5_repl K w r1).1 r2).2
        = (windows_conn_replica_supports_ds5_repl K w r1).2) := by
  refine ⟨?_, ?_, ?_⟩ <;> intro hflag
  · unfold windows_conn_replica_supports_dirsync
    by_cases hp : attribute_string_value_present r1.entry "supportedcontrol"
        K.REPL_DIRSYNC_CONTROL_OID = 0 <;>
    simp [windows_conn_connected, hconn, hflag, hok, hp, World.set_status, World.call,
      World.searches, List.countP_append, ExtCall.is_search]
  · unfold windows_conn_replica_is_win2k3
    by_cases hp : attribute_string_value_present r1.entry "supportedCapabilities"
        K.REPL_WIN2K3_AD_OID = 0 <;>
    simp [windows_conn_connected, hconn, hflag, hok, hp, World.set_status, World.call,
      World.searches, List.countP_append, ExtCall.is_search]
  · unfold windows_conn_replica_supports_ds5_repl
    by_cases h1 : attribute_string_value_present r1.entry "supportedcontrol"
        K.REPL_NSDS50_UPDATE_INFO_CONTROL_OID = 0 <;>
    by_cases h2 : attribute_string_value_present r1.entry "supportedextension"
        K.REPL_START_NSDS50_REPLICATION_REQUEST_OID = 0 <;>
    by_cases h3 : attribute_string_value_present r1.entry "supportedextension"
        K.REPL_END_NSDS50_REPLICATION_REQUEST_OID = 0 <;>
    by_cases h4 : attribute_string_value_present r1.entry "supportedextension"
        K.REPL_NSDS50_REPLICATION_ENTRY_REQUEST_OID = 0 <;>
    by_cases h5 : attribute_string_value_present r1.entry "supportedextension"
        K.REPL_NSDS50_REPLICATION_RESPONSE_OID = 0 <;>
    simp [windows_conn_connected, hconn, hflag, hok, h1, h2, h3, h4, h5, World.set_status,
      World.call, World.searches, List.countP_append, ExtCall.is_search]

/-- The unprobed sample connection and a peer that answers the dirsync search. -/
theorem probe_twice_one_search_witness :
    (windows_conn_replica_supports_dirsync openldap
      (windows_conn_replica_supports_dirsync openldap sample_unprobed false
        { rc := 0, entry := some sample_rootdse }).1 false { rc := 51, entry := none }).1.searches
      = sample_unprobed.searches + 1 :=
  ((probe_twice_one_search openldap sample_unprobed { rc := 0, entry := some sample_rootdse }
    { rc := 51, entry := none } (by decide) (by decide)).1 (by decide)).1

/-! ## C17 -/

/-- C17: for each of the three probes, on a connected connection whose flag
for the capability is resolved (1 supported, 0 unsupported) and with
WINSYNC_USE_DS unset, the probe returns the outcome that matches the flag and
gives back the connection and the log of calls unchanged: no search is made and
no field is written. -/
theorem probe_cached (K : Headers) (w : World) (reply : SearchReply)
    (hconn : w.conn.state = STATE_CONNECTED) :
    (w.conn.supports_dirsync = 1 →
      windows_conn_replica_supports_dirsync K w false reply = (w, CONN_SUPPORTS_DIRSYNC)) ∧
    (w.conn.supports_dirsync = 0 →
      windows_conn_replica_supports_dirsync K w false reply =
        (w, CONN_DOES_NOT_SUPPORT_DIRSYNC)) ∧
    (w.conn.is_win2k3 = 1 → windows_conn_replica_is_win2k3 K w reply = (w, CONN_IS_WIN2K3)) ∧
    (w.conn.is_win2k3 = 0 → windows_conn_replica_is_win2k3 K w reply = (w, CONN_NOT_WIN2K3)) ∧
    (w.conn.supports_ds50_repl = 1 →
      windows_conn_replica_supports_ds5_repl K w reply = (w, CONN_SUPPORTS_DS5_REPL)) ∧
    (w.conn.supports_ds50_repl = 0 →
      windows_conn_replica_supports_ds5_repl K w reply =
        (w, CONN_DOES_NOT_SUPPORT_DS5_REPL)) := by
  refine ⟨?_, ?_, ?_, ?_, ?_, ?_⟩ <;> intro hflag <;>
  simp [windows_conn_replica_supports_dirsync, windows_conn_replica_is_win2k3,
    windows_conn_replica_supports_ds5_repl, windows_conn_connected, hconn, hflag]

/-- The connected sample connection, whose dirsync flag connect resolved to
supported, and a peer that would answer the search with an error. -/
theorem probe_cached_witness :
    windows_conn_replica_supports_dirsync openldap sample_connected false
      { rc := -1, entry := none } = (sample_connected, CONN_SUPPORTS_DIRSYNC) :=
  (probe_cached openldap sample_connected { rc := -1, entry := none } (by decide)).1 (by decide)

/-! ## C18 -/

/-- On a connected connection whose dirsync flag is unknown, with
WINSYNC_USE_DS unset, the dirsync probe issues one search. -/
theorem supports_dirsync_unknown_searches (K : Headers) (w : World) (reply : SearchReply)
    (hconn : w.conn.state = STATE_CONNECTED) (hflag : w.conn.supports_dirsync = -1) :
    (windows_conn_replica_supports_dirsync K w false reply).1.searches = w.searches + 1 := by
  unfold windows_conn_replica_supports_dirsync
  simp only [windows_conn_connected, hconn, hflag, beq_self_eq_true, if_true,
    Bool.false_eq_true, if_false]
  split_ifs <;>
  simp [windows_conn_disconnect, searches_close, searches_call, World.set_status,
    World.set_error, World.call, World.searches, List.countP_append, ExtCall.is_search]
  · rw [show (close_connection_internal _).calls.countP ExtCall.is_search =
      (close_connection_internal _).searches from rfl, searches_close]
    simp [World.searches, List.countP_append, ExtCall.is_search]

/-- On a connected connection whose Win2k3 flag is unknown, the Win2k3 probe
issues one search. -/
theorem is_win2k3_unknown_searches (K : Headers) (w : World) (reply : SearchReply)
    (hconn : w.conn.state = STATE_CONNECTED) (hflag : w.conn.is_win2k3 = -1) :
    (windows_conn_replica_is_win2k3 K w reply).1.searches = w.searches + 1 := by
  unfold windows_conn_replica_is_win2k3
  simp only [windows_conn_connected, hconn, hflag, beq_self_eq_true, if_true]
  split_ifs <;>
  simp [windows_conn_disconnect, searches_close, searches_call, World.set_status,
    World.set_error, World.call, World.searches, List.countP_append, ExtCall.is_search]
  · rw [show (close_connection_internal _).calls.countP ExtCall.is_search =
      (close_connection_internal _).searches from rfl, searches_close]
    simp [World.searches, List.countP_append, ExtCall.is_search]

/-- On a connected connection whose ds5-repl flag is unknown, the ds5-repl
probe issues one search. -/
theorem supports_ds5_unknown_searches (K : Headers) (w : World) (reply : SearchReply)
    (hconn : w.conn.state = STATE_CONNECTED) (hflag : w.conn.supports_ds50_repl = -1) :
    (windows_conn_replica_supports_ds5_repl K w reply).1.searches = w.searches + 1 := by
  unfold windows_conn_replica_supports_ds5_repl
  simp only [windows_conn_connected, hconn, hflag, beq_self_eq_true, if_true]
  split_ifs <;>
  simp [windows_conn_disconnect, searches_close, searches_call, World.set_status,
    World.set_error, World.call, World.searches, List.countP_append, ExtCall.is_search]
  · rw [show (close_connection_internal _).calls.countP ExtCall.is_search =
      (close_connection_internal _).searches from rfl, searches_close]
    simp [World.searches, List.countP_append, ExtCall.is_search]

/-- C18: for each of the three probes, on a connected connection whose flag for
the capability is unknown (WINSYNC_USE_DS unset for the dirsync probe), if the
search fails with a disconnect-worthy code then the probe returns not-connected,
the connection is disconnected (state disconnected, no handle), the code is the
recorded last error and the flag is still unknown; and the probe issues a
search again on any connected connection that carries that flag value, such as
this one once reconnected. -/
theorem probe_disconnect_error (K : Headers) (w : World) (reply : SearchReply)
    (hconn : w.conn.state = STATE_CONNECTED)
    (hfail : reply.rc ≠ K.LDAP_SUCCESS)
    (hdisc : IS_DISCONNECT_ERROR K reply.rc = true) :
    (w.conn.supports_dirsync = -1 →
      (windows_conn_replica_supports_dirsync K w false reply).2 = CONN_NOT_CONNECTED ∧
      (windows_conn_replica_supports_dirsync K w false reply).1.conn.state =
        STATE_DISCONNECTED ∧
      (windows_conn_replica_supports_dirsync K w false reply).1.conn.ld = none ∧
      (windows_conn_replica_supports_dirsync K w false reply).1.conn.last_ldap_error =
        reply.rc ∧
      (windows_conn_replica_supports_dirsync K w false reply).1.conn.supports_dirsync = -1 ∧
      (∀ (w2 : World) (r2 : SearchReply), w2.conn.state = STATE_CONNECTED →
        w2.conn.supports_dirsync =
          (windows_conn_replica_supports_dirsync K w false reply).1.conn.supports_dirsync →
        (windows_conn_replica_supports_dirsync K w2 false r2).1.searches = w2.searches + 1)) ∧
    (w.conn.is_win2k3 = -1 →
      (windows_conn_replica_is_win2k3 K w reply).2 = CONN_NOT_CONNECTED ∧
      (windows_conn_replica_is_win2k3 K w reply).1.conn.state = STATE_DISCONNECTED ∧
      (windows_conn_replica_is_win2k3 K w reply).1.conn.ld = none ∧
      (windows_conn_replica_is_win2k3 K w reply).1.conn.last_ldap_error = reply.rc ∧
      (windows_conn_replica_is_win2k3 K w reply).1.conn.is_win2k3 = -1 ∧
      (∀ (w2 : World) (r2 : SearchReply), w2.conn.state = STATE_CONNECTED →
        w2.conn.is_win2k3 = (windows_conn_replica_is_win2k3 K w reply).1.conn.is_win2k3 →
        (windows_conn_replica_is_win2k3 K w2 r2).1.searches = w2.searches + 1)) ∧
    (w.conn.supports_ds50_repl = -1 →
      (windows_conn_replica_supports_ds5_repl K w reply).2 = CONN_NOT_CONNECTED ∧
      (windows_conn_replica_supports_ds5_repl K w reply).1.conn.state = STATE_DISCONNECTED ∧
      (windows_conn_replica_supports_ds5_repl K w reply).1.conn.ld = none ∧
      (windows_conn_replica_supports_ds5_repl K w reply).1.conn.last_ldap_error = reply.rc ∧
      (windows_conn_replica_supports_ds5_repl K w reply).1.conn.supports_ds50_repl = -1 ∧
      (∀ (w2 : World) (r2 : SearchReply), w2.conn.state = STATE_CONNECTED →
        w2.conn.supports_ds50_repl =
          (windows_conn_replica_supports_ds5_repl K w reply).1.conn.supports_ds50_repl →
        (windows_conn_replica_supports_ds5_repl K w2 r2).1.searches = w2.searches + 1)) := by
  have hfail2 : ¬ K.LDAP_SUCCESS = reply.rc := fun h => hfail h.symm
  refine ⟨?_, ?_, ?_⟩ <;> intro hflag
  · have hpost : (windows_conn_replica_supports_dirsync K w false reply).1.conn.supports_dirsync
        = -1 := by
      simp [windows_conn_replica_supports_dirsync, windows_conn_connected, hconn, hflag, hfail2,
        hdisc, windows_conn_disconnect, close_connection_internal_conn, World.set_error,
        World.set_status, World.call]
    refine ⟨?_, ?_, ?_, ?_, hpost, ?_⟩
    · simp [windows_conn_replica_supports_dirsync, windows_conn_connected, hconn, hflag, hfail2,
        hdisc]
    · simp [windows_conn_replica_supports_dirsync, windows_conn_connected, hconn, hflag, hfail2,
        hdisc, windows_conn_disconnect, close_connection_internal_conn]
    · simp [windows_conn_replica_supports_dirsync, windows_conn_connected, hconn, hflag, hfail2,
        hdisc, windows_conn_disconnect, close_connection_internal_conn]
    · simp [windows_conn_replica_supports_dirsync, windows_conn_connected, hconn, hflag, hfail2,
        hdisc, windows_conn_disconnect, close_connection_internal_conn, World.set_error,
        World.set_status, World.call]
    · intro w2 r2 h2 hf
      exact supports_dirsync_unknown_searches K w2 r2 h2 (hf.trans hpost)
  · have hpost : (windows_conn_replica_is_win2k3 K w reply).1.conn.is_win2k3 = -1 := by
      simp [windows_conn_replica_is_win2k3, windows_conn_connected, hconn, hflag, hfail2,
        hdisc, windows_conn_disconnect, close_connection_internal_conn, World.set_error,
        World.set_status, World.call]
    refine ⟨?_, ?_, ?_, ?_, hpost, ?_⟩
    · simp [windows_conn_replica_is_win2k3, windows_conn_connected, hconn, hflag, hfail2, hdisc]
    · simp [windows_conn_replica_is_win2k3, windows_conn_connected, hconn, hflag, hfail2, hdisc,
        windows_conn_disconnect, close_connection_internal_conn]
    · simp [windows_conn_replica_is_win2k3, windows_conn_connected, hconn, hflag, hfail2, hdisc,
        windows_conn_disconnect, close_connection_internal_conn]
    · simp [windows_conn_replica_is_win2k3, windows_conn_connected, hconn, hflag, hfail2, hdisc,
        windows_conn_disconnect, close_connection_internal_conn, World.set_error,
        World.set_status, World.call]
    · intro w2 r2 h2 hf
      exact is_win2k3_unknown_searches K w2 r2 h2 (hf.trans hpost)
  · have hpost : (windows_conn_replica_supports_ds5_repl K w reply).1.conn.supports_ds50_repl
        = -1 := by
      simp [windows_conn_replica_supports_ds5_repl, windows_conn_connected, hconn, hflag, hfail2,
        hdisc, windows_conn_disconnect, close_connection_internal_conn]
    refine ⟨?_, ?_, ?_, ?_, hpost, ?_⟩
    · simp [windows_conn_replica_supports_ds5_repl, windows_conn_connected, hconn, hflag,
        hfail2, hdisc]
    · simp [windows_conn_replica_supports_ds5_repl, windows_conn_connected, hconn, hflag,
        hfail2, hdisc, windows_conn_disconnect, close_connection_internal_conn]
    · simp [windows_conn_replica_supports_ds5_repl, windows_conn_connected, hconn, hflag,
        hfail2, hdisc, windows_conn_disconnect, close_connection_internal_conn]
    · simp [windows_conn_replica_supports_ds5_repl, windows_conn_connected, hconn, hflag,
        hfail2, hdisc, windows_conn_disconnect, close_connection_internal_conn, World.set_error,
        World.set_status, World.call]
    · intro w2 r2 h2 hf
      exact supports_ds5_unknown_searches K w2 r2 h2 (hf.trans hpost)

/-- The unprobed sample connection and a peer that is down when the Win2k3
probe searches. -/
theorem probe_disconnect_error_witness :
    (windows_conn_replica_is_win2k3 openldap sample_unprobed { rc := -1, entry := none }).2 =
      CONN_NOT_CONNECTED ∧
    (windows_conn_replica_is_win2k3 openldap sample_unprobed
      { rc := -1, entry := none }).1.conn.state = STATE_DISCONNECTED ∧
    (windows_conn_replica_is_win2k3 openldap sample_unprobed
      { rc := -1, entry := none }).1.conn.last_ldap_error = -1 ∧
    (windows_conn_replica_is_win2k3 openldap sample_unprobed
      { rc := -1, entry := none }).1.conn.is_win2k3 = -1 :=
  have h := (probe_disconnect_error openldap sample_unprobed { rc := -1, entry := none }
    (by decide) (by decide) (by decide)).2.1 (by decide)
  ⟨h.1, h.2.1, h.2.2.2.1, h.2.2.2.2.1⟩

/-! ## C19 -/

/-- The dirsync probe never writes the Win2k3 flag, and it leaves a resolved
dirsync flag as it is unless WINSYNC_USE_DS forces it to 1. -/
theorem supports_dirsync_keeps_flags (K : Headers) (w : World) (use_ds : Bool)
    (reply : SearchReply) :
    (windows_conn_replica_supports_dirsync K w use_ds reply).1.conn.is_win2k3 =
      w.conn.is_win2k3 ∧
    (w.conn.supports_dirsync ≠ -1 → (use_ds = true → w.conn.supports_dirsync = 1) →
      (windows_conn_replica_supports_dirsync K w use_ds reply).1.conn.supports_dirsync =
        w.conn.supports_dirsync) := by
  cases use_ds <;>
  by_cases h1 : windows_conn_connected w.conn = true <;>
  by_cases h2 : w.conn.supports_dirsync = -1 <;>
  by_cases h3 : K.LDAP_SUCCESS = reply.rc <;>
  by_cases h4 : attribute_string_value_present reply.entry "supportedcontrol"
    K.REPL_DIRSYNC_CONTROL_OID = 0 <;>
  by_cases h5 : IS_DISCONNECT_ERROR K reply.rc = true <;>
  simp [windows_conn_replica_supports_dirsync, h1, h2, h3, h4, h5, windows_conn_disconnect,
    close_connection_internal_conn, World.set_status, World.set_error, World.call] <;>
  (intro h; exact h.symm)

/-- The Win2k3 probe never writes the dirsync flag, and it leaves a resolved
Win2k3 flag as it is. -/
theorem is_win2k3_keeps_flags (K : Headers) (w : World) (reply : SearchReply) :
    (windows_conn_replica_is_win2k3 K w reply).1.conn.supports_dirsync =
      w.conn.supports_dirsync ∧
    (w.conn.is_win2k3 ≠ -1 →
      (windows_conn_replica_is_win2k3 K w reply).1.conn.is_win2k3 = w.conn.is_win2k3) := by
  by_cases h1 : windows_conn_connected w.conn = true <;>
  by_cases h2 : w.conn.is_win2k3 = -1 <;>
  by_cases h3 : K.LDAP_SUCCESS = reply.rc <;>
  by_cases h4 : attribute_string_value_present reply.entry "supportedCapabilities"
    K.REPL_WIN2K3_AD_OID = 0 <;>
  by_cases h5 : IS_DISCONNECT_ERROR K reply.rc = true <;>
  simp [windows_conn_replica_is_win2k3, h1, h2, h3, h4, h5, windows_conn_disconnect,
    close_connection_internal_conn, World.set_status, World.set_error, World.call]

/-- The connection left by bind_and_check_pwp: only the last error is written,
and it is the return value of the bind. -/
theorem bind_and_check_pwp_conn (K : Headers) (w : World) (binddn password : Option String)
    (rc : Int) :
    (bind_and_check_pwp K w binddn password rc).1.conn =
      { w.conn with last_ldap_error := rc } := by
  by_cases h1 : rc = K.LDAP_SUCCESS <;> by_cases h2 : w.conn.last_ldap_error = rc <;>
  simp [bind_and_check_pwp, h1, h2, World.call, World.set_error] <;>
  (cases hc : w.conn; simp_all)

/-- The end of connect keeps resolved dirsync and Win2k3 flags. -/
theorem connect_bind_keeps_flags (K : Headers) (w : World) (binddn : Option String)
    (env : ConnectEnv) :
    (w.conn.is_win2k3 ≠ -1 →
      (connect_bind K w binddn env).1.conn.is_win2k3 = w.conn.is_win2k3) ∧
    (w.conn.supports_dirsync ≠ -1 → (env.use_ds = true → w.conn.supports_dirsync = 1) →
      (connect_bind K w binddn env).1.conn.supports_dirsync = w.conn.supports_dirsync) := by
  have hb := bind_and_check_pwp_conn K w binddn w.conn.plain env.bind_rc
  unfold connect_bind
  generalize bind_and_check_pwp K w binddn w.conn.plain env.bind_rc = b at hb
  constructor
  · intro hf
    by_cases h1 : b.2 = CONN_OPERATION_FAILED <;>
    simp only [h1, if_true, if_false, close_connection_internal_conn, World.call] <;>
    (rw [(is_win2k3_keeps_flags K _ _).2] <;>
      simp [(supports_dirsync_keeps_flags K _ _ _).1, hb, hf])
  · intro hf hu
    by_cases h1 : b.2 = CONN_OPERATION_FAILED <;>
    simp only [h1, if_true, if_false, close_connection_internal_conn, World.call] <;>
    (rw [(is_win2k3_keeps_flags K _ _).1] ; simp only [] ;
      rw [(supports_dirsync_keeps_flags K _ _ _).2] <;>
      first | exact hu | (simp only [hb]; exact hu) | simp [hb, hf])

/-- Connect keeps resolved dirsync and Win2k3 flags on every path. -/
theorem connect_keeps_flags (K : Headers) (w : World) (env : ConnectEnv) :
    (w.conn.is_win2k3 ≠ -1 →
      (windows_conn_connect K w env).1.conn.is_win2k3 = w.conn.is_win2k3) ∧
    (w.conn.supports_dirsync ≠ -1 → (env.use_ds = true → w.conn.supports_dirsync = 1) →
      (windows_conn_connect K w env).1.conn.supports_dirsync = w.conn.supports_dirsync) := by
  have hr1 : (connect_refresh w env).conn.is_win2k3 = w.conn.is_win2k3 := by
    unfold connect_refresh; split <;> rfl
  have hr2 : (connect_refresh w env).conn.supports_dirsync = w.conn.supports_dirsync := by
    unfold connect_refresh; split <;> rfl
  unfold windows_conn_connect
  generalize connect_refresh w env = w0 at hr1 hr2
  constructor
  · intro hf
    by_cases c1 : w.conn.state = STATE_CONNECTED <;>
    by_cases c2 : w0.conn.plain = none <;>
    by_cases c3 : env.pw_ret = -1 <;>
    by_cases c4 : connect_secure K w0.conn.transport_flags > 0 <;>
    by_cases c5 : env.nss_initialized = false <;>
    by_cases c6 : env.new_ld = none <;>
    simp [c1, c2, c3, c4, c5, c6, World.call, hr1] <;>
    (rw [(connect_bind_keeps_flags K _ _ _).1]; simp [hr1, hf])
  · intro hf hu
    by_cases c1 : w.conn.state = STATE_CONNECTED <;>
    by_cases c2 : w0.conn.plain = none <;>
    by_cases c3 : env.pw_ret = -1 <;>
    by_cases c4 : connect_secure K w0.conn.transport_flags > 0 <;>
    by_cases c5 : env.nss_initialized = false <;>
    by_cases c6 : env.new_ld = none <;>
    simp [c1, c2, c3, c4, c5, c6, World.call, hr2] <;>
    (rw [(connect_bind_keeps_flags K _ _ _).2] <;>
      first | exact hu | (simp only [hr2, hu, implies_true]; done) | simp [hr2, hf])

/-- C19: closing the transport resets only the ds5-repl flag. The connection
left by windows_conn_disconnect is the one before with the handle cleared, the
state and the status set to disconnected and the ds5-repl flag set to unknown:
every other field, the dirsync and Win2k3 flags among them, is as before. The
linger timer keeps the two flags as well, and when it closes a lingering
connection that is not to be deleted it writes the same four fields besides
clearing the linger. A reconnect after the close leaves a resolved Win2k3 flag
as it was, and a resolved dirsync flag too (WINSYNC_USE_DS, when set, forces
that flag to supported, so it is assumed unset or the flag already
supported). -/
theorem close_resets_only_ds5 (K : Headers) (w : World) (env : ConnectEnv) :
    (windows_conn_disconnect w).conn =
      { w.conn with ld := none, state := STATE_DISCONNECTED, status := STATUS_DISCONNECTED,
                    supports_ds50_repl := -1 } ∧
    ((linger_timeout w).conn.supports_dirsync = w.conn.supports_dirsync ∧
      (linger_timeout w).conn.is_win2k3 = w.conn.is_win2k3) ∧
    (w.conn.linger_active = true → w.conn.delete_after_linger = false →
      (linger_timeout w).conn =
        { w.conn with linger_active := false, linger_event := none, ld := none,
                      state := STATE_DISCONNECTED, status := STATUS_DISCONNECTED,
                      supports_ds50_repl := -1 }) ∧
    (w.conn.is_win2k3 ≠ -1 →
      (windows_conn_connect K (windows_conn_disconnect w) env).1.conn.is_win2k3 =
        w.conn.is_win2k3) ∧
    (w.conn.supports_dirsync ≠ -1 → (env.use_ds = true → w.conn.supports_dirsync = 1) →
      (windows_conn_connect K (windows_conn_disconnect w) env).1.conn.supports_dirsync =
        w.conn.supports_dirsync) := by
  have hd := close_connection_internal_conn w
  refine ⟨hd, ?_, ?_, ?_, ?_⟩
  · cases h1 : w.conn.linger_active <;> cases h2 : w.conn.delete_after_linger <;>
    simp [linger_timeout, windows_conn_delete_internal, close_connection_internal_conn, h1, h2]
  · intro h1 h2
    simp [linger_timeout, close_connection_internal_conn, h1, h2]
  · intro hf
    rw [(connect_keeps_flags K _ env).1] <;> simp [windows_conn_disconnect, hd, hf]
  · intro hf hu
    rw [(connect_keeps_flags K _ env).2] <;>
    first | (simp only [windows_conn_disconnect, hd]; exact hu) |
      simp [windows_conn_disconnect, hd, hf]

/-- The connected sample connection, closed and connected again to a peer that
answers nothing useful to the probes: the flags resolved before are kept. -/
theorem close_resets_only_ds5_witness :
    (windows_conn_connect openldap (windows_conn_disconnect sample_connected)
      probe_down_env).1.conn.is_win2k3 = sample_connected.conn.is_win2k3 ∧
    (windows_conn_connect openldap (windows_conn_disconnect sample_connected)
      probe_down_env).1.conn.supports_dirsync = sample_connected.conn.supports_dirsync :=
  have h := close_resets_only_ds5 openldap sample_connected probe_down_env
  ⟨h.2.2.2.1 (by decide), h.2.2.2.2 (by decide) (by decide)⟩

/-! ## C20 -/

/-- The function attribute_string_value_present answers 1 when the entry
advertises the value under the attribute, and 0 when it does not. -/
theorem attribute_string_value_present_iff (entry : Option (List LDAPAttribute))
    (type value : String) :
    (attribute_string_value_present entry type value ≠ 0 ↔ entry_advertises entry type value) ∧
    (attribute_string_value_present entry type value = 0 ∨
      attribute_string_value_present entry type value = 1) := by
  constructor
  · unfold attribute_string_value_present entry_advertises
    cases entry with
    | none => simp
    | some attrs =>
      simp only [Option.some.injEq, exists_eq_left']
      by_cases h : attrs.any (fun a => strcasecmp_eq a.atype type &&
          (match a.vals with
           | none => false
           | some vals => vals.any (fun v => v == value))) = true
      · simp only [h, if_true]
        refine ⟨fun _ => ?_, fun _ => by decide⟩
        rw [List.any_eq_true] at h
        obtain ⟨a, ha, hp⟩ := h
        simp only [Bool.and_eq_true] at hp
        refine ⟨a, ha, hp.1, ?_⟩
        cases hv : a.vals with
        | none => simp [hv] at hp
        | some vals =>
          refine ⟨vals, rfl, ?_⟩
          have := hp.2
          simp only [hv, List.any_eq_true, beq_iff_eq] at this
          obtain ⟨v, hv1, hv2⟩ := this
          exact hv2 ▸ hv1
      · simp only [h]
        refine ⟨fun hc => absurd rfl hc, fun hc => ?_⟩
        exfalso; apply h
        obtain ⟨a, ha, ht, vals, hv, hm⟩ := hc
        rw [List.any_eq_true]
        refine ⟨a, ha, ?_⟩
        simp only [Bool.and_eq_true, ht, hv, List.any_eq_true, beq_iff_eq, true_and]
        exact ⟨value, hm, rfl⟩
  · unfold attribute_string_value_present
    cases entry with
    | none => simp
    | some attrs => dsimp only; split <;> simp

/-- C20: on a connected connection whose ds5-repl flag is unknown, when the
metadata search returns LDAP_SUCCESS the ds5-repl probe returns supported if
and only if the returned entry advertises all five identifiers (the update-info
control under supportedcontrol; the start-replication, end-replication,
replication-entry and replication-response extensions under
supportedextension); it then caches supported, and if any of the five is
missing it returns unsupported and caches unsupported. -/
theorem supports_ds5_iff_all_five (K : Headers) (w : World) (reply : SearchReply)
    (hconn : w.conn.state = STATE_CONNECTED)
    (hflag : w.conn.supports_ds50_repl = -1)
    (hok : reply.rc = K.LDAP_SUCCESS) :
    ((windows_conn_replica_supports_ds5_repl K w reply).2 = CONN_SUPPORTS_DS5_REPL ↔
      (entry_advertises reply.entry "supportedcontrol" K.REPL_NSDS50_UPDATE_INFO_CONTROL_OID ∧
       entry_advertises reply.entry "supportedextension"
         K.REPL_START_NSDS50_REPLICATION_REQUEST_OID ∧
       entry_advertises reply.entry "supportedextension"
         K.REPL_END_NSDS50_REPLICATION_REQUEST_OID ∧
       entry_advertises reply.entry "supportedextension"
         K.REPL_NSDS50_REPLICATION_ENTRY_REQUEST_OID ∧
       entry_advertises reply.entry "supportedextension"
         K.REPL_NSDS50_REPLICATION_RESPONSE_OID)) ∧
    ((windows_conn_replica_supports_ds5_repl K w reply).2 = CONN_SUPPORTS_DS5_REPL →
      (windows_conn_replica_supports_ds5_repl K w reply).1.conn.supports_ds50_repl = 1) ∧
    ((windows_conn_replica_supports_ds5_repl K w reply).2 ≠ CONN_SUPPORTS_DS5_REPL →
      (windows_conn_replica_supports_ds5_repl K w reply).2 = CONN_DOES_NOT_SUPPORT_DS5_REPL ∧
      (windows_conn_replica_supports_ds5_repl K w reply).1.conn.supports_ds50_repl = 0) := by
  simp only [← (attribute_string_value_present_iff _ _ _).1]
  unfold windows_conn_replica_supports_ds5_repl
  by_cases h1 : attribute_string_value_present reply.entry "supportedcontrol"
      K.REPL_NSDS50_UPDATE_INFO_CONTROL_OID = 0 <;>
  by_cases h2 : attribute_string_value_present reply.entry "supportedextension"
      K.REPL_START_NSDS50_REPLICATION_REQUEST_OID = 0 <;>
  by_cases h3 : attribute_string_value_present reply.entry "supportedextension"
      K.REPL_END_NSDS50_REPLICATION_REQUEST_OID = 0 <;>
  by_cases h4 : attribute_string_value_present reply.entry "supportedextension"
      K.REPL_NSDS50_REPLICATION_ENTRY_REQUEST_OID = 0 <;>
  by_cases h5 : attribute_string_value_present reply.entry "supportedextension"
      K.REPL_NSDS50_REPLICATION_RESPONSE_OID = 0 <;>
  simp [windows_conn_connected, hconn, hflag, hok, h1, h2, h3, h4, h5, World.set_status,
    World.call]

/-- The unprobed sample connection and a root entry that lists all five
identifiers: the probe answers supported and caches it. -/
theorem supports_ds5_iff_all_five_witness :
    (windows_conn_replica_supports_ds5_repl openldap sample_unprobed
      { rc := 0, entry := some sample_ds5_rootdse }).2 = CONN_SUPPORTS_DS5_REPL ∧
    (windows_conn_replica_supports_ds5_repl openldap sample_unprobed
      { rc := 0, entry := some sample_ds5_rootdse }).1.conn.supports_ds50_repl = 1 :=
  have h := supports_ds5_iff_all_five openldap sample_unprobed
    { rc := 0, entry := some sample_ds5_rootdse } (by decide) (by decide) (by decide)
  ⟨by decide, h.2.1 (by decide)⟩

/-! ## Tokens of an attribute name -/

/-- Reading on through a run of characters other than the separator. -/
theorem strtok_scan_token (t rest : List Char) (off o : Nat) (acc : List Char)
    (ht : ';' ∉ t) :
    strtok_scan (t ++ rest) off (some (o, acc)) =
      strtok_scan rest (off + t.length) (some (o, t.reverse ++ acc)) := by
  induction t generalizing off acc with
  | nil => simp
  | cons c cs ih =>
    have hc : c ≠ ';' := fun h => ht (by simp [h])
    have hcs : ';' ∉ cs := fun h => ht (by simp [h])
    simp only [List.cons_append, strtok_scan, hc, if_false, List.append_eq]
    rw [ih (off + 1) (c :: acc) hcs]
    simp [Nat.add_assoc, Nat.add_comm 1]

/-- The tokens of a run of subtypes, each one after a separator. -/
theorem strtok_scan_subs (subs : List (List Char)) (off o : Nat) (acc : List Char)
    (hsubs : ∀ s ∈ subs, s ≠ [] ∧ ';' ∉ s) :
    strtok_scan (subs.map (fun s => ';' :: s)).flatten off (some (o, acc)) =
      (o, acc.reverse) :: sub_tokens (off + 1) subs := by
  induction subs generalizing off o acc with
  | nil => simp [strtok_scan, sub_tokens]
  | cons s ss ih =>
    obtain ⟨hne, hs⟩ := hsubs s (by simp)
    have hss : ∀ s ∈ ss, s ≠ [] ∧ ';' ∉ s := fun x hx => hsubs x (by simp [hx])
    cases s with
    | nil => exact absurd rfl hne
    | cons c cs =>
      have hc : c ≠ ';' := fun h => hs (by simp [h])
      have hcs : ';' ∉ cs := fun h => hs (by simp [h])
      simp only [List.map_cons, List.flatten_cons, List.cons_append, strtok_scan, if_true, List.append_eq,
        hc, if_false]
      rw [strtok_scan_token cs _ _ _ _ hcs, ih _ _ _ hss]
      have e : off + 1 + 1 + cs.length + 1 = off + 1 + (c :: cs).length + 1 := by
        simp only [List.length_cons]; omega
      simp [sub_tokens, e]

/-- The tokens of a name made of a base name and subtypes. -/
theorem strtok_scan_attr_name (base : List Char) (subs : List (List Char))
    (hbase : base ≠ [] ∧ ';' ∉ base) (hsubs : ∀ s ∈ subs, s ≠ [] ∧ ';' ∉ s) :
    strtok_scan (attr_name base subs) 0 none = (0, base) :: sub_tokens (base.length + 1) subs := by
  obtain ⟨hne, hb⟩ := hbase
  cases base with
  | nil => exact absurd rfl hne
  | cons c cs =>
    have hc : c ≠ ';' := fun h => hb (by simp [h])
    have hcs : ';' ∉ cs := fun h => hb (by simp [h])
    simp only [attr_name, List.cons_append, strtok_scan, hc, if_false, List.append_eq]
    rw [strtok_scan_token cs _ _ _ _ hcs, strtok_scan_subs _ _ _ _ hsubs]
    simp [Nat.add_comm]

/-- A name without a separator has no subtype. -/
theorem strtok_scan_plain (a : List Char) (ha : ';' ∉ a) :
    (strtok_scan a 0 none).drop 1 = [] := by
  cases a with
  | nil => simp [strtok_scan]
  | cons c cs =>
    have hc : c ≠ ';' := fun h => ha (by simp [h])
    have hcs : ';' ∉ cs := fun h => ha (by simp [h])
    have := strtok_scan_token cs [] 1 0 [c] hcs
    simp only [List.append_nil] at this
    simp [strtok_scan, hc, this]

/-! ## Decimal digits -/

/-- A decimal digit is none of the characters the parser gives a meaning to,
and its value is at most 9. -/
theorem digit_facts (c : Char) (h : c.isDigit = true) :
    c ≠ ';' ∧ c ≠ '-' ∧ c ≠ '+' ∧ c ≠ '*' ∧ isspace c = false ∧ c.toNat - 48 ≤ 9 := by
  refine ⟨?_, ?_, ?_, ?_, ?_, ?_⟩
  · rintro rfl; revert h; decide
  · rintro rfl; revert h; decide
  · rintro rfl; revert h; decide
  · rintro rfl; revert h; decide
  · simp only [isspace, Bool.or_eq_false_iff, decide_eq_false_iff_not]
    refine ⟨⟨⟨⟨⟨?_, ?_⟩, ?_⟩, ?_⟩, ?_⟩, ?_⟩ <;> (rintro rfl; revert h; decide)
  · simp only [Char.isDigit, Bool.and_eq_true, decide_eq_true_eq] at h
    have h2 : c.val.toNat ≤ 57 := h.2
    show c.val.toNat - 48 ≤ 9
    omega

/-- A run of n decimal digits read after `acc` has a value below
(acc + 1) * 10 ^ n. -/
theorem digits_value_lt (s : List Char) (acc : Nat) (hs : ∀ c ∈ s, c.isDigit = true) :
    digits_value acc s < (acc + 1) * 10 ^ s.length := by
  induction s generalizing acc with
  | nil => simp [digits_value]
  | cons c cs ih =>
    have hc := hs c (by simp)
    have hd := (digit_facts c hc).2.2.2.2.2
    have := ih (acc * 10 + (c.toNat - 48)) (fun x hx => hs x (by simp [hx]))
    simp only [digits_value, hc, if_true, List.length_cons, pow_succ]
    calc digits_value (acc * 10 + (c.toNat - 48)) cs
        < (acc * 10 + (c.toNat - 48) + 1) * 10 ^ cs.length := this
      _ ≤ ((acc + 1) * 10) * 10 ^ cs.length := by
          apply Nat.mul_le_mul_right; omega
      _ = (acc + 1) * (10 ^ cs.length * 10) := by ring

/-- The library call `strtol` on a run of decimal digits gives their value when
it fits a `long`. -/
theorem strtol_digits (s : List Char) (hne : s ≠ []) (hs : ∀ c ∈ s, c.isDigit = true)
    (hfit : digits_value 0 s < 2147483648) :
    strtol s = (digits_value 0 s : Int) := by
  cases s with
  | nil => exact absurd rfl hne
  | cons c cs =>
    obtain ⟨_, h2, h3, _, h5, _⟩ := digit_facts c (hs c (by simp))
    unfold strtol
    simp only [List.dropWhile_cons, h5, Bool.false_eq_true, if_false]
    have e : (match c :: cs with
        | '-' :: r => - (digits_value 0 r : Int)
        | '+' :: r => (digits_value 0 r : Int)
        | _ => (digits_value 0 (c :: cs) : Int)) = (digits_value 0 (c :: cs) : Int) := by
      split
      · rename_i heq; simp only [List.cons.injEq] at heq; exact absurd heq.1 h2
      · rename_i heq; simp only [List.cons.injEq] at heq; exact absurd heq.1 h3
      · rfl
    rw [e]
    have : (digits_value 0 (c :: cs) : Int) < 2147483648 := by exact_mod_cast hfit
    have h0 : (0 : Int) ≤ (digits_value 0 (c :: cs) : Int) := Int.natCast_nonneg _
    split_ifs <;> omega

/-- The conversion to `int` keeps a value that fits. -/
theorem to_int_fits (x : Int) (h0 : 0 ≤ x) (h1 : x < 2147483648) : to_int x = x := by
  unfold to_int; omega

/-- The call `strchr` skips the characters before the first occurrence. -/
theorem strchr_first (c : Char) (pre rest : List Char) (hpre : c ∉ pre) :
    strchr c (pre ++ c :: rest) = some (c :: rest) := by
  induction pre with
  | nil => simp [strchr]
  | cons x xs ih =>
    have hx : x ≠ c := fun h => hpre (by simp [h])
    have hxs : c ∉ xs := fun h => hpre (by simp [h])
    simp [strchr, hx, ih hxs]

/-- The call `strchr` finds a character that occurs. -/
theorem strchr_isSome (c : Char) (s : List Char) (h : c ∈ s) : (strchr c s).isSome = true := by
  induction s with
  | nil => simp at h
  | cons x xs ih =>
    by_cases hx : x = c
    · simp [strchr, hx]
    · have : c ∈ xs := by
        rcases List.mem_cons.mp h with h1 | h1
        · exact absurd h1.symm hx
        · exact h1
      simp [strchr, hx, ih this]

/-- Printing into a buffer that is large enough leaves the whole text. -/
theorem PR_snprintf_fits (size : Nat) (s : List Char) (h : s.length + 1 ≤ size) :
    PR_snprintf size s = s := by
  unfold PR_snprintf
  exact List.take_of_length_le (by omega)

/-! ## One bounded or terminal range subtype -/

/-- The subtype `range=low-high` starts with the range prefix. -/
theorem is_range_subtype_range (rest : List Char) :
    is_range_subtype (SUBTYPERANGE.data ++ rest) = true := by
  simp [is_range_subtype, SUBTYPERANGE]

/-- The first token after the base name is cut right before its separator. -/
theorem newa_cut (base rest : List Char) :
    (PR_snprintf ((base ++ rest).length + 2) (base ++ rest)).take (base.length + 1 - 1) = base := by
  rw [PR_snprintf_fits _ _ (by omega)]
  simp

/-- The subtype loop on `base;range=low-high` with a decimal upper bound from 1
to 2^31 - 2: the name is cut to `base` and `high` is the bound plus one. -/
theorem scan_subtypes_bounded (base low high : List Char)
    (hbase : base ≠ [] ∧ ';' ∉ base)
    (hlow : ∀ c ∈ low, c.isDigit = true)
    (hhigh : high ≠ [] ∧ ∀ c ∈ high, c.isDigit = true)
    (hpos : 0 < digits_value 0 high) (hmax : digits_value 0 high < 2147483647) :
    scan_subtypes (attr_name base [SUBTYPERANGE.data ++ low ++ '-' :: high]) =
      some { newa := some base, high := (digits_value 0 high : Int) + 1 } := by
  have hsub : ∀ s ∈ [SUBTYPERANGE.data ++ low ++ '-' :: high], s ≠ [] ∧ ';' ∉ s := by
    intro s hs
    simp only [List.mem_singleton] at hs
    subst hs
    refine ⟨by simp [SUBTYPERANGE], ?_⟩
    simp only [List.mem_append, List.mem_cons, not_or]
    refine ⟨⟨by simp [SUBTYPERANGE], fun h => (digit_facts _ (hlow _ h)).1 rfl⟩, by decide,
      fun h => (digit_facts _ (hhigh.2 _ h)).1 rfl⟩
  have hdash : '-' ∉ SUBTYPERANGE.data ++ low := by
    simp only [List.mem_append, not_or]
    exact ⟨by simp [SUBTYPERANGE], fun h => (digit_facts _ (hlow _ h)).2.1 rfl⟩
  obtain ⟨hne, hdig⟩ := hhigh
  have hstar : high.head? ≠ some '*' := by
    cases high with
    | nil => exact absurd rfl hne
    | cons c cs =>
      simp only [List.head?_cons, ne_eq, Option.some.injEq]
      exact (digit_facts c (hdig c (by simp))).2.2.2.1
  have hv := strtol_digits high hne hdig (by omega)
  have hi : to_int (digits_value 0 high : Int) = (digits_value 0 high : Int) :=
    to_int_fits _ (Int.natCast_nonneg _) (by omega)
  have hi2 : to_int ((digits_value 0 high : Int) + 1) = (digits_value 0 high : Int) + 1 :=
    to_int_fits _ (by omega) (by omega)
  have hp : (0 : Int) < (digits_value 0 high : Int) := by exact_mod_cast hpos
  unfold scan_subtypes
  rw [strtok_scan_attr_name base _ hbase hsub]
  simp only [sub_tokens, List.drop_succ_cons, List.drop_zero, List.foldlM_cons, List.foldlM_nil,
    scan_subtype]
  rw [List.append_assoc, is_range_subtype_range]
  simp only [if_true]
  rw [← List.append_assoc, strchr_first '-' _ high hdash]
  simp only [List.drop_succ_cons, List.drop_zero, hstar, if_false, hv, hi, hp, if_true, hi2]
  simp only [attr_name, newa_cut]
  rfl

/-- The subtype loop on `base;range=low-*`: the name is cut to `base` and
`high` is 0. -/
theorem scan_subtypes_terminal (base low : List Char)
    (hbase : base ≠ [] ∧ ';' ∉ base)
    (hlow : ∀ c ∈ low, c.isDigit = true) :
    scan_subtypes (attr_name base [SUBTYPERANGE.data ++ low ++ ['-', '*']]) =
      some { newa := some base, high := 0 } := by
  have hsub : ∀ s ∈ [SUBTYPERANGE.data ++ low ++ ['-', '*']], s ≠ [] ∧ ';' ∉ s := by
    intro s hs
    simp only [List.mem_singleton] at hs
    subst hs
    refine ⟨by simp [SUBTYPERANGE], ?_⟩
    simp only [List.mem_append, List.mem_cons, not_or]
    exact ⟨⟨by simp [SUBTYPERANGE], fun h => (digit_facts _ (hlow _ h)).1 rfl⟩, by decide,
      by decide, by simp⟩
  have hdash : '-' ∉ SUBTYPERANGE.data ++ low := by
    simp only [List.mem_append, not_or]
    exact ⟨by simp [SUBTYPERANGE], fun h => (digit_facts _ (hlow _ h)).2.1 rfl⟩
  unfold scan_subtypes
  rw [strtok_scan_attr_name base _ hbase hsub]
  simp only [sub_tokens, List.drop_succ_cons, List.drop_zero, List.foldlM_cons, List.foldlM_nil,
    scan_subtype]
  rw [List.append_assoc, is_range_subtype_range]
  simp only [if_true]
  rw [← List.append_assoc, strchr_first '-' _ ['*'] hdash]
  simp only [List.drop_succ_cons, List.drop_zero, List.head?_cons, if_true]
  simp only [attr_name, newa_cut]
  rfl

/-- The next-range name of `base;range=low-high` is not cut by the buffer of
`strlen(a) + 2` bytes when `low` is not empty. -/
theorem next_range_name_bounded (base low high : List Char)
    (hlow : low ≠ [])
    (hhigh : ∀ c ∈ high, c.isDigit = true) :
    next_range_name (attr_name base [SUBTYPERANGE.data ++ low ++ '-' :: high]) base
        ((digits_value 0 high : Int) + 1) =
      String.mk (base ++ ';' :: (SUBTYPERANGE.data ++
        (toString (digits_value 0 high + 1)).data ++ ['-', '*'])) := by
  have hlen : (Nat.repr (digits_value 0 high + 1)).length ≤ high.length + 1 := by
    apply Nat.repr_length _ _ (by omega)
    have := digits_value_lt high 0 hhigh
    simp only [Nat.zero_add, Nat.one_mul] at this
    calc digits_value 0 high + 1 ≤ 10 ^ high.length := this
      _ < 10 ^ (high.length + 1) := Nat.pow_lt_pow_right (by decide) (by omega)
  have hl : 0 < low.length := List.length_pos.mpr hlow
  have hts : toString ((digits_value 0 high : Int) + 1) = Nat.repr (digits_value 0 high + 1) := by
    rfl
  unfold next_range_name
  rw [hts, PR_snprintf_fits]
  · rfl
  · have e : (Nat.repr (digits_value 0 high + 1)).data.length =
        (Nat.repr (digits_value 0 high + 1)).length := rfl
    simp only [attr_name, SUBTYPERANGE, List.map_cons, List.map_nil, List.flatten_cons,
      List.flatten_nil, List.length_append, List.length_cons, List.length_nil, e]
    simp only [String.length] at hlen ⊢
    omega

/-! ## The out-parameter through the loop over the attributes -/

/-- A name without a separator has no subtype: the loop finds nothing. -/
theorem scan_subtypes_plain (a : List Char) (ha : ';' ∉ a) :
    scan_subtypes a = some { newa := none, high := 0 } := by
  unfold scan_subtypes
  rw [strtok_scan_plain a ha]
  rfl

/-- Merging touches neither the out-parameter nor its counters. -/
theorem m2e_merge_exattrs (st : M2EState) (type : String) (vals : Option (List String)) :
    (m2e_merge st type vals).exattrs = st.exattrs ∧
    (m2e_merge st type vals).exattrlen = st.exattrlen ∧
    (m2e_merge st type vals).exattridx = st.exattridx := by
  unfold m2e_merge
  cases vals with
  | none => dsimp only; split <;> exact ⟨rfl, rfl, rfl⟩
  | some v => exact ⟨rfl, rfl, rfl⟩

/-- No next range is asked for when `high` is not positive. -/
theorem m2e_next_range_none (st : M2EState) (a : List Char) (scan : SubtypeScan)
    (h : ¬ scan.high > 0) : m2e_next_range st a scan = some st := by
  unfold m2e_next_range
  cases st.exattrs <;> simp [h]

/-- An attribute whose name has no subtype leaves the out-parameter and its
counters as they are. -/
theorem m2e_attribute_plain (K : Headers) (attrsonly : Int) (st : M2EState) (x : LDAPAttribute)
    (hx : ';' ∉ x.atype.data) :
    ∃ st', m2e_attribute K attrsonly st x = some st' ∧ st'.exattrs = st.exattrs ∧
      st'.exattrlen = st.exattrlen ∧ st'.exattridx = st.exattridx := by
  unfold m2e_attribute
  simp only [scan_subtypes_plain _ hx]
  by_cases h1 : m2e_skipped x.atype = true
  · simp [h1]
  · by_cases h2 : attrsonly ≠ 0
    · simp [h1, h2]
    · simp only [h1, h2, if_false, Bool.false_eq_true]
      rw [m2e_next_range_none _ _ _ (by simp)]
      exact ⟨_, rfl, (m2e_merge_exattrs _ _ _).1, (m2e_merge_exattrs _ _ _).2.1,
        (m2e_merge_exattrs _ _ _).2.2⟩

/-- Attributes whose names have no subtype leave the out-parameter and its
counters as they are. -/
theorem m2e_fold_plain (K : Headers) (attrsonly : Int) (xs : List LDAPAttribute) (st : M2EState)
    (hxs : ∀ x ∈ xs, ';' ∉ x.atype.data) :
    ∃ st', xs.foldlM (m2e_attribute K attrsonly) st = some st' ∧ st'.exattrs = st.exattrs ∧
      st'.exattrlen = st.exattrlen ∧ st'.exattridx = st.exattridx := by
  induction xs generalizing st with
  | nil => exact ⟨st, rfl, rfl, rfl, rfl⟩
  | cons x xs ih =>
    obtain ⟨s1, h1, e1, e2, e3⟩ := m2e_attribute_plain K attrsonly st x (hxs x (by simp))
    obtain ⟨s2, h2, f1, f2, f3⟩ := ih s1 (fun y hy => hxs y (by simp [hy]))
    refine ⟨s2, ?_, f1.trans e1, f2.trans e2, f3.trans e3⟩
    simp [List.foldlM_cons, h1, h2]

/-- A name with a subtype is none of the names compared with it in the file,
which have no separator. -/
theorem strcasecmp_eq_subtyped (a b : String) (ha : ';' ∈ a.data)
    (hb : ';' ∉ b.data.map Char.toLower) : strcasecmp_eq a b = false := by
  unfold strcasecmp_eq
  rw [beq_eq_false_iff_ne]
  intro h
  apply hb
  rw [← h]
  exact List.mem_map.mpr ⟨';', ha, by decide⟩

/-- A name with a subtype is not skipped. -/
theorem m2e_skipped_subtyped (a : String) (ha : ';' ∈ a.data) : m2e_skipped a = false := by
  unfold m2e_skipped
  rw [strcasecmp_eq_subtyped a _ ha (by decide), strcasecmp_eq_subtyped a _ ha (by decide),
    strcasecmp_eq_subtyped a _ ha (by decide)]
  rfl

/-- The separator occurs in a name that has a subtype. -/
theorem mem_attr_name (base s : List Char) (ss : List (List Char)) :
    ';' ∈ attr_name base (s :: ss) := by
  simp [attr_name]

/-! ## Names compared without regard to case -/

theorem strcasecmp_eq_iff (a b : String) :
    strcasecmp_eq a b = true ↔ a.data.map Char.toLower = b.data.map Char.toLower := by
  simp [strcasecmp_eq]

theorem strcasecmp_eq_refl (a : String) : strcasecmp_eq a a = true := by
  simp [strcasecmp_eq]

/-- Two names equal up to case compare alike with any third name. -/
theorem strcasecmp_eq_congr (x a b : String) (h : strcasecmp_eq a b = true) :
    strcasecmp_eq x a = strcasecmp_eq x b := by
  rw [strcasecmp_eq_iff] at h
  simp only [strcasecmp_eq, h]

theorem strcasecmp_eq_symm (a b : String) (h : strcasecmp_eq a b = true) :
    strcasecmp_eq b a = true := by
  rw [strcasecmp_eq_iff] at h ⊢
  exact h.symm

/-- Looking an attribute up gives the same under two names equal up to case. -/
theorem slapi_entry_attr_find_congr (e : Slapi_Entry) (a b : String)
    (h : strcasecmp_eq a b = true) :
    slapi_entry_attr_find e a = slapi_entry_attr_find e b := by
  unfold slapi_entry_attr_find
  congr 1
  funext x
  exact strcasecmp_eq_congr x.a_type a b h

/-- Membership in an array of names, compared without regard to case. -/
theorem charray_inlist_iff (l : List String) (s : String) :
    charray_inlist l s = true ↔ ∃ d ∈ l, strcasecmp_eq d s = true := by
  simp [charray_inlist]

/-! ## The subtype loop returns on readable names -/

/-- One round of the subtype loop returns when a range subtype has a `-`, and
it keeps that `high` is positive only once `newa` exists. -/
theorem scan_subtype_readable (a : List Char) (st : SubtypeScan) (tok : Nat × List Char)
    (hr : is_range_subtype tok.2 = true → '-' ∈ tok.2)
    (hst : st.high > 0 → st.newa.isSome = true) :
    ∃ st', scan_subtype a st tok = some st' ∧ (st'.high > 0 → st'.newa.isSome = true) := by
  by_cases hrg : is_range_subtype tok.2 = true
  · have hs := strchr_isSome '-' tok.2 (hr hrg)
    obtain ⟨pp, hpp⟩ := Option.isSome_iff_exists.mp hs
    by_cases hstar : (pp.drop 1).head? = some '*'
    · simp only [scan_subtype, hrg, hpp, hstar, if_true]
      exact ⟨_, rfl, fun _ => rfl⟩
    · simp only [scan_subtype, hrg, hpp, hstar, if_true, if_false]
      exact ⟨_, rfl, fun _ => rfl⟩
  · cases hn : st.newa with
    | none =>
      refine ⟨st, by simp [scan_subtype, hrg, hn], hst⟩
    | some n =>
      simp only [scan_subtype, hrg, hn]
      exact ⟨_, rfl, fun _ => rfl⟩

/-- The subtype loop ends when every range subtype has a `-`, and `high` is
positive only once `newa` exists. -/
theorem scan_fold_readable (a : List Char) (toks : List (Nat × List Char)) (st : SubtypeScan)
    (hr : ∀ tok ∈ toks, is_range_subtype tok.2 = true → '-' ∈ tok.2)
    (hst : st.high > 0 → st.newa.isSome = true) :
    ∃ st', toks.foldlM (scan_subtype a) st = some st' ∧
      (st'.high > 0 → st'.newa.isSome = true) := by
  induction toks generalizing st with
  | nil => exact ⟨st, rfl, hst⟩
  | cons tok rest ih =>
    obtain ⟨st1, h1, hst1⟩ := scan_subtype_readable a st tok (hr tok (by simp)) hst
    simp only [List.foldlM_cons, h1, Option.bind_eq_bind, Option.some_bind]
    exact ih st1 (fun t ht => hr t (by simp [ht])) hst1

/-- On a readable name the subtype loop returns, and it gives a positive `high`
only together with a `newa`. -/
theorem scan_subtypes_readable (a : List Char) (h : ranges_readable a) :
    ∃ scan, scan_subtypes a = some scan ∧ (scan.high > 0 → scan.newa.isSome = true) :=
  scan_fold_readable a _ _ h (by simp)

/-! ## C11 -/

/-- The next-range name, written as a ranged name. -/
theorem next_range_name_eq (base low high : List Char)
    (hlow : low ≠ []) (hhigh : ∀ c ∈ high, c.isDigit = true) :
    next_range_name (ranged_name base low high).data base ((digits_value 0 high : Int) + 1) =
      ranged_name base (toString (digits_value 0 high + 1)).data ['*'] := by
  have := next_range_name_bounded base low high hlow hhigh
  simp only [ranged_name] at this ⊢
  rw [this]
  simp [attr_name]

/-- The first next-range name is stored in a fresh array of four. -/
theorem m2e_next_range_first (st : M2EState) (a newa : List Char) (scan : SubtypeScan)
    (hex : st.exattrs = some none) (hlen : st.exattrlen = st.exattridx)
    (hhigh : scan.high > 0) (hnewa : scan.newa = some newa) :
    m2e_next_range st a scan =
      some { st with exattrlen := 4, exattridx := 1,
                     exattrs := some (some [next_range_name a newa scan.high]) } := by
  unfold m2e_next_range
  simp [hex, hlen, hhigh, hnewa]

/-- The attribute `base;range=low-high` with a bound from 1 to 2^31 - 2, met
while the out-parameter is still `NULL`, stores its next-range name there. -/
theorem m2e_attribute_bounded (K : Headers) (st : M2EState) (base low high : List Char)
    (vals : Option (List String))
    (hbase : base ≠ [] ∧ ';' ∉ base)
    (hlow : low ≠ [] ∧ ∀ c ∈ low, c.isDigit = true)
    (hhigh : high ≠ [] ∧ ∀ c ∈ high, c.isDigit = true)
    (hpos : 0 < digits_value 0 high) (hmax : digits_value 0 high < 2147483647)
    (hex : st.exattrs = some none) (hlen : st.exattrlen = st.exattridx) :
    ∃ st', m2e_attribute K 0 st ⟨ranged_name base low high, vals⟩ = some st' ∧
      st'.exattrs =
        some (some [ranged_name base (toString (digits_value 0 high + 1)).data ['*']]) ∧
      st'.exattrlen = 4 ∧ st'.exattridx = 1 := by
  have hscan := scan_subtypes_bounded base low high hbase hlow.2 hhigh hpos hmax
  have hskip : m2e_skipped (ranged_name base low high) = false :=
    m2e_skipped_subtyped _ (mem_attr_name _ _ _)
  have hp : ((digits_value 0 high : Int) + 1) > 0 := by omega
  have hd : (ranged_name base low high).data =
      attr_name base [SUBTYPERANGE.data ++ low ++ '-' :: high] := rfl
  unfold m2e_attribute
  simp only [hskip, Bool.false_eq_true, if_false, ne_eq, not_true_eq_false]
  rw [hd, hscan]
  simp only []
  generalize hst1 : ({ st with
    rawentry := (slapi_entry_add_values st.rawentry (ranged_name base low high) vals) } :
      M2EState) = st1
  have hex1 : st1.exattrs = some none := by rw [← hst1]; exact hex
  have hlen1 : st1.exattrlen = st1.exattridx := by rw [← hst1]; exact hlen
  have hm := m2e_merge_exattrs st1 (type_to_use K (ranged_name base low high) (some base)) vals
  rw [m2e_next_range_first (m2e_merge st1 (type_to_use K (ranged_name base low high)
    (some base)) vals) _ base _ (hm.1.trans hex1) ((hm.2.1.trans hlen1).trans hm.2.2.symm) hp rfl]
  refine ⟨_, rfl, ?_, rfl, rfl⟩
  simp only []
  rw [← hd, next_range_name_eq base low high hlow.1 hhigh.2]

/-- The attribute `base;range=low-*` leaves the out-parameter as it is. -/
theorem m2e_attribute_terminal (K : Headers) (st : M2EState) (base low : List Char)
    (vals : Option (List String))
    (hbase : base ≠ [] ∧ ';' ∉ base)
    (hlow : ∀ c ∈ low, c.isDigit = true) :
    ∃ st', m2e_attribute K 0 st ⟨ranged_name base low ['*'], vals⟩ = some st' ∧
      st'.exattrs = st.exattrs ∧ st'.exattrlen = st.exattrlen ∧
      st'.exattridx = st.exattridx := by
  have hscan := scan_subtypes_terminal base low hbase hlow
  have hskip : m2e_skipped (ranged_name base low ['*']) = false :=
    m2e_skipped_subtyped _ (mem_attr_name _ _ _)
  unfold m2e_attribute
  simp only [hskip, Bool.false_eq_true, if_false, ne_eq, not_true_eq_false]
  have hd : (ranged_name base low ['*']).data =
      attr_name base [SUBTYPERANGE.data ++ low ++ ['-', '*']] := rfl
  rw [hd, hscan]
  simp only []
  rw [m2e_next_range_none _ _ _ (by simp)]
  exact ⟨_, rfl, (m2e_merge_exattrs _ _ _).1, (m2e_merge_exattrs _ _ _).2.1,
    (m2e_merge_exattrs _ _ _).2.2⟩

/-- C11 fails as stated for an upper index that does not fit the 32-bit `int`
in which the source keeps it: for the response attribute
member;range=0-4294967296 the number read by `strtol` becomes 0 when stored in
`high`, so the range is taken for a terminal one and no continuation is
emitted, where the claim asks for member;range=4294967297-*. -/
theorem m2e_continuation_overflow :
    (windows_LDAPMessage2Entry openldap none
      (some { dn := some "cn=group,dc=example,dc=com",
              attrs := [{ atype := "member;range=0-4294967296", vals := some ["cn=a"] }] })
      0 (some none)).map (fun r => r.exattrs) = some (some none) ∧
    (windows_LDAPMessage2Entry openldap none
      (some { dn := some "cn=group,dc=example,dc=com",
              attrs := [{ atype := "member;range=0-4294967296", vals := some ["cn=a"] }] })
      0 (some none)).map (fun r => r.exattrs)
      ≠ some (some (some ["member;range=4294967297-*"])) := by
  decide

/-- C11 as amended: let a response hold one attribute named base;range=L-H,
where base is not empty and has no separator, L is a non-empty run of decimal
digits and H a run of decimal digits whose value is from 1 to 2^31 - 2, among
any number of attributes whose names have no subtype; with an out-parameter
that holds `NULL`, windows_LDAPMessage2Entry returns and leaves in it exactly
the one name base;range=(H+1)-*. When the attribute is named base;range=L-*
instead, the function returns and leaves the out-parameter `NULL`. -/
theorem m2e_continuation (K : Headers) (e : Option Slapi_Entry) (dn : Option String)
    (before after : List LDAPAttribute) (base low high : List Char)
    (vals : Option (List String))
    (hplain : ∀ x ∈ before ++ after, ';' ∉ x.atype.data)
    (hbase : base ≠ [] ∧ ';' ∉ base)
    (hlow : low ≠ [] ∧ ∀ c ∈ low, c.isDigit = true)
    (hhigh : high ≠ [] ∧ ∀ c ∈ high, c.isDigit = true) :
    (0 < digits_value 0 high → digits_value 0 high < 2147483647 →
      (windows_LDAPMessage2Entry K e
        (some { dn := dn, attrs := before ++ [⟨ranged_name base low high, vals⟩] ++ after })
        0 (some none)).map (fun r => r.exattrs) =
      some (some (some [ranged_name base (toString (digits_value 0 high + 1)).data ['*']]))) ∧
    ((windows_LDAPMessage2Entry K e
        (some { dn := dn, attrs := before ++ [⟨ranged_name base low ['*'], vals⟩] ++ after })
        0 (some none)).map (fun r => r.exattrs) = some (some none)) := by
  have hb : ∀ x ∈ before, ';' ∉ x.atype.data := fun x hx => hplain x (by simp [hx])
  have ha : ∀ x ∈ after, ';' ∉ x.atype.data := fun x hx => hplain x (by simp [hx])
  constructor
  · intro hpos hmax
    unfold windows_LDAPMessage2Entry
    simp only [List.foldlM_append]
    obtain ⟨s1, h1, e1, e2, e3⟩ := m2e_fold_plain K 0 before
      (m2e_init e dn (some none)) hb
    obtain ⟨s2, h2, f1, f2, f3⟩ := m2e_attribute_bounded K s1 base low high vals hbase hlow hhigh
      hpos hmax e1 (e2.trans e3.symm)
    obtain ⟨s3, h3, g1, _, _⟩ := m2e_fold_plain K 0 after s2 ha
    simp [h1, h2, h3, g1, f1]
  · unfold windows_LDAPMessage2Entry
    simp only [List.foldlM_append]
    obtain ⟨s1, h1, e1, e2, e3⟩ := m2e_fold_plain K 0 before
      (m2e_init e dn (some none)) hb
    obtain ⟨s2, h2, f1, f2, f3⟩ := m2e_attribute_terminal K s1 base low vals hbase hlow.2
    obtain ⟨s3, h3, g1, _, _⟩ := m2e_fold_plain K 0 after s2 ha
    have e0 : (m2e_init e dn (some none)).exattrs = some none := rfl
    simp [h1, h2, h3, g1, f1, e1, e0]

/-- The witnesses of the spec: member;range=0-2 asks for member;range=3-*, and
member;range=3-* asks for nothing. -/
theorem m2e_continuation_witness :
    (windows_LDAPMessage2Entry openldap none
      (some { dn := some "cn=group,dc=example,dc=com",
              attrs := [⟨"member;range=0-2", some ["cn=a", "cn=b", "cn=c"]⟩] })
      0 (some none)).map (fun r => r.exattrs) = some (some (some ["member;range=3-*"])) ∧
    (windows_LDAPMessage2Entry openldap none
      (some { dn := some "cn=group,dc=example,dc=com",
              attrs := [⟨"member;range=3-*", some ["cn=d"]⟩] })
      0 (some none)).map (fun r => r.exattrs) = some (some none) :=
  ⟨(m2e_continuation openldap none (some "cn=group,dc=example,dc=com") [] [] "member".data
    "0".data "2".data (some ["cn=a", "cn=b", "cn=c"]) (by decide) (by decide) (by decide)
    (by decide)).1 (by decide) (by decide),
   (m2e_continuation openldap none (some "cn=group,dc=example,dc=com") [] [] "member".data
    "3".data "2".data (some ["cn=d"]) (by decide) (by decide) (by decide)
    (by decide)).2⟩

/-! ## C12 -/

/-- C12 fails in the code: a response with the two bounded ranges
member;range=0-2 and memberOf;range=0-4, handed over with an out-parameter
that holds `NULL`, leaves one next-range name in the out-parameter, the one of
the first attribute; the name memberOf;range=5-* of the second attribute is
not emitted, because the name is stored only in the round in which the array
is created or grown (`exattrlen == exattridx`). -/
theorem m2e_second_range_dropped :
    (windows_LDAPMessage2Entry openldap none
      (some { dn := some "cn=group,dc=example,dc=com",
              attrs := [⟨"member;range=0-2", some ["cn=a", "cn=b", "cn=c"]⟩,
                        ⟨"memberOf;range=0-4", some ["cn=g1", "cn=g2", "cn=g3", "cn=g4", "cn=g5"]⟩] })
      0 (some none)).map (fun r => r.exattrs) = some (some (some ["member;range=3-*"])) ∧
    (windows_LDAPMessage2Entry openldap none
      (some { dn := some "cn=group,dc=example,dc=com",
              attrs := [⟨"member;range=0-2", some ["cn=a", "cn=b", "cn=c"]⟩,
                        ⟨"memberOf;range=0-4", some ["cn=g1", "cn=g2", "cn=g3", "cn=g4", "cn=g5"]⟩] })
      0 (some none)).map (fun r => r.exattrs)
      ≠ some (some (some ["member;range=3-*", "memberOf;range=5-*"])) := by
  decide

/-! ## The subtype loop on a name built from its parts -/

/-- A range subtype met while `newa` is `NULL` cuts the name right before the
subtype. -/
theorem scan_subtype_range_first (a : List Char) (st : SubtypeScan) (tok : Nat × List Char)
    (hrg : is_range_subtype tok.2 = true) (hr : '-' ∈ tok.2) (hn : st.newa = none) :
    ∃ h, scan_subtype a st tok =
      some { newa := some ((PR_snprintf (a.length + 2) a).take (tok.1 - 1)), high := h } := by
  obtain ⟨pp, hpp⟩ := Option.isSome_iff_exists.mp (strchr_isSome '-' tok.2 hr)
  by_cases hstar : (pp.drop 1).head? = some '*'
  · simp only [scan_subtype, hrg, hpp, hstar, hn, if_true]
    exact ⟨_, rfl⟩
  · simp only [scan_subtype, hrg, hpp, hstar, hn, if_true, if_false]
    exact ⟨_, rfl⟩

/-- A range subtype met after `newa` was made leaves `newa` as it is. -/
theorem scan_subtype_range_next (a : List Char) (st : SubtypeScan) (tok : Nat × List Char)
    (n : List Char)
    (hrg : is_range_subtype tok.2 = true) (hr : '-' ∈ tok.2) (hn : st.newa = some n) :
    ∃ h, scan_subtype a st tok = some { newa := some n, high := h } := by
  obtain ⟨pp, hpp⟩ := Option.isSome_iff_exists.mp (strchr_isSome '-' tok.2 hr)
  by_cases hstar : (pp.drop 1).head? = some '*'
  · simp only [scan_subtype, hrg, hpp, hstar, hn, if_true]
    exact ⟨_, rfl⟩
  · simp only [scan_subtype, hrg, hpp, hstar, hn, if_true, if_false]
    exact ⟨_, rfl⟩

/-- Length of a name built from its parts. -/
theorem attr_name_append (base : List Char) (l1 l2 : List (List Char)) :
    attr_name base (l1 ++ l2) = attr_name base l1 ++ (l2.map (fun s => ';' :: s)).flatten := by
  simp [attr_name]

/-- Leaving subtypes out does not make a name longer. -/
theorem subs_filter_length_le (p : List Char → Bool) (l : List (List Char)) :
    ((l.filter p).map (fun s => ';' :: s)).flatten.length ≤
      (l.map (fun s => ';' :: s)).flatten.length := by
  induction l with
  | nil => simp
  | cons s ss ih =>
    by_cases h : p s = true
    · simp only [List.filter_cons, h, if_true, List.map_cons, List.flatten_cons,
        List.length_append]
      omega
    · simp only [List.filter_cons, h, if_false, List.map_cons, List.flatten_cons,
        List.length_append, Bool.false_eq_true]
      omega

/-- After `newa` was made, the loop appends to it the subtypes that are no
range, in their order. -/
theorem scan_fold_some (a : List Char) (post : List (List Char)) (off : Nat) (st : SubtypeScan)
    (n : List Char) (hn : st.newa = some n)
    (hread : ∀ s ∈ post, is_range_subtype s = true → '-' ∈ s)
    (hfit : n.length +
      ((post.filter (fun s => !is_range_subtype s)).map (fun s => ';' :: s)).flatten.length
        ≤ a.length) :
    ∃ h, (sub_tokens off post).foldlM (scan_subtype a) st =
      some ⟨some (n ++
        ((post.filter (fun s => !is_range_subtype s)).map (fun s => ';' :: s)).flatten), h⟩ := by
  induction post generalizing off st n with
  | nil =>
    obtain ⟨newa, high⟩ := st
    have hn2 : newa = some n := hn
    subst hn2
    exact ⟨high, by simp [sub_tokens]⟩
  | cons s ss ih =>
    have hss : ∀ t ∈ ss, is_range_subtype t = true → '-' ∈ t :=
      fun t ht => hread t (by simp [ht])
    simp only [sub_tokens, List.foldlM_cons]
    by_cases hrg : is_range_subtype s = true
    · obtain ⟨h1, e1⟩ := scan_subtype_range_next a st (off, s) n hrg (hread s (by simp) hrg) hn
      rw [e1]
      simp only [List.filter_cons, hrg, Bool.not_true, Bool.false_eq_true, if_false] at hfit ⊢
      exact ih _ _ n rfl hss hfit
    · have hrg2 : is_range_subtype s = false := by simpa using hrg
      simp only [List.filter_cons, hrg2, Bool.not_false, if_true, List.map_cons,
        List.flatten_cons, List.length_append, List.length_cons] at hfit ⊢
      have e1 : scan_subtype a st (off, s) = some { st with newa := some (n ++ ';' :: s) } := by
        simp only [scan_subtype, hrg2, Bool.false_eq_true, if_false, hn]
        rw [PR_snprintf_fits _ _ (by simp only [List.length_cons]; omega)]
      rw [e1]
      obtain ⟨h, e2⟩ := ih (off + s.length + 1) { st with newa := some (n ++ ';' :: s) }
        (n ++ ';' :: s) rfl hss (by simp only [List.length_append, List.length_cons]; omega)
      refine ⟨h, ?_⟩
      simp only [Option.bind_eq_bind, Option.some_bind]
      rw [e2]
      simp

/-- While `newa` is `NULL`, subtypes that are no range change nothing; the
first range subtype cuts the name before it, and from there on the loop appends
the subtypes that are no range. -/
theorem scan_fold_none (base : List Char) (subs pre : List (List Char)) (st : SubtypeScan)
    (hn : st.newa = none)
    (hpre : ∀ s ∈ pre, is_range_subtype s = false)
    (hread : ∀ s ∈ subs, is_range_subtype s = true → '-' ∈ s) :
    (subs.any is_range_subtype = false →
      (sub_tokens ((attr_name base pre).length + 1) subs).foldlM
        (scan_subtype (attr_name base (pre ++ subs))) st = some st) ∧
    (subs.any is_range_subtype = true →
      ∃ h, (sub_tokens ((attr_name base pre).length + 1) subs).foldlM
        (scan_subtype (attr_name base (pre ++ subs))) st =
        some { newa := some (attr_name base
                 ((pre ++ subs).filter (fun s => !is_range_subtype s))),
               high := h }) := by
  induction subs generalizing pre st with
  | nil => simp [sub_tokens]
  | cons s ss ih =>
    have hss : ∀ t ∈ ss, is_range_subtype t = true → '-' ∈ t :=
      fun t ht => hread t (by simp [ht])
    have hname : pre ++ s :: ss = (pre ++ [s]) ++ ss := by simp
    have hoff : (attr_name base pre).length + 1 + s.length + 1 =
        (attr_name base (pre ++ [s])).length + 1 := by
      simp [attr_name]; omega
    by_cases hrg : is_range_subtype s = true
    · constructor
      · intro h; simp [hrg] at h
      · intro _
        obtain ⟨h1, e1⟩ := scan_subtype_range_first (attr_name base (pre ++ s :: ss)) st
          ((attr_name base pre).length + 1, s) hrg (hread s (by simp) hrg) hn
        simp only [sub_tokens, List.foldlM_cons, e1, Option.bind_eq_bind, Option.some_bind]
        have hcut : (PR_snprintf ((attr_name base (pre ++ s :: ss)).length + 2)
            (attr_name base (pre ++ s :: ss))).take ((attr_name base pre).length + 1 - 1) =
            attr_name base pre := by
          rw [PR_snprintf_fits _ _ (by omega), attr_name_append]
          simp
        rw [hcut]
        have hfilter : (pre ++ s :: ss).filter (fun s => !is_range_subtype s) =
            pre ++ ss.filter (fun s => !is_range_subtype s) := by
          rw [List.filter_append, List.filter_cons]
          simp only [hrg, Bool.not_true, Bool.false_eq_true, if_false]
          congr 1
          exact List.filter_eq_self.mpr (fun x hx => by simp [hpre x hx])
        rw [hfilter, attr_name_append base pre (ss.filter (fun s => !is_range_subtype s))]
        refine scan_fold_some _ ss _ ⟨some (attr_name base pre), h1⟩ (attr_name base pre) rfl
          hss ?_
        rw [attr_name_append]
        simp only [List.length_append, List.map_cons, List.flatten_cons, List.length_cons]
        have := subs_filter_length_le (fun s => !is_range_subtype s) ss
        omega
    · have hrg2 : is_range_subtype s = false := by simpa using hrg
      have e1 : scan_subtype (attr_name base (pre ++ s :: ss)) st
          ((attr_name base pre).length + 1, s) = some st := by
        simp [scan_subtype, hrg2, hn]
      have hpre2 : ∀ t ∈ pre ++ [s], is_range_subtype t = false := by
        intro t ht
        rcases List.mem_append.mp ht with h | h
        · exact hpre t h
        · simp only [List.mem_singleton] at h; rw [h]; exact hrg2
      have := ih (pre ++ [s]) st hn hpre2 hss
      simp only [sub_tokens, List.foldlM_cons, e1, Option.bind_eq_bind, Option.some_bind,
        List.any_cons, hrg2, Bool.false_or]
      rw [hname, hoff]
      exact this

/-- The tokens after the base name are the subtypes. -/
theorem mem_sub_tokens (subs : List (List Char)) (off : Nat) (tok : Nat × List Char)
    (h : tok ∈ sub_tokens off subs) : tok.2 ∈ subs := by
  induction subs generalizing off with
  | nil => simp [sub_tokens] at h
  | cons s ss ih =>
    simp only [sub_tokens, List.mem_cons] at h
    rcases h with h | h
    · simp [h]
    · exact List.mem_cons_of_mem _ (ih _ h)

/-- A name built from its parts is readable when each of its range subtypes has
a `-`. -/
theorem ranges_readable_attr_name (base : List Char) (subs : List (List Char))
    (hbase : base ≠ [] ∧ ';' ∉ base) (hsubs : ∀ s ∈ subs, s ≠ [] ∧ ';' ∉ s)
    (hread : ∀ s ∈ subs, is_range_subtype s = true → '-' ∈ s) :
    ranges_readable (attr_name base subs) := by
  unfold ranges_readable
  rw [strtok_scan_attr_name base subs hbase hsubs]
  intro tok htok
  exact hread tok.2 (mem_sub_tokens subs _ tok (by simpa using htok))

/-- The subtype loop on a name built from its parts gives the name the
specification describes. -/
theorem scan_subtypes_attr_name (K : Headers) (base : List Char) (subs : List (List Char))
    (hbase : base ≠ [] ∧ ';' ∉ base) (hsubs : ∀ s ∈ subs, s ≠ [] ∧ ';' ∉ s)
    (hread : ∀ s ∈ subs, is_range_subtype s = true → '-' ∈ s) :
    ∃ scan, scan_subtypes (attr_name base subs) = some scan ∧
      type_to_use K (String.mk (attr_name base subs)) scan.newa = spec_merge_name K base subs := by
  have hfold := scan_fold_none base subs [] { newa := none, high := 0 } rfl (by simp) hread
  have h0 : (attr_name base []).length + 1 = base.length + 1 := by simp [attr_name]
  simp only [List.nil_append, h0] at hfold
  unfold scan_subtypes
  rw [strtok_scan_attr_name base subs hbase hsubs]
  simp only [List.drop_succ_cons, List.drop_zero]
  cases hany : subs.any is_range_subtype with
  | false =>
    refine ⟨_, hfold.1 hany, ?_⟩
    simp [type_to_use, spec_merge_name, hany]
  | true =>
    obtain ⟨h, e⟩ := hfold.2 hany
    refine ⟨_, e, ?_⟩
    simp [type_to_use, spec_merge_name, hany]

/-! ## One attribute of the response, for any out-parameter with room -/

/-- Merging puts the values into the entry and nothing else. -/
theorem m2e_merge_e (st : M2EState) (type : String) (vals : Option (List String)) :
    (m2e_merge st type vals).e = slapi_entry_add_values st.e type vals := by
  unfold m2e_merge
  cases vals with
  | none => dsimp only; split <;> rfl
  | some v => rfl

/-- Merging an attribute that has values leaves the deleted names alone. -/
theorem m2e_merge_deleted_some (st : M2EState) (type : String) (v : List String) :
    (m2e_merge st type (some v)).deletedattrs = st.deletedattrs := rfl

/-- Merging an attribute without values adds its name to the deleted names
unless it is there. -/
theorem m2e_merge_deleted_none (st : M2EState) (type : String) :
    (m2e_merge st type none).deletedattrs =
      if charray_inlist st.deletedattrs type then st.deletedattrs
      else st.deletedattrs ++ [type] := by
  unfold m2e_merge
  cases h : charray_inlist st.deletedattrs type <;> simp [h]

/-- With room in the out-parameter the store of a next-range name is defined;
it leaves the entry and the deleted names alone and keeps room. -/
theorem m2e_next_range_fresh (st : M2EState) (a : List Char) (scan : SubtypeScan)
    (hf : out_param_fresh st) (hs : scan.high > 0 → scan.newa.isSome = true) :
    ∃ st', m2e_next_range st a scan = some st' ∧ out_param_fresh st' ∧ st'.e = st.e ∧
      st'.deletedattrs = st.deletedattrs := by
  unfold m2e_next_range
  cases hex : st.exattrs with
  | none => exact ⟨st, rfl, hf, rfl, rfl⟩
  | some arr =>
    by_cases hh : scan.high > 0
    · by_cases hl : st.exattrlen = st.exattridx
      · obtain ⟨newa, hnewa⟩ := Option.isSome_iff_exists.mp (hs hh)
        cases arr with
        | none =>
          simp only [hh, hl, hnewa, if_true]
          exact ⟨_, rfl, Or.inr (Or.inr (by simp)), rfl, rfl⟩
        | some l =>
          rcases hf with h | h | h
          · rw [hex] at h; cases h
          · rw [hex] at h; cases h
          · exact absurd hl h
      · simp only [hh, hl, if_true, if_false]
        exact ⟨st, rfl, hf, rfl, rfl⟩
    · simp only [hh, if_false]
      exact ⟨st, rfl, hf, rfl, rfl⟩

/-- With room in the out-parameter and a readable name, the body of the loop is
defined: a skipped attribute leaves the entry and the deleted names alone, any
other one is merged under `type_to_use`. -/
theorem m2e_attribute_fresh (K : Headers) (st : M2EState) (x : LDAPAttribute)
    (hf : out_param_fresh st) (hr : ranges_readable x.atype.data) :
    ∃ st', m2e_attribute K 0 st x = some st' ∧ out_param_fresh st' ∧
      (m2e_skipped x.atype = true → st'.e = st.e ∧ st'.deletedattrs = st.deletedattrs) ∧
      (m2e_skipped x.atype = false → ∃ scan, scan_subtypes x.atype.data = some scan ∧
        st'.e = slapi_entry_add_values st.e (type_to_use K x.atype scan.newa) x.vals ∧
        st'.deletedattrs =
          (m2e_merge st (type_to_use K x.atype scan.newa) x.vals).deletedattrs) := by
  by_cases hsk : m2e_skipped x.atype = true
  · have hcomp : m2e_attribute K 0 st x = some { st with
        rawentry := (slapi_entry_add_values st.rawentry x.atype x.vals) } := by
      unfold m2e_attribute
      simp only [hsk, if_true]
    exact ⟨_, hcomp, hf, fun _ => ⟨rfl, rfl⟩, fun h => by rw [h] at hsk; cases hsk⟩
  · obtain ⟨scan, hscan, hhigh⟩ := scan_subtypes_readable x.atype.data hr
    have hcomp : m2e_attribute K 0 st x =
        m2e_next_range (m2e_merge { st with
          rawentry := (slapi_entry_add_values st.rawentry x.atype x.vals) }
          (type_to_use K x.atype scan.newa) x.vals) x.atype.data scan := by
      unfold m2e_attribute
      simp only [hsk, if_false, ne_eq, not_true_eq_false, hscan, Bool.false_eq_true]
    rw [hcomp]
    generalize hst1 : ({ st with
      rawentry := (slapi_entry_add_values st.rawentry x.atype x.vals) } : M2EState) = st1
    have hf1 : out_param_fresh st1 := by rw [← hst1]; exact hf
    have he1 : st1.e = st.e := by rw [← hst1]
    have hd1 : st1.deletedattrs = st.deletedattrs := by rw [← hst1]
    have hm := m2e_merge_exattrs st1 (type_to_use K x.atype scan.newa) x.vals
    have hf2 : out_param_fresh (m2e_merge st1 (type_to_use K x.atype scan.newa) x.vals) := by
      unfold out_param_fresh at hf1 ⊢
      rw [hm.1, hm.2.1, hm.2.2]
      exact hf1
    obtain ⟨st2, h2, hf3, e2, d2⟩ := m2e_next_range_fresh _ x.atype.data scan hf2 hhigh
    refine ⟨st2, h2, hf3, fun h => absurd h hsk, fun _ => ⟨scan, hscan, ?_, ?_⟩⟩
    · rw [e2, m2e_merge_e, he1]
    · rw [d2]
      cases hv : x.vals with
      | none => rw [m2e_merge_deleted_none, m2e_merge_deleted_none, hd1]
      | some v => rw [m2e_merge_deleted_some, m2e_merge_deleted_some, hd1]

/-! ## C14 -/

/-- C14: for a name made of a base name (not empty, no separator) and any
subtypes (none empty, none with a separator, each range subtype with a `-`),
the subtype loop of windows_LDAPMessage2Entry returns and the name
`type_to_use` is the one the specification gives: the canonical alias for
`streetaddress` compared without regard to case, otherwise the base name
followed by the subtypes that are no range in their order, otherwise (no range
subtype) the name unchanged. Under that name the values of an attribute that is
not skipped are merged into the entry. -/
theorem merge_name_resolved (K : Headers) (base : List Char) (subs : List (List Char))
    (hbase : base ≠ [] ∧ ';' ∉ base) (hsubs : ∀ s ∈ subs, s ≠ [] ∧ ';' ∉ s)
    (hread : ∀ s ∈ subs, is_range_subtype s = true → '-' ∈ s) :
    (∃ scan, scan_subtypes (attr_name base subs) = some scan ∧
      type_to_use K (String.mk (attr_name base subs)) scan.newa = spec_merge_name K base subs) ∧
    (∀ (st : M2EState) (vals : Option (List String)), out_param_fresh st →
      m2e_skipped (String.mk (attr_name base subs)) = false →
      ∃ st', m2e_attribute K 0 st ⟨String.mk (attr_name base subs), vals⟩ = some st' ∧
        st'.e = slapi_entry_add_values st.e (spec_merge_name K base subs) vals) := by
  obtain ⟨scan, hscan, hname⟩ := scan_subtypes_attr_name K base subs hbase hsubs hread
  refine ⟨⟨scan, hscan, hname⟩, ?_⟩
  intro st vals hf hsk
  obtain ⟨st1, h1, _, _, h4⟩ := m2e_attribute_fresh K st ⟨String.mk (attr_name base subs), vals⟩
    hf (ranges_readable_attr_name base subs hbase hsubs hread)
  obtain ⟨scan2, hscan2, he, _⟩ := h4 hsk
  have : scan2 = scan := Option.some.inj (hscan2.symm.trans hscan)
  subst this
  exact ⟨st1, h1, by rw [he]; simp only []; rw [hname]⟩

/-- The examples of the spec: the values of attr;x;range=0-2;y are merged under
attr;x;y. -/
theorem merge_name_resolved_witness :
    (∃ scan, scan_subtypes "attr;x;range=0-2;y".data = some scan ∧
      type_to_use openldap "attr;x;range=0-2;y" scan.newa = "attr;x;y") ∧
    (∀ (st : M2EState) (vals : Option (List String)), out_param_fresh st →
      m2e_skipped "attr;x;range=0-2;y" = false →
      ∃ st', m2e_attribute openldap 0 st ⟨"attr;x;range=0-2;y", vals⟩ = some st' ∧
        st'.e = slapi_entry_add_values st.e "attr;x;y" vals) :=
  merge_name_resolved openldap "attr".data ["x".data, "range=0-2".data, "y".data]
    (by decide) (by decide) (by decide)

/-! ## Attributes of a materialised entry -/

/-- Two names that both equal a third up to case equal each other up to case. -/
theorem strcasecmp_eq_trans_left (a t n : String) (h1 : strcasecmp_eq a t = true)
    (h2 : strcasecmp_eq a n = true) : strcasecmp_eq t n = true := by
  rw [strcasecmp_eq_iff] at h1 h2 ⊢
  exact h1.symm.trans h2

/-- Merging under a name leaves the attributes of other names as they are. -/
theorem attrlist_merge_find_other (t n : String) (vals : List String) (l : List Slapi_Attr)
    (h : strcasecmp_eq t n = false) :
    (attrlist_merge t vals l).find? (fun a => strcasecmp_eq a.a_type n) =
      l.find? (fun a => strcasecmp_eq a.a_type n) := by
  induction l with
  | nil => simp [attrlist_merge, h]
  | cons a rest ih =>
    by_cases hat : strcasecmp_eq a.a_type t = true
    · have han : strcasecmp_eq a.a_type n = false := by
        cases hc : strcasecmp_eq a.a_type n with
        | false => rfl
        | true => rw [strcasecmp_eq_trans_left a.a_type t n hat hc] at h; cases h
      simp [attrlist_merge, hat, han]
    · by_cases han : strcasecmp_eq a.a_type n = true
      · simp [attrlist_merge, hat, han]
      · simp [attrlist_merge, hat, han, ih]

/-- Merging under a name appends the values to the attribute of that name, or
makes the attribute. -/
theorem attrlist_merge_find_same (t n : String) (vals : List String) (l : List Slapi_Attr)
    (h : strcasecmp_eq t n = true) :
    ∃ a, (attrlist_merge t vals l).find? (fun a => strcasecmp_eq a.a_type n) = some a ∧
      a.a_vals = (match l.find? (fun a => strcasecmp_eq a.a_type n) with
        | some b => b.a_vals
        | none => []) ++ vals := by
  induction l with
  | nil => exact ⟨⟨t, vals⟩, by simp [attrlist_merge, h], by simp⟩
  | cons a rest ih =>
    have hc : strcasecmp_eq a.a_type t = strcasecmp_eq a.a_type n :=
      strcasecmp_eq_congr a.a_type t n h
    by_cases han : strcasecmp_eq a.a_type n = true
    · have hat : strcasecmp_eq a.a_type t = true := hc.trans han
      exact ⟨{ a with a_vals := a.a_vals ++ vals }, by simp [attrlist_merge, hat, han],
        by simp [han]⟩
    · have hat : ¬ strcasecmp_eq a.a_type t = true := by rw [hc]; exact han
      obtain ⟨b, hb1, hb2⟩ := ih
      exact ⟨b, by simp [attrlist_merge, hat, han, hb1], by simp [han, hb2]⟩

/-- Adding values leaves the deleted names of the entry as they are. -/
theorem add_values_deleted (e : Slapi_Entry) (t : String) (vals : Option (List String)) :
    (slapi_entry_add_values e t vals).e_deleted_attrs = e.e_deleted_attrs := by
  unfold slapi_entry_add_values
  split <;> rfl

/-- Adding values under a name leaves the values under other names as they
are. -/
theorem add_values_find_other (e : Slapi_Entry) (t n : String) (vals : Option (List String))
    (h : strcasecmp_eq t n = false) :
    slapi_entry_attr_find (slapi_entry_add_values e t vals) n = slapi_entry_attr_find e n := by
  unfold slapi_entry_add_values
  split
  · rfl
  · rfl
  · exact attrlist_merge_find_other t n _ e.e_attrs h

/-- Adding values under a name appends them to the values under that name. -/
theorem add_values_same (e : Slapi_Entry) (t n : String) (vals : List String)
    (h : strcasecmp_eq t n = true) :
    attr_values (slapi_entry_add_values e t (some vals)) n = attr_values e n ++ vals := by
  unfold slapi_entry_add_values attr_values
  cases vals with
  | nil => simp
  | cons v vs =>
    obtain ⟨a, ha1, ha2⟩ := attrlist_merge_find_same t n (v :: vs) e.e_attrs h
    simp only [slapi_entry_attr_find, ha1, ha2]

/-- Adding values under a name leaves the values under other names as they
are. -/
theorem add_values_other (e : Slapi_Entry) (t n : String) (vals : Option (List String))
    (h : strcasecmp_eq t n = false) :
    attr_values (slapi_entry_add_values e t vals) n = attr_values e n := by
  unfold attr_values
  rw [add_values_find_other e t n vals h]

/-- After a value is added under a name the entry holds the attribute. -/
theorem add_values_holds (e : Slapi_Entry) (t n : String) (v : String) (vs : List String)
    (h : strcasecmp_eq t n = true) :
    (slapi_entry_attr_find (slapi_entry_add_values e t (some (v :: vs))) n).isSome = true := by
  obtain ⟨a, ha1, _⟩ := attrlist_merge_find_same t n (v :: vs) e.e_attrs h
  simp only [slapi_entry_add_values, slapi_entry_attr_find, ha1, Option.isSome_some]

/-- An attribute the entry holds is still held after values are added. -/
theorem add_values_keeps (e : Slapi_Entry) (t n : String) (vals : Option (List String))
    (h : (slapi_entry_attr_find e n).isSome = true) :
    (slapi_entry_attr_find (slapi_entry_add_values e t vals) n).isSome = true := by
  cases hc : strcasecmp_eq t n with
  | false => rw [add_values_find_other e t n vals hc]; exact h
  | true =>
    cases vals with
    | none => exact h
    | some l =>
      cases l with
      | nil => exact h
      | cons v vs => exact add_values_holds e t n v vs hc

/-! ## The deleted names -/

/-- The last loop records as deleted the accumulated names under which the
entry holds no attribute, in their order, and changes nothing else. -/
theorem m2e_tombstones_eq (e : Slapi_Entry) (d : List String) :
    m2e_tombstones e d =
      { e with e_deleted_attrs := e.e_deleted_attrs ++
          d.filter (fun n => (slapi_entry_attr_find e n).isNone) } := by
  unfold m2e_tombstones
  induction d generalizing e with
  | nil => simp
  | cons n ns ih =>
    simp only [List.foldl_cons]
    by_cases h : (slapi_entry_attr_find e n).isNone = true
    · simp only [h, if_true]
      rw [ih]
      have hf : ∀ m, slapi_entry_attr_find (entry_add_deleted_attribute_wsi e n) m =
          slapi_entry_attr_find e m := fun _ => rfl
      simp only [hf, List.filter_cons, h, if_true]
      simp [entry_add_deleted_attribute_wsi]
    · simp only [h, if_false, Bool.false_eq_true]
      rw [ih]
      simp [List.filter_cons, h]

/-! ## The loop over the attributes and the deleted names -/

/-- What one attribute of the response does to the entry and to the deleted
names, for an out-parameter with room and a readable name. -/
theorem m2e_attribute_facts (K : Headers) (st : M2EState) (x : LDAPAttribute)
    (hf : out_param_fresh st) (hr : ranges_readable x.atype.data)
    (hp : st.deletedattrs.Pairwise (fun a b => strcasecmp_eq a b = false)) :
    ∃ st', m2e_attribute K 0 st x = some st' ∧ out_param_fresh st' ∧
      st'.deletedattrs.Pairwise (fun a b => strcasecmp_eq a b = false) ∧
      st'.e.e_deleted_attrs = st.e.e_deleted_attrs ∧
      (∀ d ∈ st.deletedattrs, d ∈ st'.deletedattrs) ∧
      (∀ n, (slapi_entry_attr_find st.e n).isSome = true →
        (slapi_entry_attr_find st'.e n).isSome = true) ∧
      (∀ n, merged_under K x n →
        (x.vals = none → charray_inlist st'.deletedattrs n = true) ∧
        (∀ v vs, x.vals = some (v :: vs) → (slapi_entry_attr_find st'.e n).isSome = true)) ∧
      (∀ d ∈ st'.deletedattrs, d ∈ st.deletedattrs ∨ (x.vals = none ∧ merged_under K x d)) := by
  obtain ⟨st1, h1, hf1, hskip, hmerge⟩ := m2e_attribute_fresh K st x hf hr
  refine ⟨st1, h1, hf1, ?_⟩
  cases hsk : m2e_skipped x.atype with
  | true =>
    obtain ⟨he, hd⟩ := hskip hsk
    rw [he, hd]
    refine ⟨hp, rfl, fun d hd => hd, fun n hn => hn, ?_, fun d hd => Or.inl hd⟩
    intro n hn
    rw [hn.1] at hsk
    cases hsk
  | false =>
    obtain ⟨scan, hscan, he, hd⟩ := hmerge hsk
    have hname : ∀ n, merged_under K x n → type_to_use K x.atype scan.newa = n := by
      intro n hn
      obtain ⟨_, scan2, hscan2, hn2⟩ := hn
      have : scan2 = scan := Option.some.inj (hscan2.symm.trans hscan)
      rw [← this]
      exact hn2
    rw [he, hd]
    cases hv : x.vals with
    | some vals =>
      rw [m2e_merge_deleted_some]
      refine ⟨hp, add_values_deleted _ _ _, fun d hd => hd,
        fun n hn => add_values_keeps _ _ _ _ hn, ?_, fun d hd => Or.inl hd⟩
      intro n hn
      refine ⟨fun h => (by cases h), ?_⟩
      intro v vs hvv
      rw [Option.some.inj hvv, hname n hn]
      exact add_values_holds _ _ _ _ _ (strcasecmp_eq_refl n)
    | none =>
      rw [m2e_merge_deleted_none]
      cases hin : charray_inlist st.deletedattrs (type_to_use K x.atype scan.newa) with
      | true =>
        simp only [if_true]
        refine ⟨hp, rfl, fun d hd => hd, fun n hn => hn, ?_, fun d hd => Or.inl hd⟩
        intro n hn
        rw [← hname n hn]
        exact ⟨fun _ => hin, fun v vs h => by cases h⟩
      | false =>
        simp only [Bool.false_eq_true, if_false]
        refine ⟨?_, rfl, fun d hd => List.mem_append_left _ hd, fun n hn => hn, ?_, ?_⟩
        · rw [List.pairwise_append]
          refine ⟨hp, List.pairwise_singleton _ _, ?_⟩
          intro a ha b hb
          rw [List.mem_singleton.mp hb]
          cases hc : strcasecmp_eq a (type_to_use K x.atype scan.newa) with
          | false => rfl
          | true =>
            have : charray_inlist st.deletedattrs (type_to_use K x.atype scan.newa) = true :=
              (charray_inlist_iff _ _).mpr ⟨a, ha, hc⟩
            rw [hin] at this
            cases this
        · intro n hn
          rw [← hname n hn]
          refine ⟨fun _ => ?_, fun v vs h => by cases h⟩
          exact (charray_inlist_iff _ _).mpr ⟨_, by simp, strcasecmp_eq_refl _⟩
        · intro d hd
          rcases List.mem_append.mp hd with h | h
          · exact Or.inl h
          · rw [List.mem_singleton.mp h]
            exact Or.inr ⟨trivial, hsk, scan, hscan, rfl⟩

/-- What the loop over the attributes of a response does to the entry and to
the deleted names, for an out-parameter with room and readable names. -/
theorem m2e_fold_facts (K : Headers) (xs : List LDAPAttribute) (st : M2EState)
    (hf : out_param_fresh st) (hr : ∀ x ∈ xs, ranges_readable x.atype.data)
    (hp : st.deletedattrs.Pairwise (fun a b => strcasecmp_eq a b = false)) :
    ∃ st', xs.foldlM (m2e_attribute K 0) st = some st' ∧ out_param_fresh st' ∧
      st'.deletedattrs.Pairwise (fun a b => strcasecmp_eq a b = false) ∧
      st'.e.e_deleted_attrs = st.e.e_deleted_attrs ∧
      (∀ d ∈ st.deletedattrs, d ∈ st'.deletedattrs) ∧
      (∀ n, (slapi_entry_attr_find st.e n).isSome = true →
        (slapi_entry_attr_find st'.e n).isSome = true) ∧
      (∀ x ∈ xs, ∀ n, merged_under K x n →
        (x.vals = none → charray_inlist st'.deletedattrs n = true) ∧
        (∀ v vs, x.vals = some (v :: vs) → (slapi_entry_attr_find st'.e n).isSome = true)) ∧
      (∀ d ∈ st'.deletedattrs,
        d ∈ st.deletedattrs ∨ ∃ x ∈ xs, x.vals = none ∧ merged_under K x d) := by
  induction xs generalizing st with
  | nil =>
    exact ⟨st, rfl, hf, hp, rfl, fun d hd => hd, fun n hn => hn,
      fun x hx => by simp at hx, fun d hd => Or.inl hd⟩
  | cons x xs ih =>
    obtain ⟨s1, h1, hf1, hp1, b1, c1, d1, e1, f1⟩ :=
      m2e_attribute_facts K st x hf (hr x (by simp)) hp
    obtain ⟨s2, h2, hf2, hp2, b2, c2, d2, e2, f2⟩ :=
      ih s1 hf1 (fun y hy => hr y (by simp [hy])) hp1
    refine ⟨s2, by simp [List.foldlM_cons, h1, h2], hf2, hp2, b2.trans b1,
      fun d hd => c2 d (c1 d hd), fun n hn => d2 n (d1 n hn), ?_, ?_⟩
    · intro y hy n hn
      rcases List.mem_cons.mp hy with h | h
      · subst h
        obtain ⟨g1, g2⟩ := e1 n hn
        refine ⟨fun hv => ?_, fun v vs hv => d2 n (g2 v vs hv)⟩
        obtain ⟨d, hd, hdn⟩ := (charray_inlist_iff _ _).mp (g1 hv)
        exact (charray_inlist_iff _ _).mpr ⟨d, c2 d hd, hdn⟩
      · exact e2 y h n hn
    · intro d hd
      rcases f2 d hd with h | ⟨y, hy, hv, hm⟩
      · rcases f1 d h with h' | ⟨hv, hm⟩
        · exact Or.inl h'
        · exact Or.inr ⟨x, by simp, hv, hm⟩
      · exact Or.inr ⟨y, by simp [hy], hv, hm⟩

/-! ## C13 -/

/-- C13: let windows_LDAPMessage2Entry work on a response with readable names,
with value retrieval (`attrsonly` 0) and with no out-parameter or one that
holds `NULL`. It returns an entry whose deleted names are those it had before
followed by the names `added`; no two names of `added` are equal up to case;
each name of `added` is the name without range of an attribute delivered with
zero values; and for every attribute delivered with zero values that is not
skipped, the name without range occurs in `added` if and only if the returned
entry holds no attribute under it. So a name the entry held before, or under
which an attribute of the same response brought a value, before or after the
attribute with zero values, is not in `added`. -/
theorem m2e_tombstone_iff (K : Headers) (e : Option Slapi_Entry) (m : LDAPMessage)
    (exattrs : Option (Option (List String)))
    (hout : exattrs = none ∨ exattrs = some none)
    (hread : ∀ x ∈ m.attrs, ranges_readable x.atype.data) :
    ∃ r ent added,
      windows_LDAPMessage2Entry K e (some m) 0 exattrs = some r ∧ r.entry = some ent ∧
      ent.e_deleted_attrs = (m2e_init e m.dn exattrs).e.e_deleted_attrs ++ added ∧
      added.Pairwise (fun a b => strcasecmp_eq a b = false) ∧
      (∀ d ∈ added, ∃ x ∈ m.attrs, x.vals = none ∧ merged_under K x d) ∧
      (∀ x ∈ m.attrs, ∀ n, x.vals = none → merged_under K x n →
        ((∃ d ∈ added, strcasecmp_eq d n = true) ↔ slapi_entry_attr_find ent n = none)) ∧
      (∀ n, ((slapi_entry_attr_find (m2e_init e m.dn exattrs).e n).isSome = true ∨
          ∃ y ∈ m.attrs, ∃ t v vs, y.vals = some (v :: vs) ∧ merged_under K y t ∧
            strcasecmp_eq t n = true) →
        ∀ d ∈ added, strcasecmp_eq d n = false) := by
  have hf0 : out_param_fresh (m2e_init e m.dn exattrs) := by
    rcases hout with h | h
    · exact Or.inl (by rw [h]; rfl)
    · exact Or.inr (Or.inl (by rw [h]; rfl))
  obtain ⟨st, hst, _, hp, hb, _, hd, he, hfrom⟩ :=
    m2e_fold_facts K m.attrs (m2e_init e m.dn exattrs) hf0 hread List.Pairwise.nil
  have hfind : ∀ n, slapi_entry_attr_find (m2e_tombstones st.e st.deletedattrs) n =
      slapi_entry_attr_find st.e n := by
    intro n
    rw [m2e_tombstones_eq]
    rfl
  have hnot : ∀ n, (slapi_entry_attr_find st.e n).isSome = true →
      ∀ d ∈ st.deletedattrs.filter (fun n => (slapi_entry_attr_find st.e n).isNone),
        strcasecmp_eq d n = false := by
    intro n hn d hd
    cases hc : strcasecmp_eq d n with
    | false => rfl
    | true =>
      have h1 := (List.mem_filter.mp hd).2
      rw [slapi_entry_attr_find_congr st.e d n hc] at h1
      rw [Option.isNone_iff_eq_none] at h1
      rw [h1] at hn
      cases hn
  refine ⟨⟨some (m2e_tombstones st.e st.deletedattrs), some st.rawentry, st.exattrs⟩,
    m2e_tombstones st.e st.deletedattrs,
    st.deletedattrs.filter (fun n => (slapi_entry_attr_find st.e n).isNone), ?_, rfl, ?_,
    hp.filter _, ?_, ?_, ?_⟩
  · unfold windows_LDAPMessage2Entry
    simp only [hst]
  · rw [m2e_tombstones_eq, hb]
  · intro d hd
    rcases hfrom d (List.mem_filter.mp hd).1 with h | h
    · exact absurd h (by simp [m2e_init])
    · exact h
  · intro x hx n hv hm
    rw [hfind]
    constructor
    · rintro ⟨d, hd, hdn⟩
      have h1 := (List.mem_filter.mp hd).2
      rw [slapi_entry_attr_find_congr st.e d n hdn, Option.isNone_iff_eq_none] at h1
      exact h1
    · intro hnone
      obtain ⟨d, hd, hdn⟩ := (charray_inlist_iff _ _).mp ((he x hx n hm).1 hv)
      refine ⟨d, List.mem_filter.mpr ⟨hd, ?_⟩, hdn⟩
      rw [slapi_entry_attr_find_congr st.e d n hdn, hnone]
      rfl
  · intro n hn
    apply hnot n
    rcases hn with h | ⟨y, hy, t, v, vs, hv, hm, htn⟩
    · exact hd n h
    · have := (he y hy t hm).2 v vs hv
      rw [slapi_entry_attr_find_congr st.e t n htn] at this
      exact this

/-- A response in which member comes without values and with values, and
description without values: description alone is recorded as deleted. -/
theorem m2e_tombstone_iff_witness :
    (∀ x ∈ sample_zero_valued.attrs, ranges_readable x.atype.data) ∧
    ((windows_LDAPMessage2Entry openldap none (some sample_zero_valued) 0 (some none)).map
      (fun r => r.entry.map (fun ent => ent.e_deleted_attrs)) = some (some ["description"])) ∧
    ∃ r ent added,
      windows_LDAPMessage2Entry openldap none (some sample_zero_valued) 0 (some none) = some r ∧
      r.entry = some ent ∧
      ent.e_deleted_attrs =
        (m2e_init none sample_zero_valued.dn (some none)).e.e_deleted_attrs ++ added ∧
      added.Pairwise (fun a b => strcasecmp_eq a b = false) ∧
      (∀ d ∈ added, ∃ x ∈ sample_zero_valued.attrs, x.vals = none ∧ merged_under openldap x d) ∧
      (∀ x ∈ sample_zero_valued.attrs, ∀ n, x.vals = none → merged_under openldap x n →
        ((∃ d ∈ added, strcasecmp_eq d n = true) ↔ slapi_entry_attr_find ent n = none)) ∧
      (∀ n, ((slapi_entry_attr_find
            (m2e_init none sample_zero_valued.dn (some none)).e n).isSome = true ∨
          ∃ y ∈ sample_zero_valued.attrs, ∃ t v vs, y.vals = some (v :: vs) ∧
            merged_under openldap y t ∧ strcasecmp_eq t n = true) →
        ∀ d ∈ added, strcasecmp_eq d n = false) :=
  ⟨by decide, by decide,
    m2e_tombstone_iff openldap none sample_zero_valued (some none) (Or.inr rfl) (by decide)⟩

/-! ## The values of one attribute through a response -/

/-- The last loop leaves the values of the entry as they are. -/
theorem attr_values_tombstones (e : Slapi_Entry) (d : List String) (n : String) :
    attr_values (m2e_tombstones e d) n = attr_values e n := by
  rw [m2e_tombstones_eq]
  rfl

/-- An attribute whose name has no subtype and that is not merged under `n`
leaves the values under `n` and the out-parameter as they are. -/
theorem m2e_attribute_apart (K : Headers) (st : M2EState) (y : LDAPAttribute) (n : String)
    (hy : ';' ∉ y.atype.data)
    (hap : m2e_skipped y.atype = true ∨ strcasecmp_eq (type_to_use K y.atype none) n = false) :
    ∃ st', m2e_attribute K 0 st y = some st' ∧ st'.exattrs = st.exattrs ∧
      st'.exattrlen = st.exattrlen ∧ st'.exattridx = st.exattridx ∧
      attr_values st'.e n = attr_values st.e n := by
  by_cases hsk : m2e_skipped y.atype = true
  · have hcomp : m2e_attribute K 0 st y = some { st with
        rawentry := (slapi_entry_add_values st.rawentry y.atype y.vals) } := by
      unfold m2e_attribute
      simp only [hsk, if_true]
    exact ⟨_, hcomp, rfl, rfl, rfl, rfl⟩
  · have hne : strcasecmp_eq (type_to_use K y.atype none) n = false := by
      rcases hap with h | h
      · exact absurd h hsk
      · exact h
    have hcomp : m2e_attribute K 0 st y =
        some (m2e_merge { st with
          rawentry := (slapi_entry_add_values st.rawentry y.atype y.vals) }
          (type_to_use K y.atype none) y.vals) := by
      unfold m2e_attribute
      simp only [hsk, if_false, ne_eq, not_true_eq_false, scan_subtypes_plain _ hy,
        Bool.false_eq_true]
      rw [m2e_next_range_none _ _ _ (by simp)]
    refine ⟨_, hcomp, (m2e_merge_exattrs _ _ _).1, (m2e_merge_exattrs _ _ _).2.1,
      (m2e_merge_exattrs _ _ _).2.2, ?_⟩
    rw [m2e_merge_e]
    exact add_values_other _ _ _ _ hne

/-- Attributes whose names have no subtype and that are not merged under `n`
leave the values under `n` and the out-parameter as they are. -/
theorem m2e_fold_apart (K : Headers) (ys : List LDAPAttribute) (st : M2EState) (n : String)
    (hys : ∀ y ∈ ys, ';' ∉ y.atype.data ∧
      (m2e_skipped y.atype = true ∨ strcasecmp_eq (type_to_use K y.atype none) n = false)) :
    ∃ st', ys.foldlM (m2e_attribute K 0) st = some st' ∧ st'.exattrs = st.exattrs ∧
      st'.exattrlen = st.exattrlen ∧ st'.exattridx = st.exattridx ∧
      attr_values st'.e n = attr_values st.e n := by
  induction ys generalizing st with
  | nil => exact ⟨st, rfl, rfl, rfl, rfl, rfl⟩
  | cons y ys ih =>
    obtain ⟨s1, h1, a1, b1, c1, d1⟩ :=
      m2e_attribute_apart K st y n (hys y (by simp)).1 (hys y (by simp)).2
    obtain ⟨s2, h2, a2, b2, c2, d2⟩ := ih s1 (fun z hz => hys z (by simp [hz]))
    exact ⟨s2, by simp [List.foldlM_cons, h1, h2], a2.trans a1, b2.trans b1, c2.trans c1,
      d2.trans d1⟩

/-- A name with a subtype is merged under `newa`. -/
theorem type_to_use_subtyped (K : Headers) (a : String) (n : List Char) (ha : ';' ∈ a.data) :
    type_to_use K a (some n) = String.mk n := by
  unfold type_to_use
  rw [strcasecmp_eq_subtyped a _ ha (by decide)]
  rfl

/-- An attribute that is not skipped, met with room in the out-parameter, has
its values added to the entry under `type_to_use`. -/
theorem m2e_attribute_scanned (K : Headers) (st : M2EState) (x : LDAPAttribute)
    (scan : SubtypeScan) (hf : out_param_fresh st) (hsk : m2e_skipped x.atype = false)
    (hscan : scan_subtypes x.atype.data = some scan)
    (hhigh : scan.high > 0 → scan.newa.isSome = true) :
    ∃ st', m2e_attribute K 0 st x = some st' ∧
      st'.e = slapi_entry_add_values st.e (type_to_use K x.atype scan.newa) x.vals := by
  have hcomp : m2e_attribute K 0 st x =
      m2e_next_range (m2e_merge { st with
        rawentry := (slapi_entry_add_values st.rawentry x.atype x.vals) }
        (type_to_use K x.atype scan.newa) x.vals) x.atype.data scan := by
    unfold m2e_attribute
    simp only [hsk, if_false, ne_eq, not_true_eq_false, hscan, Bool.false_eq_true]
  rw [hcomp]
  generalize hst1 : ({ st with
    rawentry := (slapi_entry_add_values st.rawentry x.atype x.vals) } : M2EState) = st1
  have hf1 : out_param_fresh st1 := by rw [← hst1]; exact hf
  have he1 : st1.e = st.e := by rw [← hst1]
  have hm := m2e_merge_exattrs st1 (type_to_use K x.atype scan.newa) x.vals
  have hf2 : out_param_fresh (m2e_merge st1 (type_to_use K x.atype scan.newa) x.vals) := by
    unfold out_param_fresh at hf1 ⊢
    rw [hm.1, hm.2.1, hm.2.2]
    exact hf1
  obtain ⟨st2, h2, _, e2, _⟩ := m2e_next_range_fresh _ x.atype.data scan hf2 hhigh
  exact ⟨st2, h2, by rw [e2, m2e_merge_e, he1]⟩

/-- The attribute `base;range=low-high` with a bound from 1 to 2^31 - 2, met
while the out-parameter is still `NULL`, stores its next-range name there and
appends its values to those under `base`. -/
theorem m2e_attribute_bounded_values (K : Headers) (st : M2EState) (base low high : List Char)
    (vals : List String)
    (hbase : base ≠ [] ∧ ';' ∉ base)
    (hlow : low ≠ [] ∧ ∀ c ∈ low, c.isDigit = true)
    (hhigh : high ≠ [] ∧ ∀ c ∈ high, c.isDigit = true)
    (hpos : 0 < digits_value 0 high) (hmax : digits_value 0 high < 2147483647)
    (hex : st.exattrs = some none) (hlen : st.exattrlen = st.exattridx) :
    ∃ st', m2e_attribute K 0 st ⟨ranged_name base low high, some vals⟩ = some st' ∧
      st'.exattrs =
        some (some [ranged_name base (toString (digits_value 0 high + 1)).data ['*']]) ∧
      st'.exattrlen ≠ st'.exattridx ∧
      attr_values st'.e (String.mk base) = attr_values st.e (String.mk base) ++ vals := by
  obtain ⟨st1, h1, e1, l1, i1⟩ := m2e_attribute_bounded K st base low high (some vals) hbase
    hlow hhigh hpos hmax hex hlen
  have hscan := scan_subtypes_bounded base low high hbase hlow.2 hhigh hpos hmax
  have hsub : ';' ∈ (ranged_name base low high).data := mem_attr_name _ _ _
  obtain ⟨st2, h2, e2⟩ := m2e_attribute_scanned K st ⟨ranged_name base low high, some vals⟩ _
    (Or.inr (Or.inl hex)) (m2e_skipped_subtyped _ hsub) hscan (fun _ => rfl)
  have : st2 = st1 := Option.some.inj (h2.symm.trans h1)
  subst this
  refine ⟨st2, h1, e1, by rw [l1, i1]; decide, ?_⟩
  rw [e2]
  simp only []
  rw [type_to_use_subtyped K _ base hsub]
  exact add_values_same _ _ _ _ (strcasecmp_eq_refl _)

/-- The attribute of a last round leaves the out-parameter as it is and
appends its values to those under `base`. -/
theorem m2e_attribute_last_values (K : Headers) (st : M2EState) (base low : List Char)
    (name : String) (vals : List String)
    (hbase : base ≠ [] ∧ ';' ∉ base)
    (hname : (name = ranged_name base low ['*'] ∧ ∀ c ∈ low, c.isDigit = true) ∨
      (name = String.mk base ∧ strcasecmp_eq name "streetaddress" = false ∧
        m2e_skipped name = false))
    (hf : out_param_fresh st) :
    ∃ st', m2e_attribute K 0 st ⟨name, some vals⟩ = some st' ∧
      st'.exattrs = st.exattrs ∧ st'.exattrlen = st.exattrlen ∧
      st'.exattridx = st.exattridx ∧
      attr_values st'.e (String.mk base) = attr_values st.e (String.mk base) ++ vals := by
  rcases hname with ⟨hn, hlow⟩ | ⟨hn, hstreet, hsk⟩
  · subst hn
    obtain ⟨st1, h1, e1, l1, i1⟩ := m2e_attribute_terminal K st base low (some vals) hbase hlow
    have hscan := scan_subtypes_terminal base low hbase hlow
    have hsub : ';' ∈ (ranged_name base low ['*']).data := mem_attr_name _ _ _
    obtain ⟨st2, h2, e2⟩ := m2e_attribute_scanned K st ⟨ranged_name base low ['*'], some vals⟩ _
      hf (m2e_skipped_subtyped _ hsub) hscan (fun _ => rfl)
    have : st2 = st1 := Option.some.inj (h2.symm.trans h1)
    subst this
    refine ⟨st2, h1, e1, l1, i1, ?_⟩
    rw [e2]
    simp only []
    rw [type_to_use_subtyped K _ base hsub]
    exact add_values_same _ _ _ _ (strcasecmp_eq_refl _)
  · subst hn
    obtain ⟨st1, h1, e1, l1, i1⟩ := m2e_attribute_plain K 0 st ⟨String.mk base, some vals⟩
      hbase.2
    obtain ⟨st2, h2, e2⟩ := m2e_attribute_scanned K st ⟨String.mk base, some vals⟩ _
      hf hsk (scan_subtypes_plain base hbase.2) (fun h => absurd h (by decide))
    have : st2 = st1 := Option.some.inj (h2.symm.trans h1)
    subst this
    refine ⟨st2, h1, e1, l1, i1, ?_⟩
    rw [e2]
    have ht : type_to_use K (String.mk base) none = String.mk base := by
      unfold type_to_use
      rw [hstreet]
      rfl
    simp only []
    rw [ht]
    exact add_values_same _ _ _ _ (strcasecmp_eq_refl _)

/-- The values under `base` before the loop are those the entry given by the
caller holds. -/
theorem attr_values_init (e : Option Slapi_Entry) (dn : Option String)
    (ex : Option (Option (List String))) (n : String) :
    attr_values (m2e_init e dn ex).e n = held_values e n := by
  cases e <;> rfl

/-- A bounded round through windows_LDAPMessage2Entry: the out-parameter gets
the continuation name of the round and the entry gets the values of the
fragment after those it held. -/
theorem m2e_round_bounded (K : Headers) (ent : Option Slapi_Entry) (base : List Char)
    (r : RangeRound) (hbase : base ≠ [] ∧ ';' ∉ base) (hr : r.bounded K base) :
    ∃ m ent', windows_LDAPMessage2Entry K ent
        (some (r.message (ranged_name base r.low r.high))) 0 (some none) = some m ∧
      m.exattrs = some (some [r.continuation base]) ∧ m.entry = some ent' ∧
      attr_values ent' (String.mk base) = held_values ent (String.mk base) ++ r.vals := by
  obtain ⟨hap, hlow, hhigh, hpos, hmax⟩ := hr
  have hb : ∀ y ∈ r.before, ';' ∉ y.atype.data ∧ (m2e_skipped y.atype = true ∨
      strcasecmp_eq (type_to_use K y.atype none) (String.mk base) = false) :=
    fun y hy => hap y (by simp [hy])
  have ha : ∀ y ∈ r.after, ';' ∉ y.atype.data ∧ (m2e_skipped y.atype = true ∨
      strcasecmp_eq (type_to_use K y.atype none) (String.mk base) = false) :=
    fun y hy => hap y (by simp [hy])
  obtain ⟨s1, h1, a1, b1, c1, d1⟩ := m2e_fold_apart K r.before
    (m2e_init ent r.dn (some none)) (String.mk base) hb
  obtain ⟨s2, h2, a2, b2, d2⟩ := m2e_attribute_bounded_values K s1 base r.low r.high r.vals
    hbase hlow hhigh hpos hmax a1 (b1.trans c1.symm)
  obtain ⟨s3, h3, a3, _, _, d3⟩ := m2e_fold_apart K r.after s2 (String.mk base) ha
  refine ⟨⟨some (m2e_tombstones s3.e s3.deletedattrs), some s3.rawentry, s3.exattrs⟩,
    m2e_tombstones s3.e s3.deletedattrs, ?_, a3.trans a2, rfl, ?_⟩
  · unfold windows_LDAPMessage2Entry RangeRound.message
    simp only [List.foldlM_append, h1, Option.bind_eq_bind, Option.some_bind,
      List.foldlM_cons, h2, List.foldlM_nil, Option.pure_def, h3]
  · rw [attr_values_tombstones, d3, d2, d1, attr_values_init]

/-- A last round through windows_LDAPMessage2Entry: the out-parameter stays
`NULL` and the entry gets the values of the fragment after those it held. -/
theorem m2e_round_last (K : Headers) (ent : Option Slapi_Entry) (base : List Char)
    (r : RangeRound) (name : String) (hbase : base ≠ [] ∧ ';' ∉ base)
    (hr : r.terminal K base name) :
    ∃ m ent', windows_LDAPMessage2Entry K ent (some (r.message name)) 0 (some none) = some m ∧
      m.exattrs = some none ∧ m.entry = some ent' ∧
      attr_values ent' (String.mk base) = held_values ent (String.mk base) ++ r.vals := by
  obtain ⟨hap, hname⟩ := hr
  have hb : ∀ y ∈ r.before, ';' ∉ y.atype.data ∧ (m2e_skipped y.atype = true ∨
      strcasecmp_eq (type_to_use K y.atype none) (String.mk base) = false) :=
    fun y hy => hap y (by simp [hy])
  have ha : ∀ y ∈ r.after, ';' ∉ y.atype.data ∧ (m2e_skipped y.atype = true ∨
      strcasecmp_eq (type_to_use K y.atype none) (String.mk base) = false) :=
    fun y hy => hap y (by simp [hy])
  obtain ⟨s1, h1, a1, b1, c1, d1⟩ := m2e_fold_apart K r.before
    (m2e_init ent r.dn (some none)) (String.mk base) hb
  obtain ⟨s2, h2, a2, _, _, d2⟩ := m2e_attribute_last_values K s1 base r.low name r.vals
    hbase hname (Or.inr (Or.inl a1))
  obtain ⟨s3, h3, a3, _, _, d3⟩ := m2e_fold_apart K r.after s2 (String.mk base) ha
  refine ⟨⟨some (m2e_tombstones s3.e s3.deletedattrs), some s3.rawentry, s3.exattrs⟩,
    m2e_tombstones s3.e s3.deletedattrs, ?_, (a3.trans a2).trans a1, rfl, ?_⟩
  · unfold windows_LDAPMessage2Entry RangeRound.message
    simp only [List.foldlM_append, h1, Option.bind_eq_bind, Option.some_bind,
      List.foldlM_cons, h2, List.foldlM_nil, Option.pure_def, h3]
  · rw [attr_values_tombstones, d3, d2, d1, attr_values_init]

/-! ## The search loop -/

/-- Every call the specification asks for is a search. -/
theorem drain_calls_searches (ld : Option LDAP) (sb : Option String) (base : List Char)
    (rounds : List RangeRound) (attrs : Option (List String)) :
    (drain_calls ld sb base attrs rounds).countP ExtCall.is_search = rounds.length + 1 := by
  induction rounds generalizing attrs with
  | nil => simp [drain_calls, ExtCall.is_search]
  | cons r rs ih => simp [drain_calls, ExtCall.is_search, ih]

/-- The loop from the label `next` on, over bounded rounds followed by a last
round: one search for each round, each with the attribute list left by the
round before, and the values of the fragments after those the entry held. -/
theorem search_entry_next_drains (K : Headers) (sb : Option String) (base : List Char)
    (last : RangeRound) (last_name : String) (hbase : base ≠ [] ∧ ';' ∉ base)
    (hlast : last.terminal K base last_name) (rounds : List RangeRound) (w : World)
    (attrs : Option (List String)) (entry : Option Slapi_Entry)
    (hrounds : ∀ r ∈ rounds, r.bounded K base) :
    ∃ ent, search_entry_next K sb
        (rounds.map (fun r => r.reply K (ranged_name base r.low r.high)) ++
          [last.reply K last_name]) w attrs entry =
        some (({ w with calls := w.calls ++ drain_calls w.conn.ld sb base attrs rounds } :
          World).set_error K.LDAP_SUCCESS, some ent, CONN_OPERATION_SUCCESS) ∧
      attr_values ent (String.mk base) =
        held_values entry (String.mk base) ++ (rounds.map (fun r => r.vals)).flatten ++
          last.vals := by
  induction rounds generalizing w attrs entry with
  | nil =>
    obtain ⟨m, ent, hm, hex, hent, hv⟩ := m2e_round_last K entry base last last_name hbase hlast
    refine ⟨ent, ?_, by simpa using hv⟩
    simp only [List.map_nil, List.nil_append, search_entry_next, RangeRound.reply, if_true, hm,
      hex, hent, drain_calls, World.call]
  | cons r rs ih =>
    obtain ⟨m, ent1, hm, hex, hent, hv⟩ :=
      m2e_round_bounded K entry base r hbase (hrounds r (by simp))
    obtain ⟨ent, h, hv2⟩ := ih (w.call (ExtCall.ldap_search_ext_s w.conn.ld sb attrs))
      (some [r.continuation base]) (some ent1) (fun x hx => hrounds x (by simp [hx]))
    refine ⟨ent, ?_, ?_⟩
    · simp only [List.map_cons, List.cons_append, search_entry_next, RangeRound.reply, if_true,
        hm, hex, hent, List.append_eq]
      simp only [RangeRound.reply] at h
      rw [h]
      simp [World.call, drain_calls]
    · rw [hv2]
      simp only [held_values, hv, List.map_cons, List.flatten_cons, List.append_assoc]

/-! ## C15 -/

/-- C15 fails as stated for an upper index that does not fit the 32-bit `int`
in which the source keeps it: when the first response carries
member;range=0-4294967296 and the second one member;range=4294967297-*, the function
takes the first range for a terminal one; it issues one search, not two, and
returns success with the values of the first fragment alone. -/
theorem search_entry_overflow_one_round :
    (windows_search_entry_ext openldap sample_connected true sample_search
      ([sample_round_wide].map (fun r => r.reply openldap (ranged_name "member".data r.low r.high))
        ++ [sample_round_last.reply openldap "member;range=4294967297-*"])).map
      (fun r => (r.1.searches, r.2.1.map (fun e => attr_values e "member"), r.2.2)) =
    some (sample_connected.searches + 1, some ["cn=a", "cn=b"], CONN_OPERATION_SUCCESS) := by
  decide

/-- C15 as amended: on a Connected connection, let the peer answer the searches
of windows_search_entry_ext with success, in each of the first k rounds with a
response that carries the attribute base;range=L-H, where L and H are runs of
decimal digits and the value of H is from 1 to 2^31 - 2, and in round k+1 with
a response that carries base;range=L-* or base itself (base being neither the
aliased legacy name nor a skipped name); the other attributes of the responses
have no subtype and are not merged under base. Then the function returns
success with an entry; it issues exactly k+1 searches; the first search has the
attribute list of the caller and the search after each bounded round has the
one name base;range=(H+1)-* of that round as its attribute list; the last LDAP
error is success and nothing else of the connection changes; and the entry
holds under base the values of the k+1 fragments in the order of arrival. -/
theorem search_entry_drains (K : Headers) (w : World) (search : AdSearch) (base : List Char)
    (rounds : List RangeRound) (last : RangeRound) (last_name : String)
    (hconn : windows_conn_connected w.conn = true)
    (hbase : base ≠ [] ∧ ';' ∉ base)
    (hrounds : ∀ r ∈ rounds, r.bounded K base)
    (hlast : last.terminal K base last_name) :
    ∃ w' ent,
      windows_search_entry_ext K w true search
        (rounds.map (fun r => r.reply K (ranged_name base r.low r.high)) ++
          [last.reply K last_name]) = some (w', some ent, CONN_OPERATION_SUCCESS) ∧
      w'.searches = w.searches + (rounds.length + 1) ∧
      w'.calls = w.calls ++ drain_calls w.conn.ld search.searchbase base search.attrs rounds ∧
      w'.conn = { w.conn with last_ldap_error := K.LDAP_SUCCESS } ∧
      attr_values ent (String.mk base) = (rounds.map (fun r => r.vals)).flatten ++ last.vals := by
  obtain ⟨ent, h, hv⟩ := search_entry_next_drains K search.searchbase base last last_name hbase
    hlast rounds w search.attrs none hrounds
  refine ⟨World.set_error
    ⟨w.conn, w.calls ++ drain_calls w.conn.ld search.searchbase base search.attrs rounds⟩
    K.LDAP_SUCCESS, ent, ?_, ?_, rfl, rfl, by simpa [held_values] using hv⟩
  · unfold windows_search_entry_ext
    simp only [Bool.not_true, Bool.false_eq_true, if_false, hconn, if_true]
    exact h
  · simp [World.searches, World.set_error, List.countP_append, drain_calls_searches]

/-- Three rounds for member: the ranges 0-1 and 2-3, then 4-*. -/
theorem search_entry_drains_witness :
    ∃ w' ent,
      windows_search_entry_ext openldap sample_connected true sample_search
        ([sample_round_first, sample_round_second].map
            (fun r => r.reply openldap (ranged_name "member".data r.low r.high)) ++
          [sample_round_last.reply openldap "member;range=4-*"]) =
        some (w', some ent, CONN_OPERATION_SUCCESS) ∧
      w'.searches = sample_connected.searches + (2 + 1) ∧
      w'.calls = sample_connected.calls ++
        [ExtCall.ldap_search_ext_s sample_connected.conn.ld sample_search.searchbase none,
         ExtCall.ldap_search_ext_s sample_connected.conn.ld sample_search.searchbase
           (some ["member;range=2-*"]),
         ExtCall.ldap_search_ext_s sample_connected.conn.ld sample_search.searchbase
           (some ["member;range=4-*"])] ∧
      w'.conn = { sample_connected.conn with last_ldap_error := openldap.LDAP_SUCCESS } ∧
      attr_values ent "member" = ["cn=a", "cn=b", "cn=c", "cn=d", "cn=e"] :=
  search_entry_drains openldap sample_connected sample_search "member".data
    [sample_round_first, sample_round_second] sample_round_last "member;range=4-*"
    (by decide) (by decide) (by decide) (by decide)

/-! ## The linger bookkeeping is left alone by the protocol operations -/

/-- Logging a call leaves the linger bookkeeping as it is. -/
theorem linger_fields_call (w : World) (c : ExtCall) :
    linger_fields (w.call c).conn = linger_fields w.conn := rfl

/-- Recording an error leaves the linger bookkeeping as it is. -/
theorem linger_fields_set_error (w : World) (e : Int) :
    linger_fields (w.set_error e).conn = linger_fields w.conn := rfl

/-- Setting the status leaves the linger bookkeeping as it is. -/
theorem linger_fields_set_status (w : World) (s : String) :
    linger_fields (w.set_status s).conn = linger_fields w.conn := rfl

/-- Closing the transport leaves the linger bookkeeping as it is. -/
theorem linger_fields_close (w : World) :
    linger_fields (close_connection_internal w).conn = linger_fields w.conn := by
  rw [close_connection_internal_conn]
  rfl

/-- Disconnecting leaves the linger bookkeeping as it is. -/
theorem linger_fields_disconnect (w : World) :
    linger_fields (windows_conn_disconnect w).conn = linger_fields w.conn :=
  linger_fields_close w

/-- Issuing a request leaves the linger bookkeeping as it is. -/
theorem linger_fields_send_request (w : World) (optype : Int) (r : Request) (peer : OpReply) :
    linger_fields (send_request w optype r peer).1.conn = linger_fields w.conn := by
  unfold send_request
  split_ifs <;> rfl

/-- Classifying a result leaves the linger bookkeeping as it is. -/
theorem linger_fields_classify (K : Headers) (w : World) (optype : Int) (peer : OpReply) :
    linger_fields (classify_result K w optype peer).1.conn = linger_fields w.conn := by
  unfold classify_result
  simp only []
  split_ifs <;>
  simp only [linger_fields_set_status, linger_fields_disconnect, linger_fields_set_error,
    linger_fields_call]

/-- A write operation leaves the linger bookkeeping as it is. -/
theorem linger_fields_perform (K : Headers) (w : World) (optype : Int) (r : Request)
    (peer : OpReply) :
    linger_fields (windows_perform_operation K w optype r peer).1.conn = linger_fields w.conn := by
  have hs := linger_fields_send_request { w with conn := { w.conn with last_operation := optype } }
    optype r peer
  unfold windows_perform_operation
  simp only []
  generalize send_request { w with conn := { w.conn with last_operation := optype } }
    optype r peer = sent at hs
  have hs2 : linger_fields sent.1.conn = linger_fields w.conn := hs
  split_ifs <;>
  simp only [linger_fields_set_status, linger_fields_disconnect, linger_fields_set_error,
    linger_fields_call, linger_fields_classify, hs2]

/-- The dirsync probe leaves the linger bookkeeping as it is. -/
theorem linger_fields_supports_dirsync (K : Headers) (w : World) (use_ds : Bool)
    (reply : SearchReply) :
    linger_fields (windows_conn_replica_supports_dirsync K w use_ds reply).1.conn =
      linger_fields w.conn := by
  unfold windows_conn_replica_supports_dirsync
  simp only []
  split_ifs <;>
  first
  | rfl
  | simp only [linger_fields_set_status, linger_fields_disconnect, linger_fields_set_error,
      linger_fields_call]

/-- The Win2k3 probe leaves the linger bookkeeping as it is. -/
theorem linger_fields_is_win2k3 (K : Headers) (w : World) (reply : SearchReply) :
    linger_fields (windows_conn_replica_is_win2k3 K w reply).1.conn = linger_fields w.conn := by
  unfold windows_conn_replica_is_win2k3
  simp only []
  split_ifs <;>
  first
  | rfl
  | simp only [linger_fields_set_status, linger_fields_disconnect, linger_fields_set_error,
      linger_fields_call]

/-- The DS 5 probe leaves the linger bookkeeping as it is. -/
theorem linger_fields_supports_ds5 (K : Headers) (w : World) (reply : SearchReply) :
    linger_fields (windows_conn_replica_supports_ds5_repl K w reply).1.conn =
      linger_fields w.conn := by
  unfold windows_conn_replica_supports_ds5_repl
  simp only []
  split_ifs <;>
  first
  | rfl
  | simp only [linger_fields_set_status, linger_fields_disconnect, linger_fields_set_error,
      linger_fields_call]

/-- The bind leaves the linger bookkeeping as it is. -/
theorem linger_fields_bind (K : Headers) (w : World) (binddn password : Option String)
    (rc : Int) :
    linger_fields (bind_and_check_pwp K w binddn password rc).1.conn = linger_fields w.conn := by
  unfold bind_and_check_pwp
  simp only []
  split_ifs <;> rfl

/-- The end of connect leaves the linger bookkeeping as it is. -/
theorem linger_fields_connect_bind (K : Headers) (w : World) (binddn : Option String)
    (env : ConnectEnv) :
    linger_fields (connect_bind K w binddn env).1.conn = linger_fields w.conn := by
  have hb := linger_fields_bind K w binddn w.conn.plain env.bind_rc
  unfold connect_bind
  generalize bind_and_check_pwp K w binddn w.conn.plain env.bind_rc = b at hb
  by_cases h1 : b.2 = CONN_OPERATION_FAILED <;>
  simp only [h1, if_true, if_false, linger_fields_close, linger_fields_call] <;>
  first
  | (rw [linger_fields_is_win2k3, linger_fields_call, linger_fields_supports_dirsync]
     exact hb)
  | (show linger_fields (windows_conn_replica_is_win2k3 K _ _).1.conn = _
     rw [linger_fields_is_win2k3, linger_fields_call, linger_fields_supports_dirsync]
     exact hb)

/-- Connect leaves the linger bookkeeping as it is. -/
theorem linger_fields_connect (K : Headers) (w : World) (env : ConnectEnv) :
    linger_fields (windows_conn_connect K w env).1.conn = linger_fields w.conn := by
  have hr : linger_fields (connect_refresh w env).conn = linger_fields w.conn := by
    unfold connect_refresh
    split <;> rfl
  unfold windows_conn_connect
  generalize connect_refresh w env = w0 at hr
  by_cases c1 : w.conn.state = STATE_CONNECTED <;>
  by_cases c2 : w0.conn.plain = none <;>
  by_cases c3 : env.pw_ret = -1 <;>
  by_cases c4 : connect_secure K w0.conn.transport_flags > 0 <;>
  by_cases c5 : env.nss_initialized = false <;>
  by_cases c6 : env.new_ld = none <;>
  simp [c1, c2, c3, c4, c5, c6, World.call] <;>
  first
  | exact hr
  | (rw [linger_fields_connect_bind]; exact hr)

/-- The search loop leaves the linger bookkeeping as it is. -/
theorem linger_fields_search_next (K : Headers) (sb : Option String)
    (replies : List EntrySearchReply) (w : World) (attrs : Option (List String))
    (entry : Option Slapi_Entry) (w2 : World) (e : Option Slapi_Entry) (r : ConnResult)
    (h : search_entry_next K sb replies w attrs entry = some (w2, e, r)) :
    linger_fields w2.conn = linger_fields w.conn := by
  induction replies generalizing w attrs entry with
  | nil => simp [search_entry_next] at h
  | cons reply rest ih =>
    unfold search_entry_next at h
    simp only [] at h
    by_cases h1 : K.LDAP_SUCCESS = reply.rc
    · simp only [h1, if_true] at h
      cases hm : windows_LDAPMessage2Entry K entry reply.message 0 (some none) with
      | none => simp [hm] at h
      | some m =>
        simp only [hm] at h
        cases hx : m.exattrs with
        | none =>
          simp only [hx, Option.some.injEq, Prod.mk.injEq] at h
          rw [← h.1]
          rfl
        | some arr =>
          cases arr with
          | none =>
            simp only [hx, Option.some.injEq, Prod.mk.injEq] at h
            rw [← h.1]
            rfl
          | some l =>
            simp only [hx] at h
            rw [ih _ _ _ h]
            rfl
    · by_cases h2 : IS_DISCONNECT_ERROR K reply.rc = true
      · simp only [h1, h2, if_true, if_false, Option.some.injEq, Prod.mk.injEq] at h
        rw [← h.1, linger_fields_set_error, linger_fields_disconnect]
        rfl
      · simp only [h1, h2, if_false, Option.some.injEq, Prod.mk.injEq, Bool.false_eq_true] at h
        rw [← h.1]
        rfl

/-- The search of one entry leaves the linger bookkeeping as it is. -/
theorem linger_fields_search_entry (K : Headers) (w : World) (entry_given : Bool)
    (search : AdSearch) (replies : List EntrySearchReply) (w2 : World)
    (e : Option Slapi_Entry) (r : ConnResult)
    (h : windows_search_entry_ext K w entry_given search replies = some (w2, e, r)) :
    linger_fields w2.conn = linger_fields w.conn := by
  unfold windows_search_entry_ext at h
  split_ifs at h
  · simp only [Option.some.injEq, Prod.mk.injEq] at h
    rw [← h.1]
  · exact linger_fields_search_next K _ _ _ _ _ _ _ _ h
  · simp only [Option.some.injEq, Prod.mk.injEq] at h
    rw [← h.1]

/-- The incremental search leaves the linger bookkeeping as it is. -/
theorem linger_fields_dirsync_search (K : Headers) (w : World) (rc : Int) :
    linger_fields (send_dirsync_search K w rc).1.conn = linger_fields w.conn := by
  unfold send_dirsync_search
  simp only []
  split_ifs <;>
  first
  | rfl
  | (simp only [linger_fields_set_status, linger_fields_disconnect, linger_fields_set_error,
      linger_fields_call]; done)
  | (simp only [linger_fields_set_status, linger_fields_disconnect, linger_fields_set_error,
      linger_fields_call]; rfl)

/-- Reading a search result leaves the connection record as it is. -/
theorem get_search_result_conn (K : Headers) (w : World) (result_rc : Int) (dn_given : Bool)
    (msg : Option LDAPMessage) (w2 : World) (e : Option Slapi_Entry)
    (h : windows_conn_get_search_result K w result_rc dn_given msg = some (w2, e)) :
    w2.conn = w.conn := by
  unfold windows_conn_get_search_result at h
  simp only [] at h
  split_ifs at h <;>
  first
  | (cases h; rfl)
  | (split at h
     · cases h
     · cases h; rfl)

/-- Reading an attribute leaves the linger bookkeeping as it is. -/
theorem linger_fields_read_entry_attribute (K : Headers) (w : World) (dn : Option String)
    (type : String) (reply : SearchReply) :
    linger_fields (windows_conn_read_entry_attribute K w dn type reply).1.conn =
      linger_fields w.conn := by
  unfold windows_conn_read_entry_attribute
  simp only []
  split_ifs <;>
  first
  | rfl
  | simp only [linger_fields_set_status, linger_fields_disconnect, linger_fields_set_error,
      linger_fields_call]

/-- The bind of a user leaves the linger bookkeeping as it is. -/
theorem linger_fields_do_simple_bind (K : Headers) (w : World) (binddn password : Option String)
    (rc ldaperr : Int) :
    linger_fields (do_simple_bind K w binddn password rc ldaperr).conn = linger_fields w.conn := by
  unfold do_simple_bind
  simp only []
  split_ifs <;> rfl

/-- Checking a user password leaves the linger bookkeeping as it is. -/
theorem linger_fields_check_user_password (K : Headers) (w : World)
    (binddn password : Option String) (env : PasswordCheckEnv) :
    linger_fields (windows_check_user_password K w binddn password env).1.conn =
      linger_fields w.conn := by
  unfold windows_check_user_password
  simp only []
  rw [linger_fields_bind]
  split_ifs <;>
  simp only [linger_fields_call, linger_fields_do_simple_bind, linger_fields_connect]

/-! ## What a step does to the linger bookkeeping -/

/-- A step other than the linger calls, the deletion and the timer leaves the
reference count and the linger time as they are; cancel linger may lower the
count by one, and nothing raises it while it is above the least `int`. -/
theorem step_refcnt (K : Headers) (w w2 : World) (h : PublicStep K w w2) :
    w2.conn.linger_time = w.conn.linger_time ∧
    (w2.conn.refcnt = w.conn.refcnt ∨
      (w.conn.linger_active = true ∧ w2.conn.refcnt = to_int (w.conn.refcnt - 1))) := by
  have key : ∀ c c2 : Repl_Connection, linger_fields c2 = linger_fields c →
      c2.linger_time = c.linger_time ∧ (c2.refcnt = c.refcnt ∨
        (c.linger_active = true ∧ c2.refcnt = to_int (c.refcnt - 1))) := by
    intro c c2 hc
    simp only [linger_fields, Prod.mk.injEq] at hc
    exact ⟨hc.2.2.2.2, Or.inl hc.2.2.2.1⟩
  cases h with
  | connect env => exact key _ _ (linger_fields_connect K w env)
  | disconnect => exact key _ _ (linger_fields_disconnect w)
  | delete cancel_rc =>
    unfold windows_conn_delete windows_conn_delete_internal
    simp only []
    split_ifs <;> simp [close_connection_internal_conn, World.call]
  | send optype r peer => exact key _ _ (linger_fields_perform K w optype r peer)
  | search_entry entry_given search replies _ e r h =>
    exact key _ _ (linger_fields_search_entry K w entry_given search replies w2 e r h)
  | dirsync_search rc => exact key _ _ (linger_fields_dirsync_search K w rc)
  | get_search_result result_rc dn_given msg _ e h =>
    rw [get_search_result_conn K w result_rc dn_given msg w2 e h]
    exact ⟨rfl, Or.inl rfl⟩
  | read_entry_attribute dn type reply =>
    exact key _ _ (linger_fields_read_entry_attribute K w dn type reply)
  | supports_ds5_repl reply => exact key _ _ (linger_fields_supports_ds5 K w reply)
  | supports_dirsync use_ds reply =>
    exact key _ _ (linger_fields_supports_dirsync K w use_ds reply)
  | is_win2k3 reply => exact key _ _ (linger_fields_is_win2k3 K w reply)
  | start_linger now ev =>
    unfold windows_conn_start_linger
    simp only []
    split_ifs <;> simp [World.call]
  | cancel_linger cancel_rc =>
    unfold windows_conn_cancel_linger
    simp only []
    split_ifs with h1 h2
    · exact ⟨rfl, Or.inr ⟨h1, rfl⟩⟩
    · exact ⟨rfl, Or.inl rfl⟩
    · exact ⟨rfl, Or.inl rfl⟩
  | timer =>
    unfold linger_timeout windows_conn_delete_internal
    simp only []
    split_ifs <;> simp [close_connection_internal_conn]
  | set_error error => exact ⟨rfl, Or.inl rfl⟩
  | set_timeout timeout => exact ⟨rfl, Or.inl rfl⟩
  | set_agmt_changed =>
    unfold windows_conn_set_agmt_changed
    split_ifs <;> exact ⟨rfl, Or.inl rfl⟩
  | check_user_password binddn password env =>
    exact key _ _ (linger_fields_check_user_password K w binddn password env)

/-- Linger is turned on by no step but start linger, which leaves the
connection connected and lingering. -/
theorem step_linger_on (K : Headers) (w w2 : World) (h : PublicStep K w w2)
    (hoff : w.conn.linger_active = false) (hon : w2.conn.linger_active = true) :
    windows_conn_connected w.conn = true ∧ w2.conn.state = STATE_CONNECTED ∧
      w2.conn.status = STATUS_LINGERING ∧
      ∃ now ev, w2 = windows_conn_start_linger w now ev := by
  have key : ∀ c2 : Repl_Connection, linger_fields c2 = linger_fields w.conn →
      c2.linger_active = true → False := by
    intro c2 hc h2
    simp only [linger_fields, Prod.mk.injEq] at hc
    rw [hc.1, hoff] at h2
    cases h2
  cases h with
  | connect env => exact (key _ (linger_fields_connect K w env) hon).elim
  | disconnect => exact (key _ (linger_fields_disconnect w) hon).elim
  | delete cancel_rc =>
    unfold windows_conn_delete at hon
    simp [hoff] at hon
  | send optype r peer => exact (key _ (linger_fields_perform K w optype r peer) hon).elim
  | search_entry entry_given search replies _ e r h =>
    exact (key _ (linger_fields_search_entry K w entry_given search replies w2 e r h) hon).elim
  | dirsync_search rc => exact (key _ (linger_fields_dirsync_search K w rc) hon).elim
  | get_search_result result_rc dn_given msg _ e h =>
    rw [get_search_result_conn K w result_rc dn_given msg w2 e h, hoff] at hon
    cases hon
  | read_entry_attribute dn type reply =>
    exact (key _ (linger_fields_read_entry_attribute K w dn type reply) hon).elim
  | supports_ds5_repl reply => exact (key _ (linger_fields_supports_ds5 K w reply) hon).elim
  | supports_dirsync use_ds reply =>
    exact (key _ (linger_fields_supports_dirsync K w use_ds reply) hon).elim
  | is_win2k3 reply => exact (key _ (linger_fields_is_win2k3 K w reply) hon).elim
  | start_linger now ev =>
    refine ⟨?_, ?_, ?_, now, ev, rfl⟩
    · cases hc : windows_conn_connected w.conn with
      | true => rfl
      | false => simp [windows_conn_start_linger, hc, hoff] at hon
    · cases hc : windows_conn_connected w.conn with
      | true =>
        have hs : w.conn.state = STATE_CONNECTED := by
          unfold windows_conn_connected at hc
          exact (beq_iff_eq.mp hc).symm
        simp [windows_conn_start_linger, hc, hoff, World.call, hs]
      | false => simp [windows_conn_start_linger, hc, hoff] at hon
    · cases hc : windows_conn_connected w.conn with
      | true => simp [windows_conn_start_linger, hc, hoff, World.call]
      | false => simp [windows_conn_start_linger, hc, hoff] at hon
  | cancel_linger cancel_rc =>
    unfold windows_conn_cancel_linger at hon
    simp [hoff] at hon
  | timer =>
    unfold linger_timeout windows_conn_delete_internal at hon
    simp only [hoff, Bool.false_eq_true, if_false] at hon
    split_ifs at hon
    · simp [close_connection_internal_conn, hoff] at hon
    · rw [hoff] at hon; cases hon
  | set_error error => rw [show (windows_conn_set_error w error).conn.linger_active =
      w.conn.linger_active from rfl, hoff] at hon; cases hon
  | set_timeout timeout => rw [show (windows_conn_set_timeout w timeout).conn.linger_active =
      w.conn.linger_active from rfl, hoff] at hon; cases hon
  | set_agmt_changed =>
    unfold windows_conn_set_agmt_changed at hon
    split_ifs at hon <;> (rw [show _ = w.conn.linger_active from rfl, hoff] at hon; cases hon)
  | check_user_password binddn password env =>
    exact (key _ (linger_fields_check_user_password K w binddn password env) hon).elim

/-- The linger time and the reference count of a reachable connection: the
linger time is the default one. -/
theorem reachable_linger_time (K : Headers) (w : World) (h : Reachable K w) :
    w.conn.linger_time = DEFAULT_LINGER_TIME := by
  induction h with
  | created raw agmt cfg c h =>
    unfold windows_conn_new at h
    split_ifs at h
    cases h
    rfl
  | step w w2 _ hs ih => rw [(step_refcnt K w w2 hs).1, ih]

/-- A value in the range of `int` is kept by the conversion to `int`. -/
theorem to_int_range (x : Int) (h0 : -2147483648 ≤ x) (h1 : x ≤ 2147483647) : to_int x = x := by
  unfold to_int
  omega

/-! ## C21 -/

/-- C21: windows_conn_start_linger returns the world unchanged (no timer armed)
when the connection is not Connected. On a Connected connection with no linger
active it makes exactly one call, `slapi_eq_once_rel` for the time now +
linger_time, sets linger_active, keeps the handle of the timer and sets the
status to lingering, and changes no other field. A second call in a row
returns the world of the first call unchanged. The linger time of every
connection reached from windows_conn_new is the default of 60 seconds. -/
theorem start_linger_once (K : Headers) (w : World) (now now2 : Int)
    (ev ev2 : Option Slapi_Eq_Context) :
    (windows_conn_connected w.conn = false → windows_conn_start_linger w now ev = w) ∧
    (windows_conn_connected w.conn = true → w.conn.linger_active = false →
      (windows_conn_start_linger w now ev).calls =
        w.calls ++ [ExtCall.slapi_eq_once_rel (now + w.conn.linger_time)] ∧
      (windows_conn_start_linger w now ev).conn =
        { w.conn with linger_active := true, linger_event := ev, status := STATUS_LINGERING }) ∧
    windows_conn_start_linger (windows_conn_start_linger w now ev) now2 ev2 =
      windows_conn_start_linger w now ev ∧
    (Reachable K w → w.conn.linger_time = 60) := by
  refine ⟨?_, ?_, ?_, fun h => reachable_linger_time K w h⟩
  · intro h
    simp [windows_conn_start_linger, h]
  · intro h1 h2
    simp [windows_conn_start_linger, h1, h2, World.call]
  · cases h1 : windows_conn_connected w.conn with
    | false => simp [windows_conn_start_linger, h1]
    | true =>
      cases h2 : w.conn.linger_active with
      | true => simp [windows_conn_start_linger, h1, h2]
      | false =>
        have hconn : (windows_conn_start_linger w now ev).conn =
            { w.conn with linger_active := true, linger_event := ev,
                          status := STATUS_LINGERING } := by
          simp [windows_conn_start_linger, h1, h2, World.call]
        have hc : windows_conn_connected (windows_conn_start_linger w now ev).conn = true := by
          rw [hconn]
          exact h1
        have ha : (windows_conn_start_linger w now ev).conn.linger_active = true := by
          rw [hconn]
        generalize windows_conn_start_linger w now ev = w1 at hc ha
        simp [windows_conn_start_linger, hc, ha]

/-- The connected sample connection: one timer, due 60 seconds after the
reading 1000 of the clock. -/
theorem start_linger_once_witness :
    (windows_conn_start_linger sample_connected 1000 (some ⟨3⟩)).calls =
      sample_connected.calls ++ [ExtCall.slapi_eq_once_rel 1060] ∧
    (windows_conn_start_linger sample_connected 1000 (some ⟨3⟩)).conn =
      { sample_connected.conn with
        linger_active := true, linger_event := some ⟨3⟩, status := STATUS_LINGERING } :=
  (start_linger_once openldap sample_connected 1000 2000 (some ⟨3⟩) (some ⟨4⟩)).2.1
    (by decide) (by decide)

/-! ## C22 -/

/-- C22: when linger is active, windows_conn_cancel_linger cancels the timer
event, clears linger_active and the timer handle and sets the status to
connected; the reference count is one less when the cancellation found the
event in the queue (return value 1) and the count was above the least `int`,
and it is unchanged for any other return value; no other field changes. When
no linger is active the world is left unchanged. -/
theorem cancel_linger_effect (w : World) (cancel_rc : Int) :
    (w.conn.linger_active = true →
      (windows_conn_cancel_linger w cancel_rc).calls =
        w.calls ++ [ExtCall.slapi_eq_cancel_rel w.conn.linger_event] ∧
      (cancel_rc = 1 → -2147483648 < w.conn.refcnt → w.conn.refcnt ≤ 2147483647 →
        (windows_conn_cancel_linger w cancel_rc).conn =
          { w.conn with linger_active := false, linger_event := none,
                        status := STATUS_CONNECTED, refcnt := w.conn.refcnt - 1 }) ∧
      (cancel_rc ≠ 1 →
        (windows_conn_cancel_linger w cancel_rc).conn =
          { w.conn with linger_active := false, linger_event := none,
                        status := STATUS_CONNECTED })) ∧
    (w.conn.linger_active = false → windows_conn_cancel_linger w cancel_rc = w) := by
  constructor
  · intro h
    refine ⟨by simp [windows_conn_cancel_linger, h, World.call], ?_, ?_⟩
    · intro h1 h2 h3
      simp [windows_conn_cancel_linger, h, h1, World.call,
        to_int_range (w.conn.refcnt - 1) (by omega) (by omega)]
    · intro h1
      simp [windows_conn_cancel_linger, h, h1, World.call]
  · intro h
    simp [windows_conn_cancel_linger, h]

/-- The lingering sample connection: a cancel that finds the timer lowers the
count from 1 to 0, a cancel that comes too late leaves it at 1. -/
theorem cancel_linger_effect_witness :
    (windows_conn_cancel_linger sample_lingering 1).conn =
      { sample_lingering.conn with linger_active := false, linger_event := none,
                                   status := STATUS_CONNECTED, refcnt := 1 - 1 } ∧
    (windows_conn_cancel_linger sample_lingering 0).conn =
      { sample_lingering.conn with linger_active := false, linger_event := none,
                                   status := STATUS_CONNECTED } ∧
    windows_conn_cancel_linger sample_connected 1 = sample_connected :=
  ⟨((cancel_linger_effect sample_lingering 1).1 (by decide)).2.1 (by decide) (by decide)
      (by decide),
    ((cancel_linger_effect sample_lingering 0).1 (by decide)).2.2 (by decide),
    (cancel_linger_effect sample_connected 1).2 (by decide)⟩

/-! ## C23 -/

/-- C23 fails as stated: the sample connection made by windows_conn_new, then
connected, put to linger and disconnected, is reached by public calls only; it
still has linger active and the timer handle, and its state is
disconnected. -/
theorem linger_survives_disconnect :
    Reachable openldap
      (windows_conn_disconnect (windows_conn_start_linger sample_connected 1000 (some ⟨3⟩))) ∧
    (windows_conn_disconnect
      (windows_conn_start_linger sample_connected 1000 (some ⟨3⟩))).conn.linger_active = true ∧
    (windows_conn_disconnect
      (windows_conn_start_linger sample_connected 1000 (some ⟨3⟩))).conn.linger_event =
        some ⟨3⟩ ∧
    (windows_conn_disconnect
      (windows_conn_start_linger sample_connected 1000 (some ⟨3⟩))).conn.state =
        STATE_DISCONNECTED :=
  ⟨Reachable.step _ _
      (Reachable.step _ _
        (Reachable.step _ _
          (Reachable.created sample_raw (some ⟨1⟩) sample_cfg sample_world.conn rfl)
          (PublicStep.connect _ sample_env))
        (PublicStep.start_linger _ 1000 (some ⟨3⟩)))
      (PublicStep.disconnect _),
    by decide, by decide, by decide⟩

/-- C23 as amended: linger is made active on a Connected connection only. For
every public call and every run of the timer callback, if linger is not active
before and active after, then the call is windows_conn_start_linger, the
connection was Connected before it, and after it the state is Connected and the
status lingering. -/
theorem linger_starts_connected (K : Headers) (w w2 : World) (h : PublicStep K w w2)
    (hoff : w.conn.linger_active = false) (hon : w2.conn.linger_active = true) :
    (∃ now ev, w2 = windows_conn_start_linger w now ev) ∧
    w.conn.state = STATE_CONNECTED ∧ w2.conn.state = STATE_CONNECTED ∧
    w2.conn.status = STATUS_LINGERING := by
  obtain ⟨h1, h2, h3, h4⟩ := step_linger_on K w w2 h hoff hon
  refine ⟨h4, ?_, h2, h3⟩
  unfold windows_conn_connected at h1
  exact (beq_iff_eq.mp h1).symm

/-- The connected sample connection put to linger. -/
theorem linger_starts_connected_witness :
    (∃ now ev, windows_conn_start_linger sample_connected 1000 (some ⟨3⟩) =
      windows_conn_start_linger sample_connected now ev) ∧
    sample_connected.conn.state = STATE_CONNECTED ∧
    (windows_conn_start_linger sample_connected 1000 (some ⟨3⟩)).conn.state =
      STATE_CONNECTED ∧
    (windows_conn_start_linger sample_connected 1000 (some ⟨3⟩)).conn.status =
      STATUS_LINGERING :=
  linger_starts_connected openldap sample_connected
    (windows_conn_start_linger sample_connected 1000 (some ⟨3⟩))
    (PublicStep.start_linger _ 1000 (some ⟨3⟩)) (by decide) (by decide)

/-! ## C24 -/

/-- C24: when the timer fires while linger is active, the connection ends as
windows_conn_disconnect leaves it, with linger_active and the timer handle
cleared; when deletion was asked for meanwhile (delete_after_linger), the
callback also destroys the connection: the host name, the bind DN and the
decoded credential are released. When linger was cancelled before and no
deletion was asked for, the world is left unchanged. Without
delete_after_linger the three strings are kept, so the connection can be used
again. -/
theorem linger_timeout_effect (w : World) :
    (w.conn.linger_active = true → w.conn.delete_after_linger = false →
      linger_timeout w = windows_conn_disconnect
        { w with conn := { w.conn with linger_active := false, linger_event := none } } ∧
      (linger_timeout w).conn =
        { (windows_conn_disconnect w).conn with
          linger_active := false, linger_event := none }) ∧
    (w.conn.linger_active = true → w.conn.delete_after_linger = true →
      (linger_timeout w).conn =
        { (windows_conn_disconnect w).conn with
          linger_active := false, linger_event := none,
          hostname := none, binddn := none, plain := none }) ∧
    (w.conn.linger_active = false → w.conn.delete_after_linger = false →
      linger_timeout w = w) ∧
    (w.conn.linger_active = false → w.conn.delete_after_linger = true →
      linger_timeout w = windows_conn_delete_internal w) ∧
    (w.conn.delete_after_linger = false →
      (linger_timeout w).conn.hostname = w.conn.hostname ∧
      (linger_timeout w).conn.binddn = w.conn.binddn ∧
      (linger_timeout w).conn.plain = w.conn.plain) ∧
    (w.conn.delete_after_linger = true →
      (linger_timeout w).conn.hostname = none ∧ (linger_timeout w).conn.binddn = none ∧
      (linger_timeout w).conn.plain = none ∧
      (linger_timeout w).conn.state = STATE_DISCONNECTED ∧ (linger_timeout w).conn.ld = none) := by
  refine ⟨?_, ?_, ?_, ?_, ?_, ?_⟩
  · intro h1 h2
    refine ⟨?_, ?_⟩
    · simp [linger_timeout, h1, h2, windows_conn_disconnect, close_connection_internal_conn]
    · simp [linger_timeout, h1, h2, windows_conn_disconnect, close_connection_internal_conn]
  · intro h1 h2
    simp [linger_timeout, h1, h2, windows_conn_delete_internal, windows_conn_disconnect,
      close_connection_internal_conn]
  · intro h1 h2
    simp [linger_timeout, h1, h2]
  · intro h1 h2
    simp [linger_timeout, h1, h2]
  · intro h2
    cases h1 : w.conn.linger_active <;>
    simp [linger_timeout, h1, h2, close_connection_internal_conn]
  · intro h2
    cases h1 : w.conn.linger_active <;>
    simp [linger_timeout, h1, h2, windows_conn_delete_internal, close_connection_internal_conn]

/-- The lingering sample connection when its timer fires: disconnected, the
handle unbound, its configuration kept. -/
theorem linger_timeout_effect_witness :
    linger_timeout sample_lingering = windows_conn_disconnect
      { sample_lingering with conn := { sample_lingering.conn with
          linger_active := false, linger_event := none } } ∧
    (linger_timeout sample_lingering).conn =
      { (windows_conn_disconnect sample_lingering).conn with
        linger_active := false, linger_event := none } :=
  (linger_timeout_effect sample_lingering).1 (by decide) (by decide)

/-! ## C25 -/

/-- C25 fails in the code: windows_conn_delete on a connection with no linger
active returns the world unchanged; the transport stays open, the state stays
as it was and no string is released, because `destroy_it` is set only inside
the test of `linger_active`. With linger active, a timer found in the queue is
cancelled and the connection is torn down at once; only when the timer is not
found (it is being fired) the teardown is left to the callback by setting
delete_after_linger. -/
theorem delete_without_linger_keeps (w : World) (cancel_rc : Int) :
    (w.conn.linger_active = false → windows_conn_delete w cancel_rc = w) ∧
    (w.conn.linger_active = true → cancel_rc = 1 →
      windows_conn_delete w cancel_rc = windows_conn_delete_internal
        (w.call (ExtCall.slapi_eq_cancel_rel w.conn.linger_event))) ∧
    (w.conn.linger_active = true → cancel_rc ≠ 1 →
      (windows_conn_delete w cancel_rc).conn = { w.conn with delete_after_linger := true } ∧
      (windows_conn_delete w cancel_rc).calls =
        w.calls ++ [ExtCall.slapi_eq_cancel_rel w.conn.linger_event]) := by
  refine ⟨?_, ?_, ?_⟩
  · intro h
    simp [windows_conn_delete, h]
  · intro h1 h2
    simp [windows_conn_delete, h1, h2]
  · intro h1 h2
    simp [windows_conn_delete, h1, h2, World.call]

/-- The connected sample connection with no linger: after windows_conn_delete
it is still connected and holds its transport handle and its strings. -/
theorem delete_without_linger_keeps_witness :
    windows_conn_delete sample_connected 0 = sample_connected ∧
    sample_connected.conn.state = STATE_CONNECTED ∧
    sample_connected.conn.ld = some ⟨7⟩ ∧
    sample_connected.conn.hostname = some "ad.example.com" :=
  ⟨(delete_without_linger_keeps sample_connected 0).1 (by decide), by decide, by decide,
    by decide⟩

/-! ## The configuration through connect -/

/-- The dirsync probe leaves the configuration as it is. -/
theorem config_fields_supports_dirsync (K : Headers) (w : World) (use_ds : Bool)
    (reply : SearchReply) :
    config_fields (windows_conn_replica_supports_dirsync K w use_ds reply).1.conn =
      config_fields w.conn := by
  unfold windows_conn_replica_supports_dirsync
  simp only []
  split_ifs <;>
  first
  | rfl
  | (simp only [windows_conn_disconnect, close_connection_internal_conn]; rfl)

/-- The Win2k3 probe leaves the configuration as it is. -/
theorem config_fields_is_win2k3 (K : Headers) (w : World) (reply : SearchReply) :
    config_fields (windows_conn_replica_is_win2k3 K w reply).1.conn = config_fields w.conn := by
  unfold windows_conn_replica_is_win2k3
  simp only []
  split_ifs <;>
  first
  | rfl
  | (simp only [windows_conn_disconnect, close_connection_internal_conn]; rfl)

/-- The bind leaves the configuration as it is. -/
theorem config_fields_bind (K : Headers) (w : World) (binddn password : Option String)
    (rc : Int) :
    config_fields (bind_and_check_pwp K w binddn password rc).1.conn = config_fields w.conn := by
  unfold bind_and_check_pwp
  simp only []
  split_ifs <;> rfl

/-- The end of connect leaves the configuration as it is. -/
theorem config_fields_connect_bind (K : Headers) (w : World) (binddn : Option String)
    (env : ConnectEnv) :
    config_fields (connect_bind K w binddn env).1.conn = config_fields w.conn := by
  have hb := config_fields_bind K w binddn w.conn.plain env.bind_rc
  unfold connect_bind
  generalize bind_and_check_pwp K w binddn w.conn.plain env.bind_rc = b at hb
  have hclose : ∀ x : World, config_fields (close_connection_internal x).conn =
      config_fields x.conn := by
    intro x
    rw [close_connection_internal_conn]
    rfl
  have hcall : ∀ (x : World) (c : ExtCall), config_fields (x.call c).conn =
      config_fields x.conn := fun _ _ => rfl
  by_cases h1 : b.2 = CONN_OPERATION_FAILED <;>
  simp only [h1, if_true, if_false, hclose, hcall] <;>
  first
  | (rw [config_fields_is_win2k3, hcall, config_fields_supports_dirsync]
     exact hb)
  | (show config_fields (windows_conn_replica_is_win2k3 K _ _).1.conn = _
     rw [config_fields_is_win2k3, hcall, config_fields_supports_dirsync]
     exact hb)

/-- The configuration after a connect that starts from a state other than
connected: what the refresh left, with the credential decoded when there was
none. -/
theorem config_fields_connect (K : Headers) (w : World) (env : ConnectEnv)
    (hs : w.conn.state ≠ STATE_CONNECTED) :
    config_fields (windows_conn_connect K w env).1.conn =
      config_fields { (connect_refresh w env).conn with
        plain := if (connect_refresh w env).conn.plain = none ∧ env.pw_ret ≠ -1 then env.plain
                 else (connect_refresh w env).conn.plain } := by
  unfold windows_conn_connect
  generalize connect_refresh w env = w0
  by_cases c2 : w0.conn.plain = none <;>
  by_cases c3 : env.pw_ret = -1 <;>
  by_cases c4 : connect_secure K w0.conn.transport_flags > 0 <;>
  by_cases c5 : env.nss_initialized = false <;>
  by_cases c6 : env.new_ld = none <;>
  simp [hs, c2, c3, c4, c5, c6, World.call] <;>
  first
  | (simp [config_fields, c2]; done)
  | (rw [config_fields_connect_bind]; simp [config_fields, c2])

/-! ## C26 -/

/-- C26: windows_conn_set_agmt_changed logs no call and changes no field but
the agreement-changed flag, which it sets to 1 when the connection has an
agreement. The change is lazy: a windows_conn_connect on a connection that is
Connected returns success and leaves the world, flag and configuration
included, as it is. A windows_conn_connect that starts from any other state
with the flag set ends, whatever its outcome, with bind DN, bind method,
transport flags and timeout as the agreement gives them, with the flag
cleared, with host and port unchanged, and with the credential the decoding
gives (none when the decoding fails) in place of the cached one; with the flag
clear it keeps bind DN, bind method, transport flags and timeout. -/
theorem agmt_changed_lazy (K : Headers) (w : World) (env : ConnectEnv) :
    (windows_conn_set_agmt_changed w).calls = w.calls ∧
    (windows_conn_set_agmt_changed w).conn =
      { w.conn with flag_agmt_changed := if w.conn.agmt ≠ none then 1
                                         else w.conn.flag_agmt_changed } ∧
    (w.conn.state = STATE_CONNECTED →
      windows_conn_connect K (windows_conn_set_agmt_changed w) env =
        (windows_conn_set_agmt_changed w, CONN_OPERATION_SUCCESS)) ∧
    (w.conn.state ≠ STATE_CONNECTED → w.conn.flag_agmt_changed ≠ 0 →
      config_fields (windows_conn_connect K w env).1.conn =
        (w.conn.hostname, w.conn.port, env.agmt.binddn, env.agmt.bindmethod,
          env.agmt.transport_flags,
          { tv_sec := env.agmt.timeout, tv_usec := w.conn.timeout.tv_usec }, 0,
          if env.pw_ret ≠ -1 then env.plain else none)) ∧
    (w.conn.state ≠ STATE_CONNECTED → w.conn.agmt ≠ none →
      config_fields (windows_conn_connect K (windows_conn_set_agmt_changed w) env).1.conn =
        (w.conn.hostname, w.conn.port, env.agmt.binddn, env.agmt.bindmethod,
          env.agmt.transport_flags,
          { tv_sec := env.agmt.timeout, tv_usec := w.conn.timeout.tv_usec }, 0,
          if env.pw_ret ≠ -1 then env.plain else none)) ∧
    (w.conn.state ≠ STATE_CONNECTED → w.conn.flag_agmt_changed = 0 →
      (windows_conn_connect K w env).1.conn.binddn = w.conn.binddn ∧
      (windows_conn_connect K w env).1.conn.bindmethod = w.conn.bindmethod ∧
      (windows_conn_connect K w env).1.conn.transport_flags = w.conn.transport_flags ∧
      (windows_conn_connect K w env).1.conn.timeout = w.conn.timeout) := by
  have hflag : w.conn.state ≠ STATE_CONNECTED → w.conn.flag_agmt_changed ≠ 0 →
      config_fields (windows_conn_connect K w env).1.conn =
        (w.conn.hostname, w.conn.port, env.agmt.binddn, env.agmt.bindmethod,
          env.agmt.transport_flags,
          { tv_sec := env.agmt.timeout, tv_usec := w.conn.timeout.tv_usec }, 0,
          if env.pw_ret ≠ -1 then env.plain else none) := by
    intro hs hf
    rw [config_fields_connect K w env hs]
    simp [connect_refresh, hf, config_fields]
  refine ⟨?_, ?_, ?_, hflag, ?_, ?_⟩
  · unfold windows_conn_set_agmt_changed
    split_ifs <;> rfl
  · unfold windows_conn_set_agmt_changed
    split_ifs with h <;> simp [h]
  · intro hs
    have : (windows_conn_set_agmt_changed w).conn.state = STATE_CONNECTED := by
      unfold windows_conn_set_agmt_changed
      split_ifs <;> exact hs
    simp [windows_conn_connect, this]
  · intro hs ha
    have hc : (windows_conn_set_agmt_changed w).conn =
        { w.conn with flag_agmt_changed := 1 } := by
      simp [windows_conn_set_agmt_changed, ha]
    have hs2 : (windows_conn_set_agmt_changed w).conn.state ≠ STATE_CONNECTED := by
      rw [hc]; exact hs
    rw [config_fields_connect K _ env hs2]
    simp [connect_refresh, hc, config_fields]
  · intro hs hf
    have := config_fields_connect K w env hs
    simp only [connect_refresh, hf, ne_eq, not_true_eq_false, if_false, config_fields,
      Prod.mk.injEq] at this
    exact ⟨this.2.2.1, this.2.2.2.1, this.2.2.2.2.1, this.2.2.2.2.2.1⟩

/-- The fresh sample connection, flagged and then connected through the changed
agreement: the new bind DN and timeout, the old host and port, the flag
cleared. -/
theorem agmt_changed_lazy_witness :
    config_fields (windows_conn_connect openldap (windows_conn_set_agmt_changed sample_world)
      sample_changed_env).1.conn =
      (some "ad.example.com", 389, some "cn=winsync,dc=example,dc=com", 0, 0,
        { tv_sec := 30, tv_usec := 0 }, 0, some "secret") ∧
    windows_conn_connect openldap (windows_conn_set_agmt_changed sample_connected)
      sample_changed_env = (windows_conn_set_agmt_changed sample_connected,
        CONN_OPERATION_SUCCESS) :=
  ⟨(agmt_changed_lazy openldap sample_world sample_changed_env).2.2.2.2.1 (by decide)
      (by decide),
    (agmt_changed_lazy openldap sample_connected sample_changed_env).2.2.1 (by decide)⟩

/-! ## C28 -/

/-- C28 fails as stated for a flag that is still unknown: on the sample
connection connected to the busy peer, whose dirsync flag is -1,
send_dirsync_search sends the search with the dirsync control attached. -/
theorem dirsync_control_unknown_flag :
    windows_conn_connected sample_unprobed.conn = true ∧
    sample_unprobed.conn.supports_dirsync = -1 ∧
    (send_dirsync_search openldap sample_unprobed 0).1.calls =
      sample_unprobed.calls ++ [ExtCall.ldap_search_ext (some ⟨7⟩) true] := by
  decide

/-- C28 as amended: on a Connected connection send_dirsync_search issues
exactly one search request, and the request carries the dirsync control
exactly when the cached dirsync flag is not 0: with the flag 1 (supported) and
with the flag -1 (unknown) the control is attached, with the flag 0
(unsupported) it is not. On a connection that is not Connected no request is
made. -/
theorem dirsync_control_unless_unsupported (K : Headers) (w : World) (rc : Int) :
    (windows_conn_connected w.conn = true →
      ∃ rest, (send_dirsync_search K w rc).1.calls =
          w.calls ++ ExtCall.ldap_search_ext w.conn.ld
            (if w.conn.supports_dirsync = 0 then false else true) :: rest ∧
        ∀ c ∈ rest, ∀ ld b, c ≠ ExtCall.ldap_search_ext ld b) ∧
    (windows_conn_connected w.conn = false → send_dirsync_search K w rc = (w, CONN_NOT_CONNECTED)) := by
  constructor
  · intro h
    unfold send_dirsync_search
    simp only [h, if_true]
    by_cases h1 : K.LDAP_SUCCESS = rc
    · exact ⟨[], by simp [h1, World.call], by simp⟩
    · by_cases h2 : IS_DISCONNECT_ERROR K rc = true
      · simp only [h1, h2, if_true, if_false, windows_conn_disconnect, close_connection_internal,
          World.set_error, World.call]
        cases hl : w.conn.ld with
        | none => exact ⟨[], by simp, by simp⟩
        | some ld => exact ⟨[ExtCall.slapi_ldap_unbind ld], by simp, by simp⟩
      · exact ⟨[], by simp [h1, h2, World.call, World.set_error, World.set_status], by simp⟩
  · intro h
    simp [send_dirsync_search, h]

/-- The connected sample connection, whose peer advertises dirsync: the search
goes out with the control. -/
theorem dirsync_control_unless_unsupported_witness :
    ∃ rest, (send_dirsync_search openldap sample_connected 0).1.calls =
        sample_connected.calls ++ ExtCall.ldap_search_ext sample_connected.conn.ld
          (if sample_connected.conn.supports_dirsync = 0 then false else true) :: rest ∧
      ∀ c ∈ rest, ∀ ld b, c ≠ ExtCall.ldap_search_ext ld b :=
  (dirsync_control_unless_unsupported openldap sample_connected 0).1 (by decide)

/-! ## What a failing call records -/

/-- A write operation on a connected connection records its operation type. -/
theorem perform_records_operation (K : Headers) (w : World) (optype : Int) (r : Request)
    (peer : OpReply) (hc : windows_conn_connected w.conn = true) :
    (windows_perform_operation K w optype r peer).1.conn.last_operation = optype := by
  have hs : ∀ x : World, (send_request x optype r peer).1.conn.last_operation =
      x.conn.last_operation := by
    intro x
    unfold send_request
    split_ifs <;> rfl
  have hk : ∀ x : World, (classify_result K x optype peer).1.conn.last_operation =
      x.conn.last_operation := by
    intro x
    unfold classify_result
    simp only []
    split_ifs <;>
    simp only [windows_conn_disconnect, close_connection_internal_conn, World.set_status,
      World.set_error, World.call]
  have h0 := hs { w with conn := { w.conn with last_operation := optype } }
  unfold windows_perform_operation
  simp only [hc, if_true]
  generalize send_request { w with conn := { w.conn with last_operation := optype } }
    optype r peer = sent at h0
  have h1 : sent.1.conn.last_operation = optype := h0
  split_ifs <;>
  first
  | (rw [hk]; exact h1)
  | (simp only [windows_conn_disconnect, close_connection_internal_conn, World.set_status,
      World.set_error, World.call]; exact h1)

/-- The value the request call of a write operation returns. -/
theorem send_request_rc (w : World) (optype : Int) (r : Request) (peer : OpReply)
    (ho : optype ∈ write_optypes) : (send_request w optype r peer).2 = peer.send_rc := by
  unfold send_request
  split_ifs <;>
  first
  | rfl
  | (simp_all [write_optypes])

/-- The error a write operation records when the request cannot be sent, when
the result does not come in time, and when reading the result fails. -/
theorem perform_records_error (K : Headers) (w : World) (optype : Int) (r : Request)
    (peer : OpReply) (hc : windows_conn_connected w.conn = true)
    (ho : optype ∈ write_optypes) :
    (peer.send_rc ≠ K.LDAP_SUCCESS →
      (windows_perform_operation K w optype r peer).2 ≠ CONN_OPERATION_SUCCESS ∧
      (windows_perform_operation K w optype r peer).1.conn.last_ldap_error = peer.send_rc) ∧
    (peer.send_rc = K.LDAP_SUCCESS → peer.result_rc = 0 →
      (windows_perform_operation K w optype r peer).2 = CONN_TIMEOUT ∧
      (windows_perform_operation K w optype r peer).1.conn.last_ldap_error = K.LDAP_TIMEOUT) ∧
    (peer.send_rc = K.LDAP_SUCCESS → peer.result_rc = -1 →
      (windows_perform_operation K w optype r peer).2 ≠ CONN_OPERATION_SUCCESS ∧
      (windows_perform_operation K w optype r peer).1.conn.last_ldap_error = peer.lderrno) := by
  have hrc := send_request_rc { w with conn := { w.conn with last_operation := optype } }
    optype r peer ho
  unfold windows_perform_operation
  simp only [hc, if_true]
  generalize send_request { w with conn := { w.conn with last_operation := optype } }
    optype r peer = sent at hrc
  obtain ⟨sw, src⟩ := sent
  dsimp only at hrc ⊢
  subst hrc
  refine ⟨?_, ?_, ?_⟩
  · intro h
    have h2 : ¬ K.LDAP_SUCCESS = peer.send_rc := fun e => h e.symm
    by_cases hd : IS_DISCONNECT_ERROR K peer.send_rc = true <;>
    simp [h2, hd, windows_conn_disconnect, close_connection_internal_conn, World.set_error,
      World.set_status]
  · intro h h0
    simp [h, h0, World.set_error, World.call]
  · intro h h0
    by_cases hd : IS_DISCONNECT_ERROR K peer.lderrno = true <;>
    simp [h, h0, hd, windows_conn_disconnect, close_connection_internal_conn, World.set_error,
      World.set_status, World.call]

/-- A write operation whose result was read and that does not return success
records the return value of the parse when it is disconnect-worthy, else the
result code when that is disconnect-worthy, else the return value of the parse
unless it is success, else the result code. -/
theorem perform_records_result (K : Headers) (w : World) (optype : Int) (r : Request)
    (peer : OpReply) (hc : windows_conn_connected w.conn = true)
    (ho : optype ∈ write_optypes) (hsent : peer.send_rc = K.LDAP_SUCCESS)
    (h0 : peer.result_rc ≠ 0) (h1 : peer.result_rc ≠ -1)
    (hfail : (windows_perform_operation K w optype r peer).2 ≠ CONN_OPERATION_SUCCESS) :
    (windows_perform_operation K w optype r peer).1.conn.last_ldap_error =
      if IS_DISCONNECT_ERROR K peer.parse_rc then peer.parse_rc
      else if IS_DISCONNECT_ERROR K peer.err then peer.err
      else if K.LDAP_SUCCESS ≠ peer.parse_rc then peer.parse_rc
      else peer.err := by
  have hrc := send_request_rc { w with conn := { w.conn with last_operation := optype } }
    optype r peer ho
  unfold windows_perform_operation at hfail ⊢
  simp only [hc, if_true] at hfail ⊢
  generalize send_request { w with conn := { w.conn with last_operation := optype } }
    optype r peer = sent at hrc hfail
  obtain ⟨sw, src⟩ := sent
  dsimp only at hrc hfail ⊢
  subst hrc
  have h2 : K.LDAP_SUCCESS = peer.send_rc := hsent.symm
  have h0' : ¬ 0 = peer.result_rc := fun e => h0 e.symm
  have h1' : ¬ -1 = peer.result_rc := fun e => h1 e.symm
  simp only [h2, h0', h1', if_true, if_false] at hfail ⊢
  unfold classify_result at hfail ⊢
  simp only [] at hfail ⊢
  by_cases d1 : IS_DISCONNECT_ERROR K peer.parse_rc = true
  · simp [d1, windows_conn_disconnect, close_connection_internal_conn, World.set_error,
      World.set_status]
  · by_cases d2 : IS_DISCONNECT_ERROR K peer.err = true
    · simp [d1, d2, windows_conn_disconnect, close_connection_internal_conn, World.set_error,
        World.set_status]
    · simp only [d1, d2, if_false, Bool.false_eq_true] at hfail ⊢
      split_ifs at hfail ⊢ <;>
      first
      | (exact absurd rfl hfail)
      | simp_all [World.set_error, World.set_status, World.call]

/-- The refresh at the start of connect leaves the last operation and the last
error as they are. -/
theorem connect_refresh_error (w : World) (env : ConnectEnv) :
    (connect_refresh w env).conn.last_operation = w.conn.last_operation ∧
    (connect_refresh w env).conn.last_ldap_error = w.conn.last_ldap_error := by
  unfold connect_refresh
  split_ifs <;> exact ⟨rfl, rfl⟩

/-- What the failing ways out of connect record: a credential that cannot be
decoded records LDAP_INVALID_CREDENTIALS and leaves the last operation as it
was (lines 1198-1200 assign `last_ldap_error` alone, while the comment above
the function says that both are set, as the other ways out do); a secure
transport without NSS records CONN_INIT and
LDAP_INAPPROPRIATE_AUTH; a transport that cannot be opened records CONN_INIT
and LDAP_LOCAL_ERROR; a refused bind records CONN_BIND and the error number of
the bind. -/
theorem connect_records (K : Headers) (w : World) (env : ConnectEnv)
    (hs : w.conn.state ≠ STATE_CONNECTED) :
    ((connect_refresh w env).conn.plain = none → env.pw_ret = -1 →
      (windows_conn_connect K w env).2 = CONN_OPERATION_FAILED ∧
      windows_conn_get_error (windows_conn_connect K w env).1.conn =
        (w.conn.last_operation, K.LDAP_INVALID_CREDENTIALS)) ∧
    (¬ ((connect_refresh w env).conn.plain = none ∧ env.pw_ret = -1) →
      connect_secure K (connect_refresh w env).conn.transport_flags > 0 →
      env.nss_initialized = false →
      (windows_conn_connect K w env).2 = CONN_SSL_NOT_ENABLED ∧
      windows_conn_get_error (windows_conn_connect K w env).1.conn =
        (CONN_INIT, K.LDAP_INAPPROPRIATE_AUTH)) ∧
    (¬ ((connect_refresh w env).conn.plain = none ∧ env.pw_ret = -1) →
      ¬ (connect_secure K (connect_refresh w env).conn.transport_flags > 0 ∧
        env.nss_initialized = false) →
      env.new_ld = none →
      (windows_conn_connect K w env).2 = CONN_OPERATION_FAILED ∧
      windows_conn_get_error (windows_conn_connect K w env).1.conn =
        (CONN_INIT, K.LDAP_LOCAL_ERROR)) ∧
    (¬ ((connect_refresh w env).conn.plain = none ∧ env.pw_ret = -1) →
      ¬ (connect_secure K (connect_refresh w env).conn.transport_flags > 0 ∧
        env.nss_initialized = false) →
      env.new_ld ≠ none → env.bind_rc ≠ K.LDAP_SUCCESS →
      (windows_conn_connect K w env).2 = CONN_OPERATION_FAILED ∧
      windows_conn_get_error (windows_conn_connect K w env).1.conn =
        (CONN_BIND, env.lderrno)) := by
  have hr := connect_refresh_error w env
  unfold windows_conn_connect
  generalize connect_refresh w env = w0 at hr
  have hne : STATE_CONNECTED ≠ STATE_DISCONNECTED := by decide
  refine ⟨?_, ?_, ?_, ?_⟩
  · intro c2 c3
    simp [hs, c2, c3, World.call, windows_conn_get_error, hr.1]
  · intro c23 c4 c5
    by_cases c2 : w0.conn.plain = none
    · have c3 : ¬ env.pw_ret = -1 := fun h => c23 ⟨c2, h⟩
      simp [hs, c2, c3, c4, c5, World.call, windows_conn_get_error]
    · simp [hs, c2, c4, c5, World.call, windows_conn_get_error]
  · intro c23 c45 c6
    have c5 : connect_secure K w0.conn.transport_flags > 0 → env.nss_initialized = true := by
      intro h
      cases hn : env.nss_initialized with
      | true => rfl
      | false => exact absurd ⟨h, hn⟩ c45
    by_cases c4 : connect_secure K w0.conn.transport_flags > 0 <;>
    by_cases c2 : w0.conn.plain = none
    · have c3 : ¬ env.pw_ret = -1 := fun h => c23 ⟨c2, h⟩
      simp [hs, c2, c3, c4, c5 c4, c6, World.call, windows_conn_get_error]
    · simp [hs, c2, c4, c5 c4, c6, World.call, windows_conn_get_error]
    · have c3 : ¬ env.pw_ret = -1 := fun h => c23 ⟨c2, h⟩
      simp [hs, c2, c3, c4, c6, World.call, windows_conn_get_error]
    · simp [hs, c2, c4, c6, World.call, windows_conn_get_error]
  · intro c23 c45 c6 c7
    have c5 : connect_secure K w0.conn.transport_flags > 0 → env.nss_initialized = true := by
      intro h
      cases hn : env.nss_initialized with
      | true => rfl
      | false => exact absurd ⟨h, hn⟩ c45
    have hb : ∀ x : World, ∀ b : Option String,
        (connect_bind K x b env).2 = CONN_OPERATION_FAILED ∧
        windows_conn_get_error (connect_bind K x b env).1.conn =
          (x.conn.last_operation, env.lderrno) := by
      intro x b
      cases hu : env.use_ds <;>
      by_cases he : x.conn.last_ldap_error = env.bind_rc <;>
      simp [connect_bind, bind_and_check_pwp, c7, hu, he, World.set_error, World.call,
        windows_conn_replica_supports_dirsync, windows_conn_replica_is_win2k3,
        windows_conn_connected, hne, close_connection_internal_conn, windows_conn_get_error]
    by_cases c4 : connect_secure K w0.conn.transport_flags > 0 <;>
    by_cases c2 : w0.conn.plain = none
    · have c3 : ¬ env.pw_ret = -1 := fun h => c23 ⟨c2, h⟩
      simp only [hs, c2, c3, c4, c5 c4, c6, World.call, if_true, if_false, and_false, and_true,
        Bool.not_true, Bool.false_eq_true, Bool.true_eq_false, Bool.not_false, not_false_eq_true]
      exact hb _ _
    · simp only [hs, c2, c4, c5 c4, c6, World.call, if_true, if_false, and_false, and_true,
        Bool.not_true, Bool.false_eq_true, Bool.true_eq_false, Bool.not_false, not_false_eq_true]
      exact hb _ _
    · have c3 : ¬ env.pw_ret = -1 := fun h => c23 ⟨c2, h⟩
      simp only [hs, c2, c3, c4, c6, World.call, if_true, if_false, and_false, and_true,
        false_and, Bool.not_true, Bool.false_eq_true, Bool.not_false, not_false_eq_true]
      exact hb _ _
    · simp only [hs, c2, c4, c6, World.call, if_true, if_false, and_false, and_true, false_and,
        Bool.not_true, Bool.false_eq_true, Bool.not_false, not_false_eq_true]
      exact hb _ _

/-- A search of one entry that returns without success, in whatever round: the
answers before the failing one were successes, the failing answer is not, the
return value is not-connected for a disconnect-worthy code and failed for any
other, the last error is the return value of the failing search, and the last
operation is as it was. -/
theorem search_next_failure_records (K : Headers) (sb : Option String)
    (replies : List EntrySearchReply) (w : World) (attrs : Option (List String))
    (entry : Option Slapi_Entry) (w2 : World) (e : Option Slapi_Entry) (r : ConnResult)
    (h : search_entry_next K sb replies w attrs entry = some (w2, e, r))
    (hr : r ≠ CONN_OPERATION_SUCCESS) :
    ∃ pre reply rest, replies = pre ++ reply :: rest ∧
      (∀ p ∈ pre, p.rc = K.LDAP_SUCCESS) ∧ reply.rc ≠ K.LDAP_SUCCESS ∧
      r = (if IS_DISCONNECT_ERROR K reply.rc then CONN_NOT_CONNECTED
           else CONN_OPERATION_FAILED) ∧
      windows_conn_get_error w2.conn = (w.conn.last_operation, reply.rc) := by
  induction replies generalizing w attrs entry with
  | nil => simp [search_entry_next] at h
  | cons reply rest ih =>
    unfold search_entry_next at h
    simp only [] at h
    by_cases h1 : K.LDAP_SUCCESS = reply.rc
    · simp only [h1, if_true] at h
      cases hm : windows_LDAPMessage2Entry K entry reply.message 0 (some none) with
      | none => simp [hm] at h
      | some m =>
        simp only [hm] at h
        cases hx : m.exattrs with
        | none =>
          simp only [hx, Option.some.injEq, Prod.mk.injEq] at h
          exact absurd h.2.2.symm hr
        | some arr =>
          cases arr with
          | none =>
            simp only [hx, Option.some.injEq, Prod.mk.injEq] at h
            exact absurd h.2.2.symm hr
          | some l =>
            simp only [hx] at h
            obtain ⟨pre, f, rest2, e1, e2, e3, e4, e5⟩ := ih _ _ _ h
            refine ⟨reply :: pre, f, rest2, by rw [e1]; rfl, ?_, e3, e4, e5⟩
            intro p hp
            rcases List.mem_cons.mp hp with hp | hp
            · rw [hp]; exact h1.symm
            · exact e2 p hp
    · have h3 : reply.rc ≠ K.LDAP_SUCCESS := fun x => h1 x.symm
      by_cases h2 : IS_DISCONNECT_ERROR K reply.rc = true
      · simp only [h1, h2, if_true, if_false, Option.some.injEq, Prod.mk.injEq] at h
        refine ⟨[], reply, rest, rfl, by simp, h3, by rw [← h.2.2, h2]; rfl, ?_⟩
        rw [← h.1]
        simp [windows_conn_get_error, World.set_error, windows_conn_disconnect,
          close_connection_internal_conn, World.call]
      · simp only [h1, h2, if_false, Option.some.injEq, Prod.mk.injEq, Bool.false_eq_true] at h
        refine ⟨[], reply, rest, rfl, by simp, h3, ?_, ?_⟩
        · rw [← h.2.2]
          simp [h2]
        · rw [← h.1]
          simp [windows_conn_get_error, World.set_error, World.call]

/-- The loop from the label `next` on, over bounded rounds followed by a search
that fails: the function returns after one search for each round and the
failing one, with the entry as the rounds left it, with not-connected and the
connection closed for a disconnect-worthy code and failed for any other, and
with the return value of the failing search as the last error. -/
theorem search_next_fails_after_rounds (K : Headers) (sb : Option String) (base : List Char)
    (fail : EntrySearchReply) (rest : List EntrySearchReply)
    (hbase : base ≠ [] ∧ ';' ∉ base) (hfail : fail.rc ≠ K.LDAP_SUCCESS)
    (rounds : List RangeRound) (w : World)
    (attrs : Option (List String)) (entry : Option Slapi_Entry)
    (hrounds : ∀ r ∈ rounds, r.bounded K base) :
    ∃ ent, search_entry_next K sb
        (rounds.map (fun r => r.reply K (ranged_name base r.low r.high)) ++ fail :: rest)
        w attrs entry =
        some ((if IS_DISCONNECT_ERROR K fail.rc then
            windows_conn_disconnect
              { w with calls := w.calls ++ drain_calls w.conn.ld sb base attrs rounds }
          else
            { w with calls := w.calls ++ drain_calls w.conn.ld sb base attrs rounds }).set_error
              fail.rc, ent,
          if IS_DISCONNECT_ERROR K fail.rc then CONN_NOT_CONNECTED
          else CONN_OPERATION_FAILED) ∧
      held_values ent (String.mk base) =
        held_values entry (String.mk base) ++ (rounds.map (fun r => r.vals)).flatten ∧
      (rounds = [] → ent = entry) ∧ (rounds ≠ [] ∨ entry ≠ none → ent ≠ none) := by
  have hf2 : ¬ K.LDAP_SUCCESS = fail.rc := fun x => hfail x.symm
  induction rounds generalizing w attrs entry with
  | nil =>
    refine ⟨entry, ?_, by simp, fun _ => rfl, fun x => x.elim (fun y => absurd rfl y) id⟩
    by_cases hd : IS_DISCONNECT_ERROR K fail.rc = true
    · simp [search_entry_next, hf2, hd, drain_calls, World.call]
    · simp [search_entry_next, hf2, hd, drain_calls, World.call]
  | cons r rs ih =>
    obtain ⟨m, ent1, hm, hex, hent, hv⟩ :=
      m2e_round_bounded K entry base r hbase (hrounds r (by simp))
    obtain ⟨ent, h, hv2, _, hne⟩ := ih (w.call (ExtCall.ldap_search_ext_s w.conn.ld sb attrs))
      (some [r.continuation base]) (some ent1) (fun x hx => hrounds x (by simp [hx]))
    refine ⟨ent, ?_, ?_, fun x => (by cases x), fun _ => hne (Or.inr (by simp))⟩
    · simp only [List.map_cons, List.cons_append, search_entry_next, RangeRound.reply, if_true,
        hm, hex, hent, List.append_eq]
      simp only [RangeRound.reply] at h
      rw [h]
      simp [World.call, drain_calls]
    · rw [hv2]
      simp only [held_values, hv, List.map_cons, List.flatten_cons, List.append_assoc]

/-- What a failing incremental search records: CONN_SEARCH and the return
value of the search request. -/
theorem dirsync_search_records (K : Headers) (w : World) (rc : Int)
    (hc : windows_conn_connected w.conn = true) (hf : rc ≠ K.LDAP_SUCCESS) :
    (send_dirsync_search K w rc).2 ≠ CONN_OPERATION_SUCCESS ∧
    windows_conn_get_error (send_dirsync_search K w rc).1.conn = (CONN_SEARCH, rc) := by
  have hf2 : ¬ K.LDAP_SUCCESS = rc := fun e => hf e.symm
  by_cases hd : IS_DISCONNECT_ERROR K rc = true <;>
  simp [send_dirsync_search, hc, hf2, hd, windows_conn_get_error, World.set_error,
    World.set_status, World.call, windows_conn_disconnect, close_connection_internal_conn]

/-- What a probe whose search fails records: with a disconnect-worthy code the
code as the last error, with any other code nothing; the last operation is
left as it was. -/
theorem probes_record (K : Headers) (w : World) (reply : SearchReply)
    (hc : windows_conn_connected w.conn = true) (hf : reply.rc ≠ K.LDAP_SUCCESS) :
    (w.conn.supports_ds50_repl = -1 →
      (IS_DISCONNECT_ERROR K reply.rc = true →
        (windows_conn_replica_supports_ds5_repl K w reply).2 = CONN_NOT_CONNECTED ∧
        windows_conn_get_error (windows_conn_replica_supports_ds5_repl K w reply).1.conn =
          (w.conn.last_operation, reply.rc)) ∧
      (IS_DISCONNECT_ERROR K reply.rc = false →
        (windows_conn_replica_supports_ds5_repl K w reply).2 = CONN_OPERATION_FAILED ∧
        windows_conn_get_error (windows_conn_replica_supports_ds5_repl K w reply).1.conn =
          windows_conn_get_error w.conn)) ∧
    (w.conn.supports_dirsync = -1 →
      (IS_DISCONNECT_ERROR K reply.rc = true →
        (windows_conn_replica_supports_dirsync K w false reply).2 = CONN_NOT_CONNECTED ∧
        windows_conn_get_error (windows_conn_replica_supports_dirsync K w false reply).1.conn =
          (w.conn.last_operation, reply.rc)) ∧
      (IS_DISCONNECT_ERROR K reply.rc = false →
        (windows_conn_replica_supports_dirsync K w false reply).2 = CONN_OPERATION_FAILED ∧
        windows_conn_get_error (windows_conn_replica_supports_dirsync K w false reply).1.conn =
          windows_conn_get_error w.conn)) ∧
    (w.conn.is_win2k3 = -1 →
      (IS_DISCONNECT_ERROR K reply.rc = true →
        (windows_conn_replica_is_win2k3 K w reply).2 = CONN_NOT_CONNECTED ∧
        windows_conn_get_error (windows_conn_replica_is_win2k3 K w reply).1.conn =
          (w.conn.last_operation, reply.rc)) ∧
      (IS_DISCONNECT_ERROR K reply.rc = false →
        (windows_conn_replica_is_win2k3 K w reply).2 = CONN_OPERATION_FAILED ∧
        windows_conn_get_error (windows_conn_replica_is_win2k3 K w reply).1.conn =
          windows_conn_get_error w.conn)) := by
  have hf2 : ¬ K.LDAP_SUCCESS = reply.rc := fun e => hf e.symm
  refine ⟨fun hflag => ⟨fun hd => ?_, fun hd => ?_⟩, fun hflag => ⟨fun hd => ?_, fun hd => ?_⟩,
    fun hflag => ⟨fun hd => ?_, fun hd => ?_⟩⟩ <;>
  simp [windows_conn_replica_supports_ds5_repl, windows_conn_replica_supports_dirsync,
    windows_conn_replica_is_win2k3, hc, hflag, hf2, hd, windows_conn_get_error, World.set_error,
    World.set_status, World.call, windows_conn_disconnect, close_connection_internal_conn]

/-- On a connection that is not connected the operations return not-connected
and leave the world, the recorded pair included, as it is. -/
theorem not_connected_records (K : Headers) (w : World) (optype : Int) (r : Request)
    (peer : OpReply) (search : AdSearch) (replies : List EntrySearchReply) (rc : Int)
    (reply : SearchReply) (hc : windows_conn_connected w.conn = false) :
    windows_perform_operation K w optype r peer = (w, CONN_NOT_CONNECTED) ∧
    windows_search_entry_ext K w true search replies = some (w, none, CONN_NOT_CONNECTED) ∧
    send_dirsync_search K w rc = (w, CONN_NOT_CONNECTED) ∧
    windows_conn_replica_supports_ds5_repl K w reply = (w, CONN_NOT_CONNECTED) ∧
    windows_conn_replica_supports_dirsync K w false reply = (w, CONN_NOT_CONNECTED) ∧
    windows_conn_replica_is_win2k3 K w reply = (w, CONN_NOT_CONNECTED) := by
  refine ⟨?_, ?_, ?_, ?_, ?_, ?_⟩ <;>
  simp [windows_perform_operation, windows_search_entry_ext, send_dirsync_search,
    windows_conn_replica_supports_ds5_repl, windows_conn_replica_supports_dirsync,
    windows_conn_replica_is_win2k3, hc]

/-! ## C27 -/

/-- C27 fails as stated. On the connected sample connection, whose recorded
pair is (CONN_BIND, success) since the connect: a DS 5 probe whose search
returns 51 (busy) returns CONN_OPERATION_FAILED and leaves the pair as it was,
so the error is recorded nowhere; and a search of one entry whose search
returns 32 (no such object) returns CONN_OPERATION_FAILED with the pair
(CONN_BIND, 32), whose operation is not the one that failed. -/
theorem probe_failure_unrecorded :
    windows_conn_get_error sample_connected.conn = (CONN_BIND, 0) ∧
    (windows_conn_replica_supports_ds5_repl openldap sample_connected
      { rc := 51, entry := none }).2 = CONN_OPERATION_FAILED ∧
    windows_conn_get_error (windows_conn_replica_supports_ds5_repl openldap sample_connected
      { rc := 51, entry := none }).1.conn = (CONN_BIND, 0) ∧
    (windows_search_entry_ext openldap sample_connected true sample_search
      [{ rc := 32, message := none }]).map
        (fun out => (out.2.2, windows_conn_get_error out.1.conn)) =
      some (CONN_OPERATION_FAILED, (CONN_BIND, 32)) := by
  decide

/-- C27 as amended, outcome by outcome. A write operation on a connected
connection records its operation type, and as last error the return value of
the request when it cannot be sent, LDAP_TIMEOUT when no result comes in time,
the error number when reading the result fails, and the parse return value or
the result code when the result is an error. A connect whose credential is at
hand records (CONN_INIT, LDAP_INAPPROPRIATE_AUTH) without NSS, (CONN_INIT,
LDAP_LOCAL_ERROR) when the transport cannot be opened, and (CONN_BIND, error
number) when the bind is refused. A search of one entry that fails, in the
first round or in a later round of a ranged attribute, records the return
value of the failing search and leaves the last operation as it was; after
bounded rounds it returns with the entry gathered so far. A failing
incremental search records (CONN_SEARCH, return value). A probe whose search
fails records the code, without an operation, only when the code is
disconnect-worthy, and nothing otherwise. A search called without a place for
the entry returns a local error, and an operation on a connection that is not
connected returns not-connected; both record nothing. -/
theorem failure_records (K : Headers) (w : World) (optype : Int) (r : Request)
    (peer : OpReply) (env : ConnectEnv) (search : AdSearch)
    (replies : List EntrySearchReply) (base : List Char) (rounds : List RangeRound)
    (ereply : EntrySearchReply) (rest : List EntrySearchReply) (rc : Int)
    (reply : SearchReply) :
    (windows_conn_connected w.conn = true → optype ∈ write_optypes →
      (windows_perform_operation K w optype r peer).1.conn.last_operation = optype ∧
      (peer.send_rc ≠ K.LDAP_SUCCESS →
        (windows_perform_operation K w optype r peer).2 ≠ CONN_OPERATION_SUCCESS ∧
        (windows_perform_operation K w optype r peer).1.conn.last_ldap_error = peer.send_rc) ∧
      (peer.send_rc = K.LDAP_SUCCESS → peer.result_rc = 0 →
        (windows_perform_operation K w optype r peer).2 = CONN_TIMEOUT ∧
        (windows_perform_operation K w optype r peer).1.conn.last_ldap_error =
          K.LDAP_TIMEOUT) ∧
      (peer.send_rc = K.LDAP_SUCCESS → peer.result_rc = -1 →
        (windows_perform_operation K w optype r peer).2 ≠ CONN_OPERATION_SUCCESS ∧
        (windows_perform_operation K w optype r peer).1.conn.last_ldap_error = peer.lderrno) ∧
      (peer.send_rc = K.LDAP_SUCCESS → peer.result_rc ≠ 0 → peer.result_rc ≠ -1 →
        (windows_perform_operation K w optype r peer).2 ≠ CONN_OPERATION_SUCCESS →
        (windows_perform_operation K w optype r peer).1.conn.last_ldap_error =
          if IS_DISCONNECT_ERROR K peer.parse_rc then peer.parse_rc
          else if IS_DISCONNECT_ERROR K peer.err then peer.err
          else if K.LDAP_SUCCESS ≠ peer.parse_rc then peer.parse_rc
          else peer.err)) ∧
    (w.conn.state ≠ STATE_CONNECTED →
      ¬ ((connect_refresh w env).conn.plain = none ∧ env.pw_ret = -1) →
      (connect_secure K (connect_refresh w env).conn.transport_flags > 0 →
        env.nss_initialized = false →
        (windows_conn_connect K w env).2 = CONN_SSL_NOT_ENABLED ∧
        windows_conn_get_error (windows_conn_connect K w env).1.conn =
          (CONN_INIT, K.LDAP_INAPPROPRIATE_AUTH)) ∧
      (¬ (connect_secure K (connect_refresh w env).conn.transport_flags > 0 ∧
          env.nss_initialized = false) →
        env.new_ld = none →
        (windows_conn_connect K w env).2 = CONN_OPERATION_FAILED ∧
        windows_conn_get_error (windows_conn_connect K w env).1.conn =
          (CONN_INIT, K.LDAP_LOCAL_ERROR)) ∧
      (¬ (connect_secure K (connect_refresh w env).conn.transport_flags > 0 ∧
          env.nss_initialized = false) →
        env.new_ld ≠ none → env.bind_rc ≠ K.LDAP_SUCCESS →
        (windows_conn_connect K w env).2 = CONN_OPERATION_FAILED ∧
        windows_conn_get_error (windows_conn_connect K w env).1.conn =
          (CONN_BIND, env.lderrno))) ∧
    (windows_conn_connected w.conn = true →
      (∀ w2 e res, windows_search_entry_ext K w true search replies = some (w2, e, res) →
        res ≠ CONN_OPERATION_SUCCESS →
        ∃ pre failing after, replies = pre ++ failing :: after ∧
          (∀ p ∈ pre, p.rc = K.LDAP_SUCCESS) ∧ failing.rc ≠ K.LDAP_SUCCESS ∧
          res = (if IS_DISCONNECT_ERROR K failing.rc then CONN_NOT_CONNECTED
                 else CONN_OPERATION_FAILED) ∧
          windows_conn_get_error w2.conn = (w.conn.last_operation, failing.rc)) ∧
      (base ≠ [] ∧ ';' ∉ base → (∀ x ∈ rounds, x.bounded K base) →
        ereply.rc ≠ K.LDAP_SUCCESS →
        ∃ w2 e res, windows_search_entry_ext K w true search
            (rounds.map (fun x => x.reply K (ranged_name base x.low x.high)) ++
              ereply :: rest) = some (w2, e, res) ∧
          res = (if IS_DISCONNECT_ERROR K ereply.rc then CONN_NOT_CONNECTED
                 else CONN_OPERATION_FAILED) ∧
          res ≠ CONN_OPERATION_SUCCESS ∧
          windows_conn_get_error w2.conn = (w.conn.last_operation, ereply.rc) ∧
          w2.searches = w.searches + (rounds.length + 1) ∧
          (rounds = [] → e = none) ∧ (rounds ≠ [] → e ≠ none) ∧
          held_values e (String.mk base) = (rounds.map (fun x => x.vals)).flatten)) ∧
    windows_search_entry_ext K w false search replies = some (w, none, CONN_LOCAL_ERROR) ∧
    (windows_conn_connected w.conn = true → rc ≠ K.LDAP_SUCCESS →
      (send_dirsync_search K w rc).2 ≠ CONN_OPERATION_SUCCESS ∧
      windows_conn_get_error (send_dirsync_search K w rc).1.conn = (CONN_SEARCH, rc)) ∧
    (windows_conn_connected w.conn = true → reply.rc ≠ K.LDAP_SUCCESS →
      (w.conn.supports_ds50_repl = -1 →
        (IS_DISCONNECT_ERROR K reply.rc = true →
          (windows_conn_replica_supports_ds5_repl K w reply).2 = CONN_NOT_CONNECTED ∧
          windows_conn_get_error (windows_conn_replica_supports_ds5_repl K w reply).1.conn =
            (w.conn.last_operation, reply.rc)) ∧
        (IS_DISCONNECT_ERROR K reply.rc = false →
          (windows_conn_replica_supports_ds5_repl K w reply).2 = CONN_OPERATION_FAILED ∧
          windows_conn_get_error (windows_conn_replica_supports_ds5_repl K w reply).1.conn =
            windows_conn_get_error w.conn)) ∧
      (w.conn.supports_dirsync = -1 →
        (IS_DISCONNECT_ERROR K reply.rc = true →
          (windows_conn_replica_supports_dirsync K w false reply).2 = CONN_NOT_CONNECTED ∧
          windows_conn_get_error
              (windows_conn_replica_supports_dirsync K w false reply).1.conn =
            (w.conn.last_operation, reply.rc)) ∧
        (IS_DISCONNECT_ERROR K reply.rc = false →
          (windows_conn_replica_supports_dirsync K w false reply).2 = CONN_OPERATION_FAILED ∧
          windows_conn_get_error
              (windows_conn_replica_supports_dirsync K w false reply).1.conn =
            windows_conn_get_error w.conn)) ∧
      (w.conn.is_win2k3 = -1 →
        (IS_DISCONNECT_ERROR K reply.rc = true →
          (windows_conn_replica_is_win2k3 K w reply).2 = CONN_NOT_CONNECTED ∧
          windows_conn_get_error (windows_conn_replica_is_win2k3 K w reply).1.conn =
            (w.conn.last_operation, reply.rc)) ∧
        (IS_DISCONNECT_ERROR K reply.rc = false →
          (windows_conn_replica_is_win2k3 K w reply).2 = CONN_OPERATION_FAILED ∧
          windows_conn_get_error (windows_conn_replica_is_win2k3 K w reply).1.conn =
            windows_conn_get_error w.conn))) ∧
    (windows_conn_connected w.conn = false →
      windows_perform_operation K w optype r peer = (w, CONN_NOT_CONNECTED) ∧
      windows_search_entry_ext K w true search replies = some (w, none, CONN_NOT_CONNECTED) ∧
      send_dirsync_search K w rc = (w, CONN_NOT_CONNECTED) ∧
      windows_conn_replica_supports_ds5_repl K w reply = (w, CONN_NOT_CONNECTED) ∧
      windows_conn_replica_supports_dirsync K w false reply = (w, CONN_NOT_CONNECTED) ∧
      windows_conn_replica_is_win2k3 K w reply = (w, CONN_NOT_CONNECTED)) := by
  refine ⟨fun hc ho => ?_, fun hs hdec => ?_, fun hc => ⟨?_, ?_⟩, ?_,
    fun hc hf => dirsync_search_records K w rc hc hf,
    fun hc hf => probes_record K w reply hc hf,
    fun hc => not_connected_records K w optype r peer search replies rc reply hc⟩
  · have h := perform_records_error K w optype r peer hc ho
    exact ⟨perform_records_operation K w optype r peer hc, h.1, h.2.1, h.2.2,
      fun h1 h2 h3 h4 => perform_records_result K w optype r peer hc ho h1 h2 h3 h4⟩
  · have h := connect_records K w env hs
    exact ⟨h.2.1 hdec, h.2.2.1 hdec, h.2.2.2 hdec⟩
  · intro w2 e res h hr
    unfold windows_search_entry_ext at h
    simp only [Bool.not_true, Bool.false_eq_true, if_false, hc, if_true] at h
    exact search_next_failure_records K search.searchbase replies w search.attrs none w2 e res
      h hr
  · intro hbase hrounds hfail
    obtain ⟨ent, h, hv, h0, h1⟩ := search_next_fails_after_rounds K search.searchbase base
      ereply rest hbase hfail rounds w search.attrs none hrounds
    refine ⟨(if IS_DISCONNECT_ERROR K ereply.rc then
          windows_conn_disconnect
            { w with calls := w.calls ++
                drain_calls w.conn.ld search.searchbase base search.attrs rounds }
        else
          { w with calls := w.calls ++
              drain_calls w.conn.ld search.searchbase base search.attrs rounds }).set_error
            ereply.rc, ent,
      (if IS_DISCONNECT_ERROR K ereply.rc then CONN_NOT_CONNECTED else CONN_OPERATION_FAILED),
      ?_, rfl, ?_, ?_, ?_, h0, fun x => h1 (Or.inl x), by simpa [held_values] using hv⟩
    · unfold windows_search_entry_ext
      simp only [Bool.not_true, Bool.false_eq_true, if_false, hc, if_true]
      exact h
    · split_ifs <;> decide
    · by_cases hd : IS_DISCONNECT_ERROR K ereply.rc = true <;>
      simp [hd, windows_conn_get_error, World.set_error, windows_conn_disconnect,
        close_connection_internal_conn]
    · have hs : ∀ x : World, (x.set_error ereply.rc).searches = x.searches := fun _ => rfl
      by_cases hd : IS_DISCONNECT_ERROR K ereply.rc = true
      · simp only [hd, if_true, hs, windows_conn_disconnect, searches_close]
        simp [World.searches, List.countP_append, drain_calls_searches]
      · simp only [hd, if_false, hs, Bool.false_eq_true]
        simp [World.searches, List.countP_append, drain_calls_searches]
  · simp [windows_search_entry_ext]

/-- The connected sample connection: a modify that cannot be sent because the
server is down records (CONN_MODIFY, LDAP_SERVER_DOWN); a failing incremental
search records (CONN_SEARCH, 51); and a search of the group entry whose second
search, made for member;range=2-*, returns 32 records 32 with the last
operation left at CONN_BIND, after two searches, and returns the entry with the
two members of the first round. -/
theorem failure_records_witness :
    ((windows_perform_operation openldap sample_connected CONN_MODIFY sample_request
        (reply_unsent (-1))).1.conn.last_operation = CONN_MODIFY ∧
      (windows_perform_operation openldap sample_connected CONN_MODIFY sample_request
        (reply_unsent (-1))).2 ≠ CONN_OPERATION_SUCCESS ∧
      (windows_perform_operation openldap sample_connected CONN_MODIFY sample_request
        (reply_unsent (-1))).1.conn.last_ldap_error = -1) ∧
    ((send_dirsync_search openldap sample_connected 51).2 ≠ CONN_OPERATION_SUCCESS ∧
      windows_conn_get_error (send_dirsync_search openldap sample_connected 51).1.conn =
        (CONN_SEARCH, 51)) ∧
    (∃ w2 e res, windows_search_entry_ext openldap sample_connected true sample_search
        ([sample_round_first].map
            (fun x => x.reply openldap (ranged_name "member".data x.low x.high)) ++
          [{ rc := 32, message := none }]) = some (w2, e, res) ∧
      res = (if IS_DISCONNECT_ERROR openldap 32 then CONN_NOT_CONNECTED
             else CONN_OPERATION_FAILED) ∧
      res ≠ CONN_OPERATION_SUCCESS ∧
      windows_conn_get_error w2.conn = (sample_connected.conn.last_operation, 32) ∧
      w2.searches = sample_connected.searches + (1 + 1) ∧
      ([sample_round_first] = [] → e = none) ∧ ([sample_round_first] ≠ [] → e ≠ none) ∧
      held_values e "member" = ["cn=a", "cn=b"]) :=
  have h := failure_records openldap sample_connected CONN_MODIFY sample_request
    (reply_unsent (-1)) sample_env sample_search [] "member".data [sample_round_first]
    { rc := 32, message := none } [] 51 { rc := 51, entry := none }
  ⟨⟨(h.1 (by decide) (by decide)).1, (h.1 (by decide) (by decide)).2.1 (by decide)⟩,
    h.2.2.2.2.1 (by decide) (by decide),
    (h.2.2.1 (by decide)).2 (by decide) (by decide) (by decide)⟩

/-! ## Rounds of linger -/

/-- One round of start linger and a cancel that finds the timer, on a connected
connection that does not linger: still connected, not lingering, the count one
less. -/
theorem linger_round (w : World) (now : Int) (ev : Option Slapi_Eq_Context)
    (hc : windows_conn_connected w.conn = true) (ha : w.conn.linger_active = false)
    (hlo : -2147483648 < w.conn.refcnt) (hhi : w.conn.refcnt ≤ 2147483647) :
    windows_conn_connected
        (windows_conn_cancel_linger (windows_conn_start_linger w now ev) 1).conn = true ∧
    (windows_conn_cancel_linger (windows_conn_start_linger w now ev) 1).conn.linger_active =
      false ∧
    (windows_conn_cancel_linger (windows_conn_start_linger w now ev) 1).conn.refcnt =
      w.conn.refcnt - 1 := by
  have hs : windows_conn_start_linger w now ev =
      { (w.call (ExtCall.slapi_eq_once_rel (now + w.conn.linger_time))) with
        conn := { w.conn with linger_active := true, linger_event := ev,
                              status := STATUS_LINGERING } } := by
    simp [windows_conn_start_linger, hc, ha, World.call]
  rw [hs]
  refine ⟨?_, ?_, ?_⟩
  · simp only [windows_conn_cancel_linger, if_true, World.call, windows_conn_connected] at hc ⊢
    exact hc
  · simp [windows_conn_cancel_linger]
  · simp [windows_conn_cancel_linger, World.call,
      to_int_range (w.conn.refcnt - 1) (by omega) (by omega)]

/-- The count after rounds of linger on a connected connection that does not
linger, while the count stays in the range of `int`. -/
theorem linger_cycles_refcnt (cycles : List (Int × Option Slapi_Eq_Context)) (w : World)
    (hc : windows_conn_connected w.conn = true) (ha : w.conn.linger_active = false)
    (hhi : w.conn.refcnt ≤ 2147483647)
    (hlo : -2147483648 ≤ w.conn.refcnt - cycles.length) :
    (linger_cycles w cycles).conn.refcnt = w.conn.refcnt - cycles.length := by
  induction cycles generalizing w with
  | nil => simp [linger_cycles]
  | cons x rest ih =>
    obtain ⟨now, ev⟩ := x
    simp only [List.length_cons, Nat.cast_add, Nat.cast_one] at hlo
    obtain ⟨h1, h2, h3⟩ := linger_round w now ev hc ha (by omega) hhi
    simp only [linger_cycles, List.length_cons, Nat.cast_add, Nat.cast_one]
    rw [ih _ h1 h2 (by omega) (by omega), h3]
    omega

/-! ## C30 -/

/-- C30: windows_conn_start_linger leaves the reference count as it is;
windows_conn_cancel_linger on a lingering connection lowers it by one when it
finds and cancels the timer (the count being above the least `int`); a
connection made by windows_conn_new, connected, and put through n rounds of
start linger and cancel linger whose cancels all find the timer has the count
1 - n, for n up to 2^31 + 1, which is as far as an `int` can follow; and no
public call or timer callback raises a count that is in the range of `int`
above the least one. -/
theorem refcnt_only_falls (K : Headers) (w w2 : World) (now : Int)
    (ev : Option Slapi_Eq_Context) (raw : Repl_Connection) (agmt : Option Repl_Agmt)
    (cfg : AgmtView) (c : Repl_Connection) (env : ConnectEnv)
    (cycles : List (Int × Option Slapi_Eq_Context)) :
    (windows_conn_start_linger w now ev).conn.refcnt = w.conn.refcnt ∧
    (w.conn.linger_active = true → -2147483648 < w.conn.refcnt →
      w.conn.refcnt ≤ 2147483647 →
      (windows_conn_cancel_linger w 1).conn.refcnt = w.conn.refcnt - 1) ∧
    (windows_conn_new K raw true agmt cfg = some c →
      (windows_conn_connect K { conn := c, calls := [] } env).1.conn.state = STATE_CONNECTED →
      cycles.length ≤ 2147483649 →
      c.refcnt = 1 ∧
      (linger_cycles (windows_conn_connect K { conn := c, calls := [] } env).1
        cycles).conn.refcnt = 1 - cycles.length) ∧
    (PublicStep K w w2 → -2147483648 < w.conn.refcnt → w.conn.refcnt ≤ 2147483647 →
      w2.conn.refcnt ≤ w.conn.refcnt) := by
  refine ⟨?_, ?_, ?_, ?_⟩
  · unfold windows_conn_start_linger
    simp only []
    split_ifs <;> rfl
  · intro h1 h2 h3
    simp [windows_conn_cancel_linger, h1, World.call,
      to_int_range (w.conn.refcnt - 1) (by omega) (by omega)]
  · intro hnew hconn hlen
    have hc : c.refcnt = 1 ∧ c.linger_active = false := by
      unfold windows_conn_new at hnew
      split_ifs at hnew
      cases hnew
      exact ⟨rfl, rfl⟩
    have hf := linger_fields_connect K { conn := c, calls := [] } env
    simp only [linger_fields, Prod.mk.injEq] at hf
    have hr : (windows_conn_connect K { conn := c, calls := [] } env).1.conn.refcnt = 1 :=
      hf.2.2.2.1.trans hc.1
    have ha : (windows_conn_connect K { conn := c, calls := [] } env).1.conn.linger_active =
        false := hf.1.trans hc.2
    have hcn : windows_conn_connected
        (windows_conn_connect K { conn := c, calls := [] } env).1.conn = true := by
      unfold windows_conn_connected
      rw [hconn]
      rfl
    refine ⟨hc.1, ?_⟩
    rw [linger_cycles_refcnt cycles _ hcn ha (by rw [hr]; decide) (by rw [hr]; omega), hr]
  · intro hs h1 h2
    rcases (step_refcnt K w w2 hs).2 with h | ⟨_, h⟩
    · exact le_of_eq h
    · rw [h, to_int_range (w.conn.refcnt - 1) (by omega) (by omega)]
      omega

/-- The sample connection after three rounds of linger: the count is -2. -/
theorem refcnt_only_falls_witness :
    sample_world.conn.refcnt = 1 ∧
    (linger_cycles sample_connected
      [(1000, some ⟨1⟩), (2000, some ⟨2⟩), (3000, some ⟨3⟩)]).conn.refcnt = 1 - 3 :=
  (refcnt_only_falls openldap sample_world sample_world 0 none sample_raw (some ⟨1⟩) sample_cfg
    sample_world.conn sample_env [(1000, some ⟨1⟩), (2000, some ⟨2⟩), (3000, some ⟨3⟩)]).2.2.1
    rfl (by decide) (by decide)

/-! ## A bounded range among other subtypes -/

/-- The tokens of two runs of subtypes. -/
theorem sub_tokens_append (l1 l2 : List (List Char)) (off : Nat) :
    sub_tokens off (l1 ++ l2) =
      sub_tokens off l1 ++ sub_tokens (off + (l1.map (fun s => ';' :: s)).flatten.length) l2 := by
  induction l1 generalizing off with
  | nil => simp [sub_tokens]
  | cons s ss ih =>
    have e : off + ((s :: ss).map (fun s => ';' :: s)).flatten.length =
        off + s.length + 1 + (ss.map (fun s => ';' :: s)).flatten.length := by
      simp only [List.map_cons, List.flatten_cons, List.length_append, List.length_cons]
      omega
    rw [e, List.cons_append, sub_tokens, sub_tokens, ih, List.cons_append]

/-- While `newa` is `NULL`, subtypes that are no range change nothing. -/
theorem scan_fold_skip (a : List Char) (subs : List (List Char)) (off : Nat) (st : SubtypeScan)
    (hn : st.newa = none) (h : ∀ s ∈ subs, is_range_subtype s = false) :
    (sub_tokens off subs).foldlM (scan_subtype a) st = some st := by
  induction subs generalizing off with
  | nil => rfl
  | cons s ss ih =>
    have e1 : scan_subtype a st (off, s) = some st := by
      simp [scan_subtype, h s (by simp), hn]
    simp only [sub_tokens, List.foldlM_cons, e1, Option.bind_eq_bind, Option.some_bind]
    exact ih _ (fun t ht => h t (by simp [ht]))

/-- After `newa` was made, subtypes that are no range are appended to it and
`high` stays as it is. -/
theorem scan_fold_keep (a : List Char) (post : List (List Char)) (off : Nat) (n : List Char)
    (hi : Int) (h : ∀ s ∈ post, is_range_subtype s = false)
    (hfit : n.length + (post.map (fun s => ';' :: s)).flatten.length ≤ a.length) :
    (sub_tokens off post).foldlM (scan_subtype a) ⟨some n, hi⟩ =
      some ⟨some (n ++ (post.map (fun s => ';' :: s)).flatten), hi⟩ := by
  induction post generalizing off n with
  | nil => simp [sub_tokens]
  | cons s ss ih =>
    simp only [List.map_cons, List.flatten_cons, List.length_append, List.length_cons] at hfit
    have e1 : scan_subtype a ⟨some n, hi⟩ (off, s) = some ⟨some (n ++ ';' :: s), hi⟩ := by
      simp only [scan_subtype, h s (by simp), Bool.false_eq_true, if_false]
      rw [PR_snprintf_fits _ _ (by simp only [List.length_cons]; omega)]
    simp only [sub_tokens, List.foldlM_cons, e1, Option.bind_eq_bind, Option.some_bind]
    rw [ih _ _ (fun t ht => h t (by simp [ht]))
      (by simp only [List.length_append, List.length_cons]; omega)]
    simp

/-- The token `range=low-high` with a decimal upper bound from 1 to 2^31 - 2,
met while `newa` is `NULL`: the name is cut before the token and `high` is the
bound plus one. -/
theorem scan_subtype_bounded_token (a : List Char) (st : SubtypeScan) (off : Nat)
    (low high : List Char) (hn : st.newa = none)
    (hlow : ∀ c ∈ low, c.isDigit = true)
    (hhigh : high ≠ [] ∧ ∀ c ∈ high, c.isDigit = true)
    (hpos : 0 < digits_value 0 high) (hmax : digits_value 0 high < 2147483647) :
    scan_subtype a st (off, SUBTYPERANGE.data ++ low ++ '-' :: high) =
      some ⟨some ((PR_snprintf (a.length + 2) a).take (off - 1)),
        (digits_value 0 high : Int) + 1⟩ := by
  have hdash : '-' ∉ SUBTYPERANGE.data ++ low := by
    simp only [List.mem_append, not_or]
    exact ⟨by simp [SUBTYPERANGE], fun h => (digit_facts _ (hlow _ h)).2.1 rfl⟩
  obtain ⟨hne, hdig⟩ := hhigh
  have hstar : high.head? ≠ some '*' := by
    cases high with
    | nil => exact absurd rfl hne
    | cons c cs =>
      simp only [List.head?_cons, ne_eq, Option.some.injEq]
      exact (digit_facts c (hdig c (by simp))).2.2.2.1
  have hv := strtol_digits high hne hdig (by omega)
  have hi : to_int (digits_value 0 high : Int) = (digits_value 0 high : Int) :=
    to_int_fits _ (Int.natCast_nonneg _) (by omega)
  have hi2 : to_int ((digits_value 0 high : Int) + 1) = (digits_value 0 high : Int) + 1 :=
    to_int_fits _ (by omega) (by omega)
  have hp : (0 : Int) < (digits_value 0 high : Int) := by exact_mod_cast hpos
  simp only [scan_subtype]
  rw [List.append_assoc, is_range_subtype_range]
  simp only [if_true]
  rw [← List.append_assoc, strchr_first '-' _ high hdash]
  simp only [List.drop_succ_cons, List.drop_zero, hstar, if_false, hv, hi, hp, if_true, hi2, hn]

/-- The subtype `range=low-high` is not empty and has no separator. -/
theorem range_subtype_wellformed (low high : List Char)
    (hlow : ∀ c ∈ low, c.isDigit = true) (hhigh : ∀ c ∈ high, c.isDigit = true) :
    SUBTYPERANGE.data ++ low ++ '-' :: high ≠ [] ∧
      ';' ∉ SUBTYPERANGE.data ++ low ++ '-' :: high := by
  refine ⟨by simp [SUBTYPERANGE], ?_⟩
  simp only [List.mem_append, List.mem_cons, not_or]
  exact ⟨⟨by simp [SUBTYPERANGE], fun h => (digit_facts _ (hlow _ h)).1 rfl⟩, by decide,
    fun h => (digit_facts _ (hhigh _ h)).1 rfl⟩

/-- An attribute that is not skipped and needs a next range, met while the
out-parameter is still `NULL`, stores its next-range name there. -/
theorem m2e_attribute_stores (K : Headers) (st : M2EState) (x : LDAPAttribute)
    (scan : SubtypeScan) (n : List Char) (hsk : m2e_skipped x.atype = false)
    (hscan : scan_subtypes x.atype.data = some scan) (hhigh : scan.high > 0)
    (hnewa : scan.newa = some n)
    (hex : st.exattrs = some none) (hlen : st.exattrlen = st.exattridx) :
    ∃ st', m2e_attribute K 0 st x = some st' ∧
      st'.exattrs = some (some [next_range_name x.atype.data n scan.high]) := by
  have hcomp : m2e_attribute K 0 st x =
      m2e_next_range (m2e_merge { st with
        rawentry := (slapi_entry_add_values st.rawentry x.atype x.vals) }
        (type_to_use K x.atype scan.newa) x.vals) x.atype.data scan := by
    unfold m2e_attribute
    simp only [hsk, if_false, ne_eq, not_true_eq_false, hscan, Bool.false_eq_true]
  rw [hcomp]
  generalize hst1 : ({ st with
    rawentry := (slapi_entry_add_values st.rawentry x.atype x.vals) } : M2EState) = st1
  have hex1 : st1.exattrs = some none := by rw [← hst1]; exact hex
  have hlen1 : st1.exattrlen = st1.exattridx := by rw [← hst1]; exact hlen
  have hm := m2e_merge_exattrs st1 (type_to_use K x.atype scan.newa) x.vals
  rw [m2e_next_range_first _ _ n _ (hm.1.trans hex1)
    ((hm.2.1.trans hlen1).trans hm.2.2.symm) hhigh hnewa]
  exact ⟨_, rfl, rfl⟩

/-! ## C29 -/

/-- C29: let the name a be made of a base name, subtypes that are no range,
the subtype range=low-high and further subtypes that are no range, where the
base and the subtypes are not empty and have no separator, low is a non-empty
run of decimal digits and high a run of decimal digits whose value is from 1
to 2^31 - 2. Then the subtype loop returns with `newa` the name without the
range subtype and `high` the bound plus one; the next-range name printed into
the buffer of `strlen(a) + 2` bytes is the whole name
newa;range=(high+1)-*, not cut; its length is at most `strlen(a) + 1`; and it
is the name windows_LDAPMessage2Entry stores in an out-parameter that holds
`NULL`. -/
theorem continuation_fits (K : Headers) (base : List Char) (pre post : List (List Char))
    (low high : List Char)
    (hbase : base ≠ [] ∧ ';' ∉ base)
    (hpre : ∀ s ∈ pre, s ≠ [] ∧ ';' ∉ s ∧ is_range_subtype s = false)
    (hpost : ∀ s ∈ post, s ≠ [] ∧ ';' ∉ s ∧ is_range_subtype s = false)
    (hlow : low ≠ [] ∧ ∀ c ∈ low, c.isDigit = true)
    (hhigh : high ≠ [] ∧ ∀ c ∈ high, c.isDigit = true)
    (hpos : 0 < digits_value 0 high) (hmax : digits_value 0 high < 2147483647) :
    scan_subtypes (attr_name base (pre ++ [SUBTYPERANGE.data ++ low ++ '-' :: high] ++ post)) =
      some ⟨some (attr_name base (pre ++ post)), (digits_value 0 high : Int) + 1⟩ ∧
    next_range_name (attr_name base (pre ++ [SUBTYPERANGE.data ++ low ++ '-' :: high] ++ post))
        (attr_name base (pre ++ post)) ((digits_value 0 high : Int) + 1) =
      String.mk (attr_name base (pre ++ post) ++ ';' :: (SUBTYPERANGE.data ++
        (toString (digits_value 0 high + 1)).data ++ ['-', '*'])) ∧
    (attr_name base (pre ++ post) ++ ';' :: (SUBTYPERANGE.data ++
        (toString (digits_value 0 high + 1)).data ++ ['-', '*'])).length ≤
      (attr_name base (pre ++ [SUBTYPERANGE.data ++ low ++ '-' :: high] ++ post)).length + 1 ∧
    (∀ (st : M2EState) (vals : Option (List String)), st.exattrs = some none →
      st.exattrlen = st.exattridx →
      ∃ st', m2e_attribute K 0 st
          ⟨String.mk (attr_name base
            (pre ++ [SUBTYPERANGE.data ++ low ++ '-' :: high] ++ post)), vals⟩ = some st' ∧
        st'.exattrs = some (some [String.mk (attr_name base (pre ++ post) ++
          ';' :: (SUBTYPERANGE.data ++ (toString (digits_value 0 high + 1)).data ++
            ['-', '*']))])) := by
  have hrg := range_subtype_wellformed low high hlow.2 hhigh.2
  have hsubs : ∀ s ∈ pre ++ [SUBTYPERANGE.data ++ low ++ '-' :: high] ++ post,
      s ≠ [] ∧ ';' ∉ s := by
    intro s hs
    simp only [List.mem_append, List.mem_singleton] at hs
    rcases hs with (h | h) | h
    · exact ⟨(hpre s h).1, (hpre s h).2.1⟩
    · rw [h]; exact hrg
    · exact ⟨(hpost s h).1, (hpost s h).2.1⟩
  have hlen : (Nat.repr (digits_value 0 high + 1)).length ≤ high.length + 1 := by
    apply Nat.repr_length _ _ (by omega)
    have := digits_value_lt high 0 hhigh.2
    simp only [Nat.zero_add, Nat.one_mul] at this
    calc digits_value 0 high + 1 ≤ 10 ^ high.length := this
      _ < 10 ^ (high.length + 1) := Nat.pow_lt_pow_right (by decide) (by omega)
  have hl : 0 < low.length := List.length_pos.mpr hlow.1
  have hts : toString ((digits_value 0 high : Int) + 1) = Nat.repr (digits_value 0 high + 1) := by
    rfl
  have e : (Nat.repr (digits_value 0 high + 1)).data.length =
      (Nat.repr (digits_value 0 high + 1)).length := rfl
  have hname : attr_name base (pre ++ [SUBTYPERANGE.data ++ low ++ '-' :: high] ++ post) =
      attr_name base pre ++ ((';' :: (SUBTYPERANGE.data ++ low ++ '-' :: high)) ++
        (post.map (fun s => ';' :: s)).flatten) := by
    simp [attr_name]
  have hscan : scan_subtypes
      (attr_name base (pre ++ [SUBTYPERANGE.data ++ low ++ '-' :: high] ++ post)) =
      some ⟨some (attr_name base (pre ++ post)), (digits_value 0 high : Int) + 1⟩ := by
    unfold scan_subtypes
    rw [strtok_scan_attr_name base _ hbase hsubs]
    simp only [List.drop_succ_cons, List.drop_zero]
    rw [sub_tokens_append, sub_tokens_append, List.foldlM_append, List.foldlM_append,
      scan_fold_skip _ pre _ _ rfl (fun s hs => (hpre s hs).2.2)]
    simp only [Option.bind_eq_bind, Option.some_bind, sub_tokens, List.foldlM_cons,
      List.foldlM_nil]
    rw [scan_subtype_bounded_token _ _ _ low high rfl hlow.2 hhigh hpos hmax]
    simp only [Option.some_bind, Option.pure_def]
    have hcut : (PR_snprintf ((attr_name base
          (pre ++ [SUBTYPERANGE.data ++ low ++ '-' :: high] ++ post)).length + 2)
        (attr_name base (pre ++ [SUBTYPERANGE.data ++ low ++ '-' :: high] ++ post))).take
          (base.length + 1 + (pre.map (fun s => ';' :: s)).flatten.length - 1) =
        attr_name base pre := by
      rw [PR_snprintf_fits _ _ (by omega), hname]
      have : base.length + 1 + (pre.map (fun s => ';' :: s)).flatten.length - 1 =
          (attr_name base pre).length := by
        simp [attr_name]
      rw [this]
      simp
    rw [hcut, scan_fold_keep _ post _ _ _ (fun s hs => (hpost s hs).2.2)
      (by rw [hname]; simp only [List.length_append]; omega), attr_name_append]
  have hfitlen : (attr_name base (pre ++ post) ++ ';' :: (SUBTYPERANGE.data ++
        (toString (digits_value 0 high + 1)).data ++ ['-', '*'])).length ≤
      (attr_name base (pre ++ [SUBTYPERANGE.data ++ low ++ '-' :: high] ++ post)).length + 1 := by
    rw [hname, attr_name_append]
    have hts2 : (toString (digits_value 0 high + 1)) = Nat.repr (digits_value 0 high + 1) := rfl
    simp only [hts2, SUBTYPERANGE, List.length_append, List.length_cons, List.length_nil, e]
    simp only [String.length] at hlen ⊢
    omega
  have hnext : next_range_name
        (attr_name base (pre ++ [SUBTYPERANGE.data ++ low ++ '-' :: high] ++ post))
        (attr_name base (pre ++ post)) ((digits_value 0 high : Int) + 1) =
      String.mk (attr_name base (pre ++ post) ++ ';' :: (SUBTYPERANGE.data ++
        (toString (digits_value 0 high + 1)).data ++ ['-', '*'])) := by
    unfold next_range_name
    rw [hts, PR_snprintf_fits]
    · rfl
    · have h2 := hfitlen
      have hts2 : (toString (digits_value 0 high + 1)) = Nat.repr (digits_value 0 high + 1) := rfl
      simp only [hts2, List.length_append, List.length_cons] at h2 ⊢
      omega
  refine ⟨hscan, hnext, hfitlen, ?_⟩
  intro st vals hex hl2
  have hsub : ';' ∈ attr_name base
      (pre ++ [SUBTYPERANGE.data ++ low ++ '-' :: high] ++ post) := by
    rw [hname]
    simp
  obtain ⟨st', h1, h2⟩ := m2e_attribute_stores K st
    ⟨String.mk (attr_name base (pre ++ [SUBTYPERANGE.data ++ low ++ '-' :: high] ++ post)),
      vals⟩ _ (attr_name base (pre ++ post)) (m2e_skipped_subtyped _ hsub) hscan
    (by show (digits_value 0 high : Int) + 1 > 0; omega) rfl hex hl2
  refine ⟨st', h1, ?_⟩
  rw [h2]
  simp only []
  rw [hnext]

/-- The name attr;x;range=0-9;y, 17 characters long: its next-range name
attr;x;y;range=10-* has 18 characters. -/
theorem continuation_fits_witness :
    scan_subtypes "attr;x;range=0-9;y".data = some ⟨some "attr;x;y".data, 10⟩ ∧
    next_range_name "attr;x;range=0-9;y".data "attr;x;y".data 10 = "attr;x;y;range=10-*" ∧
    "attr;x;y;range=10-*".data.length ≤ "attr;x;range=0-9;y".data.length + 1 :=
  have h := continuation_fits openldap "attr".data ["x".data] ["y".data] "0".data "9".data
    (by decide) (by decide) (by decide) (by decide) (by decide) (by decide) (by decide)
  ⟨h.1, h.2.1, h.2.2.1⟩

end WindowsConnection
